import Mathlib

/-!
incflo: face-velocity prediction on embedded boundaries and the MAC projection driver

Shallow embedding of

* `src/convection/incflo_mol_predict_eb.cpp` (`mol::predict_vels_on_faces_eb`), and
* `src/convection/incflo_compute_MAC_projected_velocities.cpp`
  (`incflo::compute_MAC_projected_velocities`).

`amrex::Real` is modelled in exact arithmetic by `ℚ`; `int` indices are `Int`.
An `Array4` is a total function of `(i,j,k,n)`.  The AMReX types the two files
only consume (`EBCellFlag`, `BCRec`, `Box`, `Geometry`) are records carrying
exactly the accessors the code calls.  A run of the driver is a total function to a
state that records the calls made and whether the process was ended by `amrex::Abort`
or died in a member call through a null pointer.
-/

set_option linter.unusedVariables false

namespace Incflo

/-! ## Data model -/

/-- The enumeration `amrex::BCType` (mathematical boundary types). -/
inductive BCType where
  | bogus
  | reflect_odd
  | int_dir
  | reflect_even
  | foextrap
  | ext_dir
  | hoextrap
  | hoextrapcc
  deriving DecidableEq, Repr

/-- A record `amrex::BCRec`: a low-side and a high-side type per direction. -/
structure BCRec where
  lo : Nat → BCType
  hi : Nat → BCType

/-- A cell flag `amrex::EBCellFlag`, seen through `isConnected(di,dj,dk)`. -/
structure EBCellFlag where
  isConnected : Int → Int → Int → Bool

/-- An index box `amrex::Box`, seen through `smallEnd(dir)` and `bigEnd(dir)`. -/
structure Box where
  smallEnd : Nat → Int
  bigEnd : Nat → Int

/-- The index set a `ParallelFor(Box(bx), ...)` visits. -/
def Box.contains (bx : Box) (i j k : Int) : Bool :=
  decide (bx.smallEnd 0 ≤ i ∧ i ≤ bx.bigEnd 0 ∧
          bx.smallEnd 1 ≤ j ∧ j ≤ bx.bigEnd 1 ∧
          bx.smallEnd 2 ≤ k ∧ k ≤ bx.bigEnd 2)

/-- A level geometry `amrex::Geometry`, seen through `Domain()`. -/
structure Geometry where
  Domain : Box

/-- An accessor `Array4<Real const>`: `a i j k n`. -/
abbrev Array4 := Int → Int → Int → Nat → ℚ

/-- An accessor `Array4<EBCellFlag const>`. -/
abbrev FlagArray := Int → Int → Int → EBCellFlag

/-- A one-component face accessor `Array4<Real>` used as `u(i,j,k)`. -/
abbrev FaceArray := Int → Int → Int → ℚ

/-- The signature of `incflo_slopes_eb(i,j,k,n,vcc,ccc,flag)`
(declared in `incflo_slopes_K.H`); the result is indexed `[0]`, `[1]`, `[2]`. -/
abbrev SlopesEb := Int → Int → Int → Nat → Array4 → Array4 → FlagArray → Nat → ℚ

/-- The signature of `incflo_slopes_extdir_eb(i,j,k,n,vcc,ccc,flag,
extdir_ilo,extdir_ihi,domain_ilo,domain_ihi, ... ,extdir_klo,extdir_khi,domain_klo,domain_khi)`
(declared in `incflo_slopes_K.H`). -/
abbrev SlopesExtdirEb :=
  Int → Int → Int → Nat → Array4 → Array4 → FlagArray →
    Bool → Bool → Int → Int → Bool → Bool → Int → Int → Bool → Bool → Int → Int → Nat → ℚ

/-- The constant `small_vel = 1.e-10` (line 33). -/
def small_vel : ℚ := 1 / 10000000000

/-- The anonymous-namespace helper `has_extdir(bcrec, ncomp, dir)` (lines 7-15). -/
def has_extdir (bcrec : Nat → BCRec) (ncomp : Nat) (dir : Nat) : Bool × Bool :=
  (List.range ncomp).foldl
    (fun r n => (r.1 || decide ((bcrec n).lo dir = BCType.ext_dir),
                 r.2 || decide ((bcrec n).hi dir = BCType.ext_dir)))
    (false, false)

/-! ## The six kernel bodies of `mol::predict_vels_on_faces_eb` -/

/-- The boundary-aware x-face kernel body (lines 60-134): the value stored in `u(i,j,k)`. -/
def x_kernel_extdir (slopes_extdir : SlopesExtdirEb)
    (vcc : Array4) (flag : FlagArray) (fcx ccc : Array4) (d_bcrec : Nat → BCRec)
    (domain_ilo domain_ihi domain_jlo domain_jhi domain_klo domain_khi : Int)
    (i j k : Int) : ℚ :=
  let u_val : ℚ := 0
  let extdir_ilo := decide ((d_bcrec 0).lo 0 = BCType.ext_dir)
  let extdir_ihi := decide ((d_bcrec 0).hi 0 = BCType.ext_dir)
  let extdir_jlo := decide ((d_bcrec 0).lo 1 = BCType.ext_dir)
  let extdir_jhi := decide ((d_bcrec 0).hi 1 = BCType.ext_dir)
  let extdir_klo := decide ((d_bcrec 0).lo 2 = BCType.ext_dir)
  let extdir_khi := decide ((d_bcrec 0).hi 2 = BCType.ext_dir)
  if (flag i j k).isConnected (-1) 0 0 = true then
    let yf := fcx i j k 0
    let zf := fcx i j k 1
    let delta_x := 0.5 + ccc i j k 0
    let delta_y := yf - ccc i j k 1
    let delta_z := zf - ccc i j k 2
    let vcc_mns := vcc (i-1) j k 0
    let vcc_pls := vcc i j k 0
    let cc_umax := max vcc_pls vcc_mns
    let cc_umin := min vcc_pls vcc_mns
    let slopes_eb_hi := slopes_extdir i j k 0 vcc ccc flag
        extdir_ilo extdir_ihi domain_ilo domain_ihi
        extdir_jlo extdir_jhi domain_jlo domain_jhi
        extdir_klo extdir_khi domain_klo domain_khi
    let upls := vcc_pls - delta_x * slopes_eb_hi 0
                        + delta_y * slopes_eb_hi 1
                        + delta_z * slopes_eb_hi 2
    let upls := max (min upls cc_umax) cc_umin
    let delta_x := 0.5 - ccc (i-1) j k 0
    let delta_y := yf - ccc (i-1) j k 1
    let delta_z := zf - ccc (i-1) j k 2
    let slopes_eb_lo := slopes_extdir (i-1) j k 0 vcc ccc flag
        extdir_ilo extdir_ihi domain_ilo domain_ihi
        extdir_jlo extdir_jhi domain_jlo domain_jhi
        extdir_klo extdir_khi domain_klo domain_khi
    let umns := vcc_mns + delta_x * slopes_eb_lo 0
                        + delta_y * slopes_eb_lo 1
                        + delta_z * slopes_eb_lo 2
    let umns := max (min umns cc_umax) cc_umin
    let u_val :=
      if umns ≥ 0 ∨ upls ≤ 0 then
        let avg := 0.5 * (upls + umns)
        if avg ≥ small_vel then umns
        else if avg ≤ -small_vel then upls
        else u_val
      else u_val
    if extdir_ilo = true ∧ i = domain_ilo then vcc_mns
    else if extdir_ihi = true ∧ i = domain_ihi + 1 then vcc_pls
    else u_val
  else u_val

/-- The plain x-face kernel body (lines 141-194): the value stored in `u(i,j,k)`. -/
def x_kernel_plain (slopes_eb : SlopesEb)
    (vcc : Array4) (flag : FlagArray) (fcx ccc : Array4)
    (i j k : Int) : ℚ :=
  let u_val : ℚ := 0
  if (flag i j k).isConnected (-1) 0 0 = true then
    let yf := fcx i j k 0
    let zf := fcx i j k 1
    let delta_x := 0.5 + ccc i j k 0
    let delta_y := yf - ccc i j k 1
    let delta_z := zf - ccc i j k 2
    let vcc_mns := vcc (i-1) j k 0
    let vcc_pls := vcc i j k 0
    let cc_umax := max vcc_pls vcc_mns
    let cc_umin := min vcc_pls vcc_mns
    let slopes_eb_hi := slopes_eb i j k 0 vcc ccc flag
    let upls := vcc_pls - delta_x * slopes_eb_hi 0
                        + delta_y * slopes_eb_hi 1
                        + delta_z * slopes_eb_hi 2
    let upls := max (min upls cc_umax) cc_umin
    let delta_x := 0.5 - ccc (i-1) j k 0
    let delta_y := yf - ccc (i-1) j k 1
    let delta_z := zf - ccc (i-1) j k 2
    let slopes_eb_lo := slopes_eb (i-1) j k 0 vcc ccc flag
    let umns := vcc_mns + delta_x * slopes_eb_lo 0
                        + delta_y * slopes_eb_lo 1
                        + delta_z * slopes_eb_lo 2
    let umns := max (min umns cc_umax) cc_umin
    if umns ≥ 0 ∨ upls ≤ 0 then
      let avg := 0.5 * (upls + umns)
      if avg ≥ small_vel then umns
      else if avg ≤ -small_vel then upls
      else u_val
    else u_val
  else u_val

/-- The boundary-aware y-face kernel body (lines 211-286): the value stored in `v(i,j,k)`. -/
def y_kernel_extdir (slopes_extdir : SlopesExtdirEb)
    (vcc : Array4) (flag : FlagArray) (fcy ccc : Array4) (d_bcrec : Nat → BCRec)
    (domain_ilo domain_ihi domain_jlo domain_jhi domain_klo domain_khi : Int)
    (i j k : Int) : ℚ :=
  let v_val : ℚ := 0
  let extdir_ilo := decide ((d_bcrec 1).lo 0 = BCType.ext_dir)
  let extdir_ihi := decide ((d_bcrec 1).hi 0 = BCType.ext_dir)
  let extdir_jlo := decide ((d_bcrec 1).lo 1 = BCType.ext_dir)
  let extdir_jhi := decide ((d_bcrec 1).hi 1 = BCType.ext_dir)
  let extdir_klo := decide ((d_bcrec 1).lo 2 = BCType.ext_dir)
  let extdir_khi := decide ((d_bcrec 1).hi 2 = BCType.ext_dir)
  if (flag i j k).isConnected 0 (-1) 0 = true then
    let xf := fcy i j k 0
    let zf := fcy i j k 1
    let delta_x := xf - ccc i j k 0
    let delta_y := 0.5 + ccc i j k 1
    let delta_z := zf - ccc i j k 2
    let vcc_mns := vcc i (j-1) k 1
    let vcc_pls := vcc i j k 1
    let cc_vmax := max vcc_pls vcc_mns
    let cc_vmin := min vcc_pls vcc_mns
    let slopes_eb_hi := slopes_extdir i j k 1 vcc ccc flag
        extdir_ilo extdir_ihi domain_ilo domain_ihi
        extdir_jlo extdir_jhi domain_jlo domain_jhi
        extdir_klo extdir_khi domain_klo domain_khi
    let vpls := vcc_pls + delta_x * slopes_eb_hi 0
                        - delta_y * slopes_eb_hi 1
                        + delta_z * slopes_eb_hi 2
    let vpls := max (min vpls cc_vmax) cc_vmin
    let delta_x := xf - ccc i (j-1) k 0
    let delta_y := 0.5 - ccc i (j-1) k 1
    let delta_z := zf - ccc i (j-1) k 2
    let slopes_eb_lo := slopes_extdir i (j-1) k 1 vcc ccc flag
        extdir_ilo extdir_ihi domain_ilo domain_ihi
        extdir_jlo extdir_jhi domain_jlo domain_jhi
        extdir_klo extdir_khi domain_klo domain_khi
    let vmns := vcc_mns + delta_x * slopes_eb_lo 0
                        + delta_y * slopes_eb_lo 1
                        + delta_z * slopes_eb_lo 2
    let vmns := max (min vmns cc_vmax) cc_vmin
    let v_val :=
      if vmns ≥ 0 ∨ vpls ≤ 0 then
        let avg := 0.5 * (vpls + vmns)
        if avg ≥ small_vel then vmns
        else if avg ≤ -small_vel then vpls
        else v_val
      else v_val
    if extdir_jlo = true ∧ j = domain_jlo then vcc_mns
    else if extdir_jhi = true ∧ j = domain_jhi + 1 then vcc_pls
    else v_val
  else v_val

/-- The plain y-face kernel body (lines 292-345): the value stored in `v(i,j,k)`. -/
def y_kernel_plain (slopes_eb : SlopesEb)
    (vcc : Array4) (flag : FlagArray) (fcy ccc : Array4)
    (i j k : Int) : ℚ :=
  let v_val : ℚ := 0
  if (flag i j k).isConnected 0 (-1) 0 = true then
    let xf := fcy i j k 0
    let zf := fcy i j k 1
    let delta_x := xf - ccc i j k 0
    let delta_y := 0.5 + ccc i j k 1
    let delta_z := zf - ccc i j k 2
    let vcc_mns := vcc i (j-1) k 1
    let vcc_pls := vcc i j k 1
    let cc_vmax := max vcc_pls vcc_mns
    let cc_vmin := min vcc_pls vcc_mns
    let slopes_eb_hi := slopes_eb i j k 1 vcc ccc flag
    let vpls := vcc_pls + delta_x * slopes_eb_hi 0
                        - delta_y * slopes_eb_hi 1
                        + delta_z * slopes_eb_hi 2
    let vpls := max (min vpls cc_vmax) cc_vmin
    let delta_x := xf - ccc i (j-1) k 0
    let delta_y := 0.5 - ccc i (j-1) k 1
    let delta_z := zf - ccc i (j-1) k 2
    let slopes_eb_lo := slopes_eb i (j-1) k 1 vcc ccc flag
    let vmns := vcc_mns + delta_x * slopes_eb_lo 0
                        + delta_y * slopes_eb_lo 1
                        + delta_z * slopes_eb_lo 2
    let vmns := max (min vmns cc_vmax) cc_vmin
    if vmns ≥ 0 ∨ vpls ≤ 0 then
      let avg := 0.5 * (vpls + vmns)
      if avg ≥ small_vel then vmns
      else if avg ≤ -small_vel then vpls
      else v_val
    else v_val
  else v_val

/-- The boundary-aware z-face kernel body (lines 362-437): the value stored in `w(i,j,k)`. -/
def z_kernel_extdir (slopes_extdir : SlopesExtdirEb)
    (vcc : Array4) (flag : FlagArray) (fcz ccc : Array4) (d_bcrec : Nat → BCRec)
    (domain_ilo domain_ihi domain_jlo domain_jhi domain_klo domain_khi : Int)
    (i j k : Int) : ℚ :=
  let w_val : ℚ := 0
  let extdir_ilo := decide ((d_bcrec 2).lo 0 = BCType.ext_dir)
  let extdir_ihi := decide ((d_bcrec 2).hi 0 = BCType.ext_dir)
  let extdir_jlo := decide ((d_bcrec 2).lo 1 = BCType.ext_dir)
  let extdir_jhi := decide ((d_bcrec 2).hi 1 = BCType.ext_dir)
  let extdir_klo := decide ((d_bcrec 2).lo 2 = BCType.ext_dir)
  let extdir_khi := decide ((d_bcrec 2).hi 2 = BCType.ext_dir)
  if (flag i j k).isConnected 0 0 (-1) = true then
    let xf := fcz i j k 0
    let yf := fcz i j k 1
    let delta_x := xf - ccc i j k 0
    let delta_y := yf - ccc i j k 1
    let delta_z := 0.5 + ccc i j k 2
    let vcc_mns := vcc i j (k-1) 2
    let vcc_pls := vcc i j k 2
    let cc_wmax := max vcc_pls vcc_mns
    let cc_wmin := min vcc_pls vcc_mns
    let slopes_eb_hi := slopes_extdir i j k 2 vcc ccc flag
        extdir_ilo extdir_ihi domain_ilo domain_ihi
        extdir_jlo extdir_jhi domain_jlo domain_jhi
        extdir_klo extdir_khi domain_klo domain_khi
    let wpls := vcc_pls + delta_x * slopes_eb_hi 0
                        + delta_y * slopes_eb_hi 1
                        - delta_z * slopes_eb_hi 2
    let wpls := max (min wpls cc_wmax) cc_wmin
    let delta_x := xf - ccc i j (k-1) 0
    let delta_y := yf - ccc i j (k-1) 1
    let delta_z := 0.5 - ccc i j (k-1) 2
    let slopes_eb_lo := slopes_extdir i j (k-1) 2 vcc ccc flag
        extdir_ilo extdir_ihi domain_ilo domain_ihi
        extdir_jlo extdir_jhi domain_jlo domain_jhi
        extdir_klo extdir_khi domain_klo domain_khi
    let wmns := vcc_mns + delta_x * slopes_eb_lo 0
                        + delta_y * slopes_eb_lo 1
                        + delta_z * slopes_eb_lo 2
    let wmns := max (min wmns cc_wmax) cc_wmin
    let w_val :=
      if wmns ≥ 0 ∨ wpls ≤ 0 then
        let avg := 0.5 * (wpls + wmns)
        if avg ≥ small_vel then wmns
        else if avg ≤ -small_vel then wpls
        else w_val
      else w_val
    if extdir_klo = true ∧ k = domain_klo then vcc_mns
    else if extdir_khi = true ∧ k = domain_khi + 1 then vcc_pls
    else w_val
  else w_val

/-- The plain z-face kernel body (lines 443-496): the value stored in `w(i,j,k)`. -/
def z_kernel_plain (slopes_eb : SlopesEb)
    (vcc : Array4) (flag : FlagArray) (fcz ccc : Array4)
    (i j k : Int) : ℚ :=
  let w_val : ℚ := 0
  if (flag i j k).isConnected 0 0 (-1) = true then
    let xf := fcz i j k 0
    let yf := fcz i j k 1
    let delta_x := xf - ccc i j k 0
    let delta_y := yf - ccc i j k 1
    let delta_z := 0.5 + ccc i j k 2
    let vcc_mns := vcc i j (k-1) 2
    let vcc_pls := vcc i j k 2
    let cc_wmax := max vcc_pls vcc_mns
    let cc_wmin := min vcc_pls vcc_mns
    let slopes_eb_hi := slopes_eb i j k 2 vcc ccc flag
    let wpls := vcc_pls + delta_x * slopes_eb_hi 0
                        + delta_y * slopes_eb_hi 1
                        - delta_z * slopes_eb_hi 2
    let wpls := max (min wpls cc_wmax) cc_wmin
    let delta_x := xf - ccc i j (k-1) 0
    let delta_y := yf - ccc i j (k-1) 1
    let delta_z := 0.5 - ccc i j (k-1) 2
    let slopes_eb_lo := slopes_eb i j (k-1) 2 vcc ccc flag
    let wmns := vcc_mns + delta_x * slopes_eb_lo 0
                        + delta_y * slopes_eb_lo 1
                        + delta_z * slopes_eb_lo 2
    let wmns := max (min wmns cc_wmax) cc_wmin
    if wmns ≥ 0 ∨ wpls ≤ 0 then
      let avg := 0.5 * (wpls + wmns)
      if avg ≥ small_vel then wmns
      else if avg ≤ -small_vel then wpls
      else w_val
    else w_val
  else w_val

/-! ## The clamped one-sided states of each kernel body -/

/-- The pair `(upls, umns)` of clamped one-sided states the boundary-aware
x-face kernel forms on a connected face (lines 64-114). -/
def x_states_extdir (slopes_extdir : SlopesExtdirEb)
    (vcc : Array4) (flag : FlagArray) (fcx ccc : Array4) (d_bcrec : Nat → BCRec)
    (domain_ilo domain_ihi domain_jlo domain_jhi domain_klo domain_khi : Int)
    (i j k : Int) : ℚ × ℚ :=
  let extdir_ilo := decide ((d_bcrec 0).lo 0 = BCType.ext_dir)
  let extdir_ihi := decide ((d_bcrec 0).hi 0 = BCType.ext_dir)
  let extdir_jlo := decide ((d_bcrec 0).lo 1 = BCType.ext_dir)
  let extdir_jhi := decide ((d_bcrec 0).hi 1 = BCType.ext_dir)
  let extdir_klo := decide ((d_bcrec 0).lo 2 = BCType.ext_dir)
  let extdir_khi := decide ((d_bcrec 0).hi 2 = BCType.ext_dir)
  let yf := fcx i j k 0
  let zf := fcx i j k 1
  let delta_x := 0.5 + ccc i j k 0
  let delta_y := yf - ccc i j k 1
  let delta_z := zf - ccc i j k 2
  let vcc_mns := vcc (i-1) j k 0
  let vcc_pls := vcc i j k 0
  let cc_umax := max vcc_pls vcc_mns
  let cc_umin := min vcc_pls vcc_mns
  let slopes_eb_hi := slopes_extdir i j k 0 vcc ccc flag
      extdir_ilo extdir_ihi domain_ilo domain_ihi
      extdir_jlo extdir_jhi domain_jlo domain_jhi
      extdir_klo extdir_khi domain_klo domain_khi
  let upls := vcc_pls - delta_x * slopes_eb_hi 0
                      + delta_y * slopes_eb_hi 1
                      + delta_z * slopes_eb_hi 2
  let upls := max (min upls cc_umax) cc_umin
  let delta_x := 0.5 - ccc (i-1) j k 0
  let delta_y := yf - ccc (i-1) j k 1
  let delta_z := zf - ccc (i-1) j k 2
  let slopes_eb_lo := slopes_extdir (i-1) j k 0 vcc ccc flag
      extdir_ilo extdir_ihi domain_ilo domain_ihi
      extdir_jlo extdir_jhi domain_jlo domain_jhi
      extdir_klo extdir_khi domain_klo domain_khi
  let umns := vcc_mns + delta_x * slopes_eb_lo 0
                      + delta_y * slopes_eb_lo 1
                      + delta_z * slopes_eb_lo 2
  let umns := max (min umns cc_umax) cc_umin
  (upls, umns)

/-- The pair `(upls, umns)` of clamped one-sided states the plain
x-face kernel forms on a connected face (lines 147-180). -/
def x_states_plain (slopes_eb : SlopesEb)
    (vcc : Array4) (flag : FlagArray) (fcx ccc : Array4)
    (i j k : Int) : ℚ × ℚ :=
  let yf := fcx i j k 0
  let zf := fcx i j k 1
  let delta_x := 0.5 + ccc i j k 0
  let delta_y := yf - ccc i j k 1
  let delta_z := zf - ccc i j k 2
  let vcc_mns := vcc (i-1) j k 0
  let vcc_pls := vcc i j k 0
  let cc_umax := max vcc_pls vcc_mns
  let cc_umin := min vcc_pls vcc_mns
  let slopes_eb_hi := slopes_eb i j k 0 vcc ccc flag
  let upls := vcc_pls - delta_x * slopes_eb_hi 0
                      + delta_y * slopes_eb_hi 1
                      + delta_z * slopes_eb_hi 2
  let upls := max (min upls cc_umax) cc_umin
  let delta_x := 0.5 - ccc (i-1) j k 0
  let delta_y := yf - ccc (i-1) j k 1
  let delta_z := zf - ccc (i-1) j k 2
  let slopes_eb_lo := slopes_eb (i-1) j k 0 vcc ccc flag
  let umns := vcc_mns + delta_x * slopes_eb_lo 0
                      + delta_y * slopes_eb_lo 1
                      + delta_z * slopes_eb_lo 2
  let umns := max (min umns cc_umax) cc_umin
  (upls, umns)

/-- The pair `(vpls, vmns)` of clamped one-sided states the boundary-aware
y-face kernel forms on a connected face (lines 215-265). -/
def y_states_extdir (slopes_extdir : SlopesExtdirEb)
    (vcc : Array4) (flag : FlagArray) (fcy ccc : Array4) (d_bcrec : Nat → BCRec)
    (domain_ilo domain_ihi domain_jlo domain_jhi domain_klo domain_khi : Int)
    (i j k : Int) : ℚ × ℚ :=
  let extdir_ilo := decide ((d_bcrec 1).lo 0 = BCType.ext_dir)
  let extdir_ihi := decide ((d_bcrec 1).hi 0 = BCType.ext_dir)
  let extdir_jlo := decide ((d_bcrec 1).lo 1 = BCType.ext_dir)
  let extdir_jhi := decide ((d_bcrec 1).hi 1 = BCType.ext_dir)
  let extdir_klo := decide ((d_bcrec 1).lo 2 = BCType.ext_dir)
  let extdir_khi := decide ((d_bcrec 1).hi 2 = BCType.ext_dir)
  let xf := fcy i j k 0
  let zf := fcy i j k 1
  let delta_x := xf - ccc i j k 0
  let delta_y := 0.5 + ccc i j k 1
  let delta_z := zf - ccc i j k 2
  let vcc_mns := vcc i (j-1) k 1
  let vcc_pls := vcc i j k 1
  let cc_vmax := max vcc_pls vcc_mns
  let cc_vmin := min vcc_pls vcc_mns
  let slopes_eb_hi := slopes_extdir i j k 1 vcc ccc flag
      extdir_ilo extdir_ihi domain_ilo domain_ihi
      extdir_jlo extdir_jhi domain_jlo domain_jhi
      extdir_klo extdir_khi domain_klo domain_khi
  let vpls := vcc_pls + delta_x * slopes_eb_hi 0
                      - delta_y * slopes_eb_hi 1
                      + delta_z * slopes_eb_hi 2
  let vpls := max (min vpls cc_vmax) cc_vmin
  let delta_x := xf - ccc i (j-1) k 0
  let delta_y := 0.5 - ccc i (j-1) k 1
  let delta_z := zf - ccc i (j-1) k 2
  let slopes_eb_lo := slopes_extdir i (j-1) k 1 vcc ccc flag
      extdir_ilo extdir_ihi domain_ilo domain_ihi
      extdir_jlo extdir_jhi domain_jlo domain_jhi
      extdir_klo extdir_khi domain_klo domain_khi
  let vmns := vcc_mns + delta_x * slopes_eb_lo 0
                      + delta_y * slopes_eb_lo 1
                      + delta_z * slopes_eb_lo 2
  let vmns := max (min vmns cc_vmax) cc_vmin
  (vpls, vmns)

/-- The pair `(vpls, vmns)` of clamped one-sided states the plain
y-face kernel forms on a connected face (lines 298-331). -/
def y_states_plain (slopes_eb : SlopesEb)
    (vcc : Array4) (flag : FlagArray) (fcy ccc : Array4)
    (i j k : Int) : ℚ × ℚ :=
  let xf := fcy i j k 0
  let zf := fcy i j k 1
  let delta_x := xf - ccc i j k 0
  let delta_y := 0.5 + ccc i j k 1
  let delta_z := zf - ccc i j k 2
  let vcc_mns := vcc i (j-1) k 1
  let vcc_pls := vcc i j k 1
  let cc_vmax := max vcc_pls vcc_mns
  let cc_vmin := min vcc_pls vcc_mns
  let slopes_eb_hi := slopes_eb i j k 1 vcc ccc flag
  let vpls := vcc_pls + delta_x * slopes_eb_hi 0
                      - delta_y * slopes_eb_hi 1
                      + delta_z * slopes_eb_hi 2
  let vpls := max (min vpls cc_vmax) cc_vmin
  let delta_x := xf - ccc i (j-1) k 0
  let delta_y := 0.5 - ccc i (j-1) k 1
  let delta_z := zf - ccc i (j-1) k 2
  let slopes_eb_lo := slopes_eb i (j-1) k 1 vcc ccc flag
  let vmns := vcc_mns + delta_x * slopes_eb_lo 0
                      + delta_y * slopes_eb_lo 1
                      + delta_z * slopes_eb_lo 2
  let vmns := max (min vmns cc_vmax) cc_vmin
  (vpls, vmns)

/-- The pair `(wpls, wmns)` of clamped one-sided states the boundary-aware
z-face kernel forms on a connected face (lines 366-416). -/
def z_states_extdir (slopes_extdir : SlopesExtdirEb)
    (vcc : Array4) (flag : FlagArray) (fcz ccc : Array4) (d_bcrec : Nat → BCRec)
    (domain_ilo domain_ihi domain_jlo domain_jhi domain_klo domain_khi : Int)
    (i j k : Int) : ℚ × ℚ :=
  let extdir_ilo := decide ((d_bcrec 2).lo 0 = BCType.ext_dir)
  let extdir_ihi := decide ((d_bcrec 2).hi 0 = BCType.ext_dir)
  let extdir_jlo := decide ((d_bcrec 2).lo 1 = BCType.ext_dir)
  let extdir_jhi := decide ((d_bcrec 2).hi 1 = BCType.ext_dir)
  let extdir_klo := decide ((d_bcrec 2).lo 2 = BCType.ext_dir)
  let extdir_khi := decide ((d_bcrec 2).hi 2 = BCType.ext_dir)
  let xf := fcz i j k 0
  let yf := fcz i j k 1
  let delta_x := xf - ccc i j k 0
  let delta_y := yf - ccc i j k 1
  let delta_z := 0.5 + ccc i j k 2
  let vcc_mns := vcc i j (k-1) 2
  let vcc_pls := vcc i j k 2
  let cc_wmax := max vcc_pls vcc_mns
  let cc_wmin := min vcc_pls vcc_mns
  let slopes_eb_hi := slopes_extdir i j k 2 vcc ccc flag
      extdir_ilo extdir_ihi domain_ilo domain_ihi
      extdir_jlo extdir_jhi domain_jlo domain_jhi
      extdir_klo extdir_khi domain_klo domain_khi
  let wpls := vcc_pls + delta_x * slopes_eb_hi 0
                      + delta_y * slopes_eb_hi 1
                      - delta_z * slopes_eb_hi 2
  let wpls := max (min wpls cc_wmax) cc_wmin
  let delta_x := xf - ccc i j (k-1) 0
  let delta_y := yf - ccc i j (k-1) 1
  let delta_z := 0.5 - ccc i j (k-1) 2
  let slopes_eb_lo := slopes_extdir i j (k-1) 2 vcc ccc flag
      extdir_ilo extdir_ihi domain_ilo domain_ihi
      extdir_jlo extdir_jhi domain_jlo domain_jhi
      extdir_klo extdir_khi domain_klo domain_khi
  let wmns := vcc_mns + delta_x * slopes_eb_lo 0
                      + delta_y * slopes_eb_lo 1
                      + delta_z * slopes_eb_lo 2
  let wmns := max (min wmns cc_wmax) cc_wmin
  (wpls, wmns)

/-- The pair `(wpls, wmns)` of clamped one-sided states the plain
z-face kernel forms on a connected face (lines 449-482). -/
def z_states_plain (slopes_eb : SlopesEb)
    (vcc : Array4) (flag : FlagArray) (fcz ccc : Array4)
    (i j k : Int) : ℚ × ℚ :=
  let xf := fcz i j k 0
  let yf := fcz i j k 1
  let delta_x := xf - ccc i j k 0
  let delta_y := yf - ccc i j k 1
  let delta_z := 0.5 + ccc i j k 2
  let vcc_mns := vcc i j (k-1) 2
  let vcc_pls := vcc i j k 2
  let cc_wmax := max vcc_pls vcc_mns
  let cc_wmin := min vcc_pls vcc_mns
  let slopes_eb_hi := slopes_eb i j k 2 vcc ccc flag
  let wpls := vcc_pls + delta_x * slopes_eb_hi 0
                      + delta_y * slopes_eb_hi 1
                      - delta_z * slopes_eb_hi 2
  let wpls := max (min wpls cc_wmax) cc_wmin
  let delta_x := xf - ccc i j (k-1) 0
  let delta_y := yf - ccc i j (k-1) 1
  let delta_z := 0.5 - ccc i j (k-1) 2
  let slopes_eb_lo := slopes_eb i j (k-1) 2 vcc ccc flag
  let wmns := vcc_mns + delta_x * slopes_eb_lo 0
                      + delta_y * slopes_eb_lo 1
                      + delta_z * slopes_eb_lo 2
  let wmns := max (min wmns cc_wmax) cc_wmin
  (wpls, wmns)

/-! ## The upwind selection and the driver `mol::predict_vels_on_faces_eb` -/

/-- The upwind selection of lines 116-125, as a function of the two clamped states:
`u_val` starts at `0` and is overwritten by `mns` or `pls`. -/
def upwind_select (mns pls : ℚ) : ℚ :=
  let u_val : ℚ := 0
  if mns ≥ 0 ∨ pls ≤ 0 then
    let avg := 0.5 * (pls + mns)
    if avg ≥ small_vel then mns
    else if avg ≤ -small_vel then pls
    else u_val
  else u_val

/-- The number of space dimensions `AMREX_SPACEDIM` the file is written for. -/
def AMREX_SPACEDIM : Nat := 3

/-- The loop `amrex::ParallelFor(Box(bx), [=](int i,int j,int k){ a(i,j,k) = f(i,j,k); })`:
every index of the box receives the kernel value, every other entry keeps its content. -/
def ParallelFor (bx : Box) (f : Int → Int → Int → ℚ) (a : FaceArray) : FaceArray :=
  fun i j k => if bx.contains i j k = true then f i j k else a i j k

/-- The three face arrays `u`, `v`, `w` the driver writes. -/
structure Faces where
  u : FaceArray
  v : FaceArray
  w : FaceArray

/-- The driver `mol::predict_vels_on_faces_eb` (lines 19-499).  The two slope routines of
`incflo_slopes_K.H` are parameters. -/
def predict_vels_on_faces_eb (slopes_eb : SlopesEb) (slopes_extdir : SlopesExtdirEb)
    (lev : Nat) (ccbx ubx vbx wbx : Box) (u v w : FaceArray)
    (vcc : Array4) (flag : FlagArray) (fcx fcy fcz ccc : Array4)
    (h_bcrec : Nat → BCRec) (d_bcrec : Nat → BCRec) (geom : Nat → Geometry) : Faces :=
  let domain_box := (geom lev).Domain
  let domain_ilo := domain_box.smallEnd 0
  let domain_ihi := domain_box.bigEnd 0
  let domain_jlo := domain_box.smallEnd 1
  let domain_jhi := domain_box.bigEnd 1
  let domain_klo := domain_box.smallEnd 2
  let domain_khi := domain_box.bigEnd 2
  let ncomp := AMREX_SPACEDIM
  -- x-faces
  let extdir_lohi := has_extdir h_bcrec ncomp 0
  let has_extdir_lo := extdir_lohi.1
  let has_extdir_hi := extdir_lohi.2
  let u :=
    if (has_extdir_lo = true ∧ domain_ilo ≥ ubx.smallEnd 0 - 1) ∨
       (has_extdir_hi = true ∧ domain_ihi ≤ ubx.bigEnd 0) then
      ParallelFor ubx (x_kernel_extdir slopes_extdir vcc flag fcx ccc d_bcrec
        domain_ilo domain_ihi domain_jlo domain_jhi domain_klo domain_khi) u
    else
      ParallelFor ubx (x_kernel_plain slopes_eb vcc flag fcx ccc) u
  -- y-faces
  let extdir_lohi := has_extdir h_bcrec ncomp 1
  let has_extdir_lo := extdir_lohi.1
  let has_extdir_hi := extdir_lohi.2
  let v :=
    if (has_extdir_lo = true ∧ domain_jlo ≥ vbx.smallEnd 1 - 1) ∨
       (has_extdir_hi = true ∧ domain_jhi ≤ vbx.bigEnd 1) then
      ParallelFor vbx (y_kernel_extdir slopes_extdir vcc flag fcy ccc d_bcrec
        domain_ilo domain_ihi domain_jlo domain_jhi domain_klo domain_khi) v
    else
      ParallelFor vbx (y_kernel_plain slopes_eb vcc flag fcy ccc) v
  -- z-faces
  let extdir_lohi := has_extdir h_bcrec ncomp 2
  let has_extdir_lo := extdir_lohi.1
  let has_extdir_hi := extdir_lohi.2
  let w :=
    if (has_extdir_lo = true ∧ domain_klo ≥ wbx.smallEnd 2 - 1) ∨
       (has_extdir_hi = true ∧ domain_khi ≤ wbx.bigEnd 2) then
      ParallelFor wbx (z_kernel_extdir slopes_extdir vcc flag fcz ccc d_bcrec
        domain_ilo domain_ihi domain_jlo domain_jhi domain_klo domain_khi) w
    else
      ParallelFor wbx (z_kernel_plain slopes_eb vcc flag fcz ccc) w
  { u := u, v := v, w := w }

/-! ## Concrete inputs for the closed examples of the predictor -/

/-- A level whose domain is the cells `0..3` in every direction. -/
def ex_geom : Nat → Geometry := fun _ => ⟨⟨fun _ => 0, fun _ => 3⟩⟩

/-- The cell box `0..3` in every direction. -/
def ex_ccbx : Box := ⟨fun _ => 0, fun _ => 3⟩

/-- The x-face box of `ex_ccbx`: faces `0..4` along x. -/
def ex_ubx : Box := ⟨fun _ => 0, fun d => if d = 0 then 4 else 3⟩

/-- The y-face box of `ex_ccbx`: faces `0..4` along y. -/
def ex_vbx : Box := ⟨fun _ => 0, fun d => if d = 1 then 4 else 3⟩

/-- The z-face box of `ex_ccbx`: faces `0..4` along z. -/
def ex_wbx : Box := ⟨fun _ => 0, fun d => if d = 2 then 4 else 3⟩

/-- Boundary records with `ext_dir` on every low side and `foextrap` on every high side. -/
def ex_bcrec : Nat → BCRec := fun _ => ⟨fun _ => BCType.ext_dir, fun _ => BCType.foextrap⟩

/-- Boundary records without any `ext_dir` side. -/
def ex_bcrec_none : Nat → BCRec := fun _ => ⟨fun _ => BCType.foextrap, fun _ => BCType.foextrap⟩

/-- Flags reporting every neighbour connected. -/
def ex_flag_conn : FlagArray := fun _ _ _ => ⟨fun _ _ _ => true⟩

/-- Flags reporting no neighbour connected. -/
def ex_flag_wall : FlagArray := fun _ _ _ => ⟨fun _ _ _ => false⟩

/-- A velocity holding `3` in every cell with `i ≥ 0` and `5` in the ghost cells `i < 0`. -/
def ex_vcc : Array4 := fun i _ _ _ => if i < 0 then 5 else 3

/-- A velocity holding `3` in the ghost cells `i < 0` and `8` in every cell with `i ≥ 0`. -/
def ex_vcc_ghost : Array4 := fun i _ _ _ => if i < 0 then 3 else 8

/-- Centroid offsets that vanish everywhere. -/
def ex_cent : Array4 := fun _ _ _ _ => 0

/-- A plain slope routine returning `7` in every component. -/
def ex_slopes_eb : SlopesEb := fun _ _ _ _ _ _ _ _ => 7

/-- A boundary-aware slope routine returning `7` in every component. -/
def ex_slopes_extdir : SlopesExtdirEb := fun _ _ _ _ _ _ _ _ _ _ _ _ _ _ _ _ _ _ _ _ => 7

/-- The content of a face array before the driver runs. -/
def ex_face0 : FaceArray := fun _ _ _ => 9

/-! ## Data model of the MAC projection driver -/

/-- A box array `amrex::BoxArray`: the list of its boxes. -/
abbrev BoxArray := List Box

/-- A distribution mapping `amrex::DistributionMapping`: the owning rank of each box. -/
abbrev DistributionMapping := List Nat

/-- The box `amrex::grow(bx, ng)`. -/
def Box.grow (bx : Box) (ng : Int) : Box :=
  ⟨fun d => bx.smallEnd d - ng, fun d => bx.bigEnd d + ng⟩

/-- The box array `amrex::convert(ba, IntVect::TheDimensionVector(idim))`: the faces
normal to `idim` of every box. -/
def convert (ba : BoxArray) (idim : Nat) : BoxArray :=
  ba.map (fun bx => ⟨bx.smallEnd, fun d => if d = idim then bx.bigEnd d + 1 else bx.bigEnd d⟩)

/-- A field `amrex::MultiFab`: its box array, distribution map, number of components and
of ghost cells, and its data as a function of `(i,j,k,n)`. -/
structure MultiFab where
  boxArray : BoxArray
  DistributionMap : DistributionMapping
  nComp : Nat
  nGrow : Int
  data : Array4

/-- The index region of a field grown by `nghost` cells. -/
def MultiFab.region (mf : MultiFab) (nghost : Int) (i j k : Int) : Bool :=
  mf.boxArray.any (fun bx => (bx.grow nghost).contains i j k)

/-- Modelled from the spec: `MultiFab::define(ba, dm, ncomp, ngrow, MFInfo(), factory)`
gives the field its shape; the data are not yet meaningful and are taken to be `0`. -/
def MultiFab.define (ba : BoxArray) (dm : DistributionMapping) (ncomp : Nat) (ngrow : Int) :
    MultiFab :=
  { boxArray := ba, DistributionMap := dm, nComp := ncomp, nGrow := ngrow,
    data := fun _ _ _ _ => 0 }

/-- Modelled from the spec: `MultiFab::Add(dst, src, srccomp, dstcomp, numcomp, nghost)`
adds `numcomp` components of `src` to `dst` on the valid region grown by `nghost`. -/
def MultiFab.Add (dst src : MultiFab) (srccomp dstcomp numcomp : Nat) (nghost : Int) :
    MultiFab :=
  { dst with data := fun i j k n =>
      if dst.region nghost i j k = true ∧ dstcomp ≤ n ∧ n < dstcomp + numcomp then
        dst.data i j k n + src.data i j k (n - dstcomp + srccomp)
      else dst.data i j k n }

/-- Modelled from the spec: `mf.mult(val, comp, ncomp, nghost)` multiplies `ncomp`
components starting at `comp` by `val` on the valid region grown by `nghost`. -/
def MultiFab.mult (mf : MultiFab) (val : ℚ) (comp ncomp : Nat) (nghost : Int) : MultiFab :=
  { mf with data := fun i j k n =>
      if mf.region nghost i j k = true ∧ comp ≤ n ∧ n < comp + ncomp then
        mf.data i j k n * val
      else mf.data i j k n }

/-- Modelled from the spec: `mf.invert(numerator, nghost)` replaces every entry of every
component on the valid region grown by `nghost` by `numerator / entry` (pointwise
reciprocal, no protection against a zero entry). -/
def MultiFab.invert (mf : MultiFab) (numerator : ℚ) (nghost : Int) : MultiFab :=
  { mf with data := fun i j k n =>
      if mf.region nghost i j k = true ∧ n < mf.nComp then numerator / mf.data i j k n
      else mf.data i j k n }

/-- Modelled from the spec: `mf.setVal(val)` stores `val` in every entry. -/
def MultiFab.setVal (mf : MultiFab) (val : ℚ) : MultiFab :=
  { mf with data := fun _ _ _ _ => val }

/-- Modelled from the spec: `amrex::average_cellcenter_to_face(fc, cc, geom)`, the plain
two-cell average of component 0 of `cc` to the faces of each direction. -/
def average_cellcenter_to_face (fc : Nat → MultiFab) (cc : MultiFab) (geom : Geometry) :
    Nat → MultiFab :=
  fun idim =>
    { fc idim with data := fun i j k n =>
        if (fc idim).region 0 i j k = true ∧ n = 0 then
          if idim = 0 then 0.5 * (cc.data (i-1) j k 0 + cc.data i j k 0)
          else if idim = 1 then 0.5 * (cc.data i (j-1) k 0 + cc.data i j k 0)
          else 0.5 * (cc.data i j (k-1) 0 + cc.data i j k 0)
        else (fc idim).data i j k n }

/-- The coefficient handed to the projector: one scalar, or the face fields
`inv_rho[lev][idim]`. -/
inductive Beta where
  | scalar (c : ℚ)
  | faces (f : Nat → Nat → MultiFab)

/-- The multigrid settings `amrex::LPInfo`, seen through `setMaxCoarseningLevel`. -/
structure LPInfo where
  max_coarsening_level : Int

/-- The enumeration `MLMG::Location` as far as the driver uses it. -/
inductive Location where
  | FaceCenter
  | FaceCentroid
  deriving DecidableEq, Repr

/-- The enumeration `Orientation::Side`. -/
inductive Side where
  | low
  | high
  deriving DecidableEq, Repr

/-- The four face-velocity predictors the driver can call. -/
inductive Predictor where
  | EBGodunov
  | Godunov
  | EBMOL
  | MOL
  deriving DecidableEq, Repr

/-- The face velocities of one level, `AMREX_D_DECL(u_mac, v_mac, w_mac)`. -/
structure MacFaces where
  u : MultiFab
  v : MultiFab
  w : MultiFab

/-- Modelled from the spec: the state of the external `amrex::MacProjector` the driver
can observe or set: the flag behind `needInitialization()`, the coefficient last supplied,
and whether boundary types and face velocities have been registered. -/
structure MacProjector where
  m_needs_init : Bool
  beta : Option Beta
  domain_bc_set : Bool
  umac_set : Bool

/-- Modelled from the spec: `needInitialization()` reports the flag. -/
def MacProjector.needInitialization (p : MacProjector) : Bool := p.m_needs_init

/-- Modelled from the spec: `initProjector(ba, dm, lp_info, const_beta)`, the scalar
overload; it stores the coefficient and clears the flag. -/
def MacProjector.initProjector_scalar (p : MacProjector) (ba : List BoxArray)
    (dm : List DistributionMapping) (lp_info : LPInfo) (const_beta : ℚ) : MacProjector :=
  { p with m_needs_init := false, beta := some (Beta.scalar const_beta) }

/-- Modelled from the spec: `initProjector(lp_info, beta)`, the field overload; it stores
the coefficient and clears the flag. -/
def MacProjector.initProjector (p : MacProjector) (lp_info : LPInfo)
    (beta : Nat → Nat → MultiFab) : MacProjector :=
  { p with m_needs_init := false, beta := some (Beta.faces beta) }

/-- Modelled from the spec: `updateBeta(beta)` replaces the coefficient only. -/
def MacProjector.updateBeta (p : MacProjector) (beta : Beta) : MacProjector :=
  { p with beta := some beta }

/-- Modelled from the spec: `setDomainBC(lo, hi)` registers the boundary types. -/
def MacProjector.setDomainBC (p : MacProjector) (lo hi : Nat → Int) : MacProjector :=
  { p with domain_bc_set := true }

/-- Modelled from the spec: `setUMAC(mac_vec)` registers the face-velocity buffers. -/
def MacProjector.setUMAC (p : MacProjector) : MacProjector :=
  { p with umac_set := true }

/-- The members of class `incflo` and the build option the driver reads. -/
structure incflo where
  AMREX_USE_EB : Bool
  m_dt : ℚ
  m_cur_time : ℚ
  m_advection_type : String
  m_godunov_include_diff_in_forcing : Bool
  m_godunov_ppm : Bool
  m_godunov_use_forces_in_trans : Bool
  m_use_mac_phi_in_godunov : Bool
  m_constant_density : Bool
  m_ro_0 : ℚ
  m_mac_mg_max_coarsening_level : Int
  m_mac_mg_rtol : ℚ
  m_mac_mg_atol : ℚ
  m_verbose : Int
  finest_level : Int
  divtau_o : Nat → MultiFab
  grids : Nat → BoxArray
  dmap : Nat → DistributionMapping
  geom : Nat → Geometry

/-- The external collaborators of the driver, as functions: the ghost fill of the grid
hierarchy, the boundary-condition provider, the geometry factory, the face predictors of
the hydro library and the solve of the projector. -/
structure Collaborators where
  nghost_force : Int
  fillpatch_force : ℚ → (Nat → MultiFab) → Int → (Nat → MultiFab)
  get_density_bcrec : Nat → BCRec
  get_velocity_bcrec : Nat → BCRec
  get_velocity_bcrec_device_ptr : Nat → BCRec
  get_projection_bc : Side → Nat → Int
  isAllRegular : Nat → Bool
  EB_interp_CellCentroid_to_FaceCentroid :
    MultiFab → (Nat → MultiFab) → Nat → Nat → Nat → Geometry → (Nat → BCRec) → (Nat → MultiFab)
  FillBoundary : Geometry → MultiFab → MultiFab
  EBGodunov_ExtrapVelToFaces :
    MultiFab → MultiFab → MacFaces → (Nat → BCRec) → (Nat → BCRec) → Geometry → ℚ → MacFaces
  Godunov_ExtrapVelToFaces :
    MultiFab → MultiFab → MacFaces → (Nat → BCRec) → (Nat → BCRec) → Geometry → ℚ →
      Bool → Bool → MacFaces
  EBMOL_ExtrapVelToFaces :
    MultiFab → MacFaces → Geometry → (Nat → BCRec) → (Nat → BCRec) → MacFaces
  MOL_ExtrapVelToFaces :
    MultiFab → MacFaces → Geometry → (Nat → BCRec) → (Nat → BCRec) → MacFaces
  getFluxes :
    MacProjector → (Nat → Nat → MultiFab) → (Nat → MultiFab) → Location → (Nat → Nat → MultiFab)
  project : MacProjector → (Nat → Nat → MultiFab) → ℚ → ℚ → (Nat → Nat → MultiFab)
  project_phi :
    MacProjector → (Nat → Nat → MultiFab) → (Nat → MultiFab) → ℚ → ℚ →
      (Nat → Nat → MultiFab) × (Nat → MultiFab)

/-- The calls the driver makes, in the order it makes them. -/
inductive Event where
  | Add_divtau (lev : Nat)
  | fillpatch_force (nghost : Int)
  | define_inv_rho (lev idim : Nat) (slot_allocated : Bool)
  | interp (lev : Nat) (centroid : Bool)
  | invert (lev idim : Nat)
  | initProjector (beta : Beta)
  | setDomainBC
  | updateBeta (beta : Beta)
  | define_fluxes (lev idim : Nat)
  | getFluxes (loc : Location)
  | setVal (lev idim : Nat)
  | FillBoundary (lev : Nat)
  | ExtrapVelToFaces (p : Predictor) (lev : Nat)
  | Abort (msg : String)
  | setUMAC
  | Print (msg : String)
  | mult (lev : Nat) (val : ℚ)
  | project (with_phi : Bool) (rtol atol : ℚ)

/-- The arguments and members the driver mutates. -/
structure Fields where
  vel_forces : Nat → MultiFab
  u_mac : Nat → MultiFab
  v_mac : Nat → MultiFab
  w_mac : Nat → MultiFab
  mac_phi : Nat → MultiFab
  macproj : MacProjector

/-- The state of one run of the driver: the mutated fields, the locals `inv_rho` and
`m_fluxes`, whether `amrex::Abort` has ended the process, whether the process has died
(in a member call through a null pointer, or by an exception nothing catches), and the
calls made so far. -/
structure RunState extends Fields where
  inv_rho : Nat → Nat → MultiFab
  m_fluxes : Nat → Nat → MultiFab
  aborted : Bool
  crashed : Bool
  log : List Event

/-- Append one call to the log. -/
def emit (e : Event) (s : RunState) : RunState :=
  { s with log := s.log ++ [e] }

/-- The loop `for (int lev = 0; lev <= finest_level; ++lev) body`. -/
def forLev {σ : Type} (finest_level : Int) (body : Nat → σ → σ) (s : σ) : σ :=
  (List.range (finest_level + 1).toNat).foldl (fun s lev => body lev s) s

/-- The loop `for (int idim = 0; idim < AMREX_SPACEDIM; ++idim) body`. -/
def forDim {σ : Type} (body : Nat → σ → σ) (s : σ) : σ :=
  (List.range AMREX_SPACEDIM).foldl (fun s idim => body idim s) s

/-- A vector `Vector<MultiFab*> v(n)` (lines 47-51): `n` value-initialised pointers, each
of them null. -/
def Vector_of_pointers (n : Nat) : List (Option MultiFab) := List.replicate n none

/-- Whether slot `lev` of a pointer vector holds an allocated field. -/
def slot_allocated (v : List (Option MultiFab)) (lev : Nat) : Bool :=
  match v.get? lev with
  | some (some _) => true
  | _ => false

/-! ## The driver `incflo::compute_MAC_projected_velocities`, phase by phase -/

/-- Lines 32-43: the velocity forcing terms. -/
def forcing_terms (c : incflo) (x : Collaborators) (s : RunState) : RunState :=
  if c.m_advection_type ≠ "MOL" then
    let s :=
      if c.m_godunov_include_diff_in_forcing = true then
        forLev c.finest_level (fun lev s =>
          emit (Event.Add_divtau lev)
            { s with vel_forces := (Function.update s.vel_forces lev
                (MultiFab.Add (s.vel_forces lev) (c.divtau_o lev) 0 0 AMREX_SPACEDIM 0)) }) s
      else s
    if x.nghost_force > 0 then
      emit (Event.fillpatch_force x.nghost_force)
        { s with vel_forces := x.fillpatch_force c.m_cur_time s.vel_forces x.nghost_force }
    else s
  else s

/-- Sequencing of the statements of the driver: once the process has died, nothing more
is executed. -/
def alive (phase : RunState → RunState) (s : RunState) : RunState :=
  if s.crashed = true then s else phase s

/-- The member call `v[lev]->define(ba, dm, 1, 0, ...)` of lines 56-58 for direction `idim`,
`mf` being the field the call is written to define.  Through an allocated slot the call
defines the field and returns.  Through a null slot the call is made on no object: C++
gives it no defined behaviour, `define` writes to the members of the object it is called
on, and the process dies in the call, which is the last one the run makes. -/
def define_through_slot (v : List (Option MultiFab)) (lev idim : Nat) (mf : MultiFab)
    (s : RunState) : RunState :=
  if s.crashed = true then s
  else if slot_allocated v lev = true then
    emit (Event.define_inv_rho lev idim true)
      { s with inv_rho := (Function.update s.inv_rho lev
          (Function.update (s.inv_rho lev) idim mf)) }
  else
    emit (Event.define_inv_rho lev idim false) { s with crashed := true }

/-- Lines 47-59: the three pointer vectors `inv_rho_x`, `inv_rho_y`, `inv_rho_z` are created
with `finest_level+1` null entries, nothing assigns the entries, and `define` is called
through each of them, level by level.  A negative length makes the constructor of the
vector throw, which ends the process before any call. -/
def define_inv_rho (c : incflo) (s : RunState) : RunState :=
  if c.finest_level + 1 < 0 then { s with crashed := true }
  else
    let inv_rho_x := Vector_of_pointers (c.finest_level + 1).toNat
    let inv_rho_y := Vector_of_pointers (c.finest_level + 1).toNat
    let inv_rho_z := Vector_of_pointers (c.finest_level + 1).toNat
    forLev c.finest_level (fun lev s =>
      let s := define_through_slot inv_rho_x lev 0
        (MultiFab.define (s.u_mac lev).boxArray (c.dmap lev) 1 0) s
      let s := define_through_slot inv_rho_y lev 1
        (MultiFab.define (s.v_mac lev).boxArray (c.dmap lev) 1 0) s
      define_through_slot inv_rho_z lev 2
        (MultiFab.define (s.w_mac lev).boxArray (c.dmap lev) 1 0) s) s

/-- Lines 63-79: density is interpolated to the faces of each level and inverted. -/
def inverse_density (c : incflo) (x : Collaborators) (density : Nat → MultiFab)
    (s : RunState) : RunState :=
  forLev c.finest_level (fun lev s =>
    let s :=
      if c.AMREX_USE_EB = true then
        emit (Event.interp lev true)
          { s with inv_rho := (Function.update s.inv_rho lev
              (x.EB_interp_CellCentroid_to_FaceCentroid (density lev) (s.inv_rho lev)
                0 0 1 (c.geom lev) x.get_density_bcrec)) }
      else
        emit (Event.interp lev false)
          { s with inv_rho := (Function.update s.inv_rho lev
              (average_cellcenter_to_face (s.inv_rho lev) (density lev) (c.geom lev))) }
    forDim (fun idim s =>
      emit (Event.invert lev idim)
        { s with inv_rho := (Function.update s.inv_rho lev
            (Function.update (s.inv_rho lev) idim ((s.inv_rho lev idim).invert 1.0 0))) }) s) s

/-- Lines 84-112: the projector is initialised, or only its coefficient is replaced. -/
def init_or_update_projector (c : incflo) (x : Collaborators) (s : RunState) : RunState :=
  if s.macproj.needInitialization = true then
    let lp_info : LPInfo := ⟨c.m_mac_mg_max_coarsening_level⟩
    let s :=
      if c.AMREX_USE_EB = false ∧ c.m_constant_density = true then
        let ba := (List.range (c.finest_level + 1).toNat).map (fun lev => (s.inv_rho lev 0).boxArray)
        let dm := (List.range (c.finest_level + 1).toNat).map
          (fun lev => (s.inv_rho lev 0).DistributionMap)
        emit (Event.initProjector (Beta.scalar (1.0 / c.m_ro_0)))
          { s with macproj := s.macproj.initProjector_scalar ba dm lp_info (1.0 / c.m_ro_0) }
      else
        emit (Event.initProjector (Beta.faces s.inv_rho))
          { s with macproj := s.macproj.initProjector lp_info s.inv_rho }
    emit Event.setDomainBC
      { s with macproj := (s.macproj.setDomainBC (x.get_projection_bc Side.low)
          (x.get_projection_bc Side.high)) }
  else
    if c.AMREX_USE_EB = false ∧ c.m_constant_density = true then
      emit (Event.updateBeta (Beta.scalar (1.0 / c.m_ro_0)))
        { s with macproj := s.macproj.updateBeta (Beta.scalar (1.0 / c.m_ro_0)) }
    else
      emit (Event.updateBeta (Beta.faces s.inv_rho))
        { s with macproj := s.macproj.updateBeta (Beta.faces s.inv_rho) }

/-- Lines 114-137: the flux buffer is defined, then filled from the potential or zeroed. -/
def fluxes (c : incflo) (x : Collaborators) (s : RunState) : RunState :=
  let s := forLev c.finest_level (fun lev s =>
    forDim (fun idim s =>
      emit (Event.define_fluxes lev idim)
        { s with m_fluxes := (Function.update s.m_fluxes lev
            (Function.update (s.m_fluxes lev) idim
              (MultiFab.define (convert (c.grids lev) idim) (c.dmap lev) 1 0))) }) s) s
  if c.m_use_mac_phi_in_godunov = true then
    if c.AMREX_USE_EB = true then
      emit (Event.getFluxes Location.FaceCentroid)
        { s with m_fluxes := x.getFluxes s.macproj s.m_fluxes s.mac_phi Location.FaceCentroid }
    else
      emit (Event.getFluxes Location.FaceCenter)
        { s with m_fluxes := x.getFluxes s.macproj s.m_fluxes s.mac_phi Location.FaceCenter }
  else
    forLev c.finest_level (fun lev s =>
      forDim (fun idim s =>
        emit (Event.setVal lev idim)
          { s with m_fluxes := (Function.update s.m_fluxes lev
              (Function.update (s.m_fluxes lev) idim ((s.m_fluxes lev idim).setVal 0))) }) s) s

/-- Store the three face fields a predictor returns for level `lev`. -/
def set_mac (s : RunState) (lev : Nat) (f : MacFaces) : RunState :=
  { s with u_mac := Function.update s.u_mac lev f.u,
           v_mac := Function.update s.v_mac lev f.v,
           w_mac := Function.update s.w_mac lev f.w }

/-- Lines 139-179: per level, the potential's ghost cells are filled and one predictor is
called; an unknown advection type ends the process through `amrex::Abort`, after which
nothing more is executed. -/
def predict_to_faces (c : incflo) (x : Collaborators) (vel : Nat → MultiFab)
    (s : RunState) : RunState :=
  let l_dt := c.m_dt
  forLev c.finest_level (fun lev s =>
    if s.aborted = true then s
    else
      let s := emit (Event.FillBoundary lev)
        { s with mac_phi := (Function.update s.mac_phi lev
            (x.FillBoundary (c.geom lev) (s.mac_phi lev))) }
      let mac : MacFaces := ⟨s.u_mac lev, s.v_mac lev, s.w_mac lev⟩
      if c.m_advection_type = "Godunov" then
        if c.AMREX_USE_EB = true ∧ x.isAllRegular lev = false then
          emit (Event.ExtrapVelToFaces Predictor.EBGodunov lev)
            (set_mac s lev (x.EBGodunov_ExtrapVelToFaces (vel lev) (s.vel_forces lev) mac
              x.get_velocity_bcrec x.get_velocity_bcrec_device_ptr (c.geom lev) l_dt))
        else
          emit (Event.ExtrapVelToFaces Predictor.Godunov lev)
            (set_mac s lev (x.Godunov_ExtrapVelToFaces (vel lev) (s.vel_forces lev) mac
              x.get_velocity_bcrec x.get_velocity_bcrec_device_ptr (c.geom lev) l_dt
              c.m_godunov_ppm c.m_godunov_use_forces_in_trans))
      else if c.m_advection_type = "MOL" then
        if c.AMREX_USE_EB = true ∧ x.isAllRegular lev = false then
          emit (Event.ExtrapVelToFaces Predictor.EBMOL lev)
            (set_mac s lev (x.EBMOL_ExtrapVelToFaces (vel lev) mac (c.geom lev)
              x.get_velocity_bcrec x.get_velocity_bcrec_device_ptr))
        else
          emit (Event.ExtrapVelToFaces Predictor.MOL lev)
            (set_mac s lev (x.MOL_ExtrapVelToFaces (vel lev) mac (c.geom lev)
              x.get_velocity_bcrec x.get_velocity_bcrec_device_ptr))
      else
        emit (Event.Abort "Dont know this advection type") { s with aborted := true }) s

/-- The array `mac_vec[lev] = {u_mac[lev], v_mac[lev], w_mac[lev]}` of lines 180-186. -/
def mac_vec (s : RunState) : Nat → Nat → MultiFab :=
  fun lev idim => if idim = 0 then s.u_mac lev else if idim = 1 then s.v_mac lev else s.w_mac lev

/-- Store the face velocities the projector has corrected in place. -/
def store_mac_vec (s : RunState) (r : Nat → Nat → MultiFab) : RunState :=
  { s with u_mac := fun lev => r lev 0, v_mac := fun lev => r lev 1, w_mac := fun lev => r lev 2 }

/-- Lines 180-205: the face velocities are registered and the MAC projection is performed,
with the potential rescaled around the solve when it seeds the prediction. -/
def mac_projection (c : incflo) (x : Collaborators) (s : RunState) : RunState :=
  if s.aborted = true then s
  else
    let s := emit Event.setUMAC { s with macproj := s.macproj.setUMAC }
    let s := if c.m_verbose > 2 then emit (Event.Print "MAC Projection:\n") s else s
    if c.m_use_mac_phi_in_godunov = true then
      let s := forLev c.finest_level (fun lev s =>
        emit (Event.mult lev (c.m_dt / 2))
          { s with mac_phi := (Function.update s.mac_phi lev
              ((s.mac_phi lev).mult (c.m_dt / 2) 0 1 1)) }) s
      let r := x.project_phi s.macproj (mac_vec s) s.mac_phi c.m_mac_mg_rtol c.m_mac_mg_atol
      let s := emit (Event.project true c.m_mac_mg_rtol c.m_mac_mg_atol)
        { store_mac_vec s r.1 with mac_phi := r.2 }
      forLev c.finest_level (fun lev s =>
        emit (Event.mult lev (2 / c.m_dt))
          { s with mac_phi := (Function.update s.mac_phi lev
              ((s.mac_phi lev).mult (2 / c.m_dt) 0 1 1)) }) s
    else
      let r := x.project s.macproj (mac_vec s) c.m_mac_mg_rtol c.m_mac_mg_atol
      emit (Event.project false c.m_mac_mg_rtol c.m_mac_mg_atol) (store_mac_vec s r)

/-- The state at function entry: the mutated arguments and members, no local field
defined yet, the process running, no call made. -/
def entry (f : Fields) : RunState :=
  { f with
    inv_rho := fun _ _ => MultiFab.define [] [] 0 0,
    m_fluxes := fun _ _ => MultiFab.define [] [] 0 0,
    aborted := false,
    crashed := false,
    log := [] }

/-- The state in which the MAC projection of lines 180-205 starts, or the state in which
the process died before reaching it. -/
def before_projection (c : incflo) (x : Collaborators) (vel density : Nat → MultiFab)
    (f : Fields) : RunState :=
  alive (predict_to_faces c x vel)
    (alive (fluxes c x)
      (alive (init_or_update_projector c x)
        (alive (inverse_density c x density)
          (define_inv_rho c
            (forcing_terms c x (entry f))))))

/-- The driver `incflo::compute_MAC_projected_velocities` (lines 15-206). -/
def compute_MAC_projected_velocities (c : incflo) (x : Collaborators)
    (vel density : Nat → MultiFab) (f : Fields) : RunState :=
  alive (mac_projection c x) (before_projection c x vel density f)

/-- Successive runs of the driver (one per time step), each starting from the fields the
previous run left; a run that ends in `amrex::Abort`, or in which the process dies, is the
last one. -/
def run_steps (x : Collaborators) :
    List (incflo × (Nat → MultiFab) × (Nat → MultiFab)) → Fields → List RunState
  | [], _ => []
  | (c, vel, density) :: rest, f =>
    let r := compute_MAC_projected_velocities c x vel density f
    r :: (if r.aborted = true ∨ r.crashed = true then [] else run_steps x rest r.toFields)

/-- Whether a call is `initProjector` (either overload). -/
def Event.isInitProjector : Event → Bool
  | Event.initProjector _ => true
  | _ => false

/-- Whether a call is `setDomainBC`. -/
def Event.isSetDomainBC : Event → Bool
  | Event.setDomainBC => true
  | _ => false

/-- Whether a call is `updateBeta` (either overload). -/
def Event.isUpdateBeta : Event → Bool
  | Event.updateBeta _ => true
  | _ => false

/-- Whether a call hands a coefficient to the projector. -/
def Event.isCoefficient (e : Event) : Bool :=
  e.isInitProjector || e.isUpdateBeta

/-- Whether a call is `project` (either overload). -/
def Event.isProject : Event → Bool
  | Event.project _ _ _ => true
  | _ => false

/-- Whether a call is `mf.mult(...)` on the potential. -/
def Event.isMult : Event → Bool
  | Event.mult _ _ => true
  | _ => false

/-- Whether a call is `amrex::Abort`. -/
def Event.isAbort : Event → Bool
  | Event.Abort _ => true
  | _ => false

/-- The phase of the driver a call belongs to: 1 forcing, 2 inverse density,
3 projector coefficient, 4 flux buffer, 5 prediction, 6 projection. -/
def Event.stage : Event → Nat
  | Event.Add_divtau _ => 1
  | Event.fillpatch_force _ => 1
  | Event.define_inv_rho _ _ _ => 2
  | Event.interp _ _ => 2
  | Event.invert _ _ => 2
  | Event.initProjector _ => 3
  | Event.setDomainBC => 3
  | Event.updateBeta _ => 3
  | Event.define_fluxes _ _ => 4
  | Event.getFluxes _ => 4
  | Event.setVal _ _ => 4
  | Event.FillBoundary _ => 5
  | Event.ExtrapVelToFaces _ _ => 5
  | Event.Abort _ => 5
  | Event.setUMAC => 6
  | Event.Print _ => 6
  | Event.mult _ _ => 6
  | Event.project _ _ _ => 6

/-- The log `l'` is the log `l` followed by calls of phase `k` only. -/
def LogExt (k : Nat) (l l' : List Event) : Prop :=
  ∃ new : List Event, l' = l ++ new ∧ ∀ e ∈ new, e.stage = k

/-- Frame of the phases 1 and 2: only calls of phase `k` are logged, and the abort flag,
the projector and the face velocities are left as they were. -/
def KeepsA (k : Nat) (s t : RunState) : Prop :=
  LogExt k s.log t.log ∧ t.aborted = s.aborted ∧ t.macproj = s.macproj ∧
    t.u_mac = s.u_mac ∧ t.v_mac = s.v_mac ∧ t.w_mac = s.w_mac

/-- Frame of the phases 3 to 6: only calls of phase `k` are logged, the inverse-density
fields are left as they were, and an initialised projector stays initialised. -/
def KeepsB (k : Nat) (s t : RunState) : Prop :=
  LogExt k s.log t.log ∧ t.inv_rho = s.inv_rho ∧
    (s.macproj.m_needs_init = false → t.macproj.m_needs_init = false)

/-! ## Concrete inputs for the closed examples of the driver -/

/-- A field on the cell box `0..3` with three components, one ghost cell and the value `v`
in every entry. -/
def ex_mf (v : ℚ) : MultiFab :=
  { boxArray := [ex_ccbx], DistributionMap := [0], nComp := 3, nGrow := 1,
    data := fun _ _ _ _ => v }

/-- A face field of direction `idim` on the faces of `ex_ccbx`, holding `v`. -/
def ex_face_mf (idim : Nat) (v : ℚ) : MultiFab :=
  { boxArray := convert [ex_ccbx] idim, DistributionMap := [0], nComp := 1, nGrow := 0,
    data := fun _ _ _ _ => v }

/-- A one-level configuration built with embedded boundaries, with constant density
`m_ro_0 = 4`, the `MOL` scheme, a time step `1/10` and the potential seeding the prediction. -/
def ex_incflo : incflo :=
  { AMREX_USE_EB := true, m_dt := 1 / 10, m_cur_time := 0, m_advection_type := "MOL",
    m_godunov_include_diff_in_forcing := false, m_godunov_ppm := false,
    m_godunov_use_forces_in_trans := false, m_use_mac_phi_in_godunov := true,
    m_constant_density := true, m_ro_0 := 4, m_mac_mg_max_coarsening_level := 100,
    m_mac_mg_rtol := 1 / 100000, m_mac_mg_atol := 1 / 10000000, m_verbose := 0,
    finest_level := 0, divtau_o := fun _ => ex_mf 0, grids := fun _ => [ex_ccbx],
    dmap := fun _ => [0], geom := ex_geom }

/-- The configuration `ex_incflo` built without embedded boundaries. -/
def ex_incflo_noeb : incflo := { ex_incflo with AMREX_USE_EB := false }

/-- The configuration `ex_incflo` with an advection type the driver does not know. -/
def ex_incflo_unknown : incflo := { ex_incflo with m_advection_type := "WENO" }

/-- Collaborators that leave every field they are handed as it is. -/
def ex_collab : Collaborators :=
  { nghost_force := 0,
    fillpatch_force := fun _ f _ => f,
    get_density_bcrec := ex_bcrec_none,
    get_velocity_bcrec := ex_bcrec_none,
    get_velocity_bcrec_device_ptr := ex_bcrec_none,
    get_projection_bc := fun _ _ => 0,
    isAllRegular := fun _ => false,
    EB_interp_CellCentroid_to_FaceCentroid := fun _ fc _ _ _ _ _ => fc,
    FillBoundary := fun _ mf => mf,
    EBGodunov_ExtrapVelToFaces := fun _ _ m _ _ _ _ => m,
    Godunov_ExtrapVelToFaces := fun _ _ m _ _ _ _ _ _ => m,
    EBMOL_ExtrapVelToFaces := fun _ m _ _ _ => m,
    MOL_ExtrapVelToFaces := fun _ m _ _ _ => m,
    getFluxes := fun _ fl _ _ => fl,
    project := fun _ u _ _ => u,
    project_phi := fun _ u phi _ _ => (u, phi) }

/-- Fields of one level with a projector that has not been initialised, a potential equal
to `6` and a forcing equal to `1`. -/
def ex_fields : Fields :=
  { vel_forces := fun _ => ex_mf 1,
    u_mac := fun _ => ex_face_mf 0 2,
    v_mac := fun _ => ex_face_mf 1 2,
    w_mac := fun _ => ex_face_mf 2 2,
    mac_phi := fun _ => ex_mf 6,
    macproj := { m_needs_init := true, beta := none, domain_bc_set := false, umac_set := false } }

/-- A cell-centred velocity equal to `1`. -/
def ex_vel : Nat → MultiFab := fun _ => ex_mf 1

/-- A cell-centred density equal to `4` in every cell. -/
def ex_density : Nat → MultiFab := fun _ => ex_mf 4

/-! ## Specification-side definitions for the extrapolation formula -/

/-- Specification side: the centroid of a face normal to direction `d`, in the local
coordinates of an adjacent cell: the coordinate `normal` along `d` (`-0.5` seen from the
high cell, `+0.5` seen from the low cell) and the two transverse coordinates `t0`, `t1`
read from the face-centroid field, in increasing direction order. -/
def spec_face_centroid (d : Nat) (normal t0 t1 : ℚ) : Nat → ℚ :=
  fun n =>
    if d = 0 then (if n = 0 then normal else if n = 1 then t0 else t1)
    else if d = 1 then (if n = 0 then t0 else if n = 1 then normal else t1)
    else (if n = 0 then t0 else if n = 1 then t1 else normal)

/-- Specification side: the first-order extrapolation `v + slope . (x_face - x_centroid)`
from a cell centroid to a face centroid. -/
def spec_extrapolation (v : ℚ) (slope x_face x_centroid : Nat → ℚ) : ℚ :=
  v + (slope 0 * (x_face 0 - x_centroid 0) + slope 1 * (x_face 1 - x_centroid 1)
        + slope 2 * (x_face 2 - x_centroid 2))

/-- Boundary records with `ext_dir` on every high side and `foextrap` on every low side. -/
def ex_bcrec_hi : Nat → BCRec := fun _ => ⟨fun _ => BCType.foextrap, fun _ => BCType.ext_dir⟩

/-- A velocity whose component 0 is `ex_vcc` and whose other components hold `100`. -/
def ex_vcc_other : Array4 := fun i j k n => if n = 0 then ex_vcc i j k 0 else 100

/-- The assumption on the plain slope routine that the slopes of component `n` read only
component `n` of the velocity. -/
def SlopesEb.reads_own_component (s : SlopesEb) : Prop :=
  ∀ (i j k : Int) (n : Nat) (vcc vcc' ccc : Array4) (flag : FlagArray),
    (∀ a b c : Int, vcc a b c n = vcc' a b c n) →
    s i j k n vcc ccc flag = s i j k n vcc' ccc flag

/-- The assumption on the boundary-aware slope routine that the slopes of component `n`
read only component `n` of the velocity. -/
def SlopesExtdirEb.reads_own_component (s : SlopesExtdirEb) : Prop :=
  ∀ (i j k : Int) (n : Nat) (vcc vcc' ccc : Array4) (flag : FlagArray)
    (e1 e2 : Bool) (d1 d2 : Int) (e3 e4 : Bool) (d3 d4 : Int) (e5 e6 : Bool) (d5 d6 : Int),
    (∀ a b c : Int, vcc a b c n = vcc' a b c n) →
    s i j k n vcc ccc flag e1 e2 d1 d2 e3 e4 d3 d4 e5 e6 d5 d6
      = s i j k n vcc' ccc flag e1 e2 d1 d2 e3 e4 d3 d4 e5 e6 d5 d6

/-! ## The forcing after the loop over levels, and further classifiers of calls -/

/-- The forcing after the loop of lines 38-39 over `n = finest_level + 1` levels:
`divtau_o` is added to all `AMREX_SPACEDIM` components of each of these levels, on the
valid region. -/
def add_divtau_levels (n : Nat) (divtau_o forces : Nat → MultiFab) : Nat → MultiFab :=
  fun lev =>
    if lev < n then MultiFab.Add (forces lev) (divtau_o lev) 0 0 AMREX_SPACEDIM 0
    else forces lev

/-- Whether a call is the addition of `divtau_o` to the forcing. -/
def Event.isAddDivtau : Event → Bool
  | Event.Add_divtau _ => true
  | _ => false

/-- Whether a call is `fillpatch_force`. -/
def Event.isFillpatchForce : Event → Bool
  | Event.fillpatch_force _ => true
  | _ => false

/-- Whether a call is a `define` of an inverse-density field. -/
def Event.isDefineInvRho : Event → Bool
  | Event.define_inv_rho _ _ _ => true
  | _ => false

/-- Whether a call builds (interpolates) or inverts an inverse-density field. -/
def Event.isInverseDensity : Event → Bool
  | Event.interp _ _ => true
  | Event.invert _ _ => true
  | _ => false

/-- Whether a call is a face-velocity predictor. -/
def Event.isPredictor : Event → Bool
  | Event.ExtrapVelToFaces _ _ => true
  | _ => false

/-- Whether a call is `setUMAC`. -/
def Event.isSetUMAC : Event → Bool
  | Event.setUMAC => true
  | _ => false

/-- The configuration `ex_incflo` under the `"Godunov"` scheme with the diffusive term
folded into the forcing, the stored term being `10` in every entry. -/
def ex_incflo_godunov : incflo :=
  { ex_incflo with m_advection_type := "Godunov", m_godunov_include_diff_in_forcing := true,
                   divtau_o := fun _ => ex_mf 10 }

/-- The configuration `ex_incflo` (scheme `"MOL"`) with the include-diffusion option on, the
stored term being `10` in every entry. -/
def ex_incflo_mol_diff : incflo :=
  { ex_incflo with m_godunov_include_diff_in_forcing := true, divtau_o := fun _ => ex_mf 10 }

/-- A cell field holding the same value `3` in every cell and every component. -/
def ex_vcc_uniform : Array4 := fun _ _ _ _ => 3

/-- A cell field holding the same value `1e-11`, below `small_vel`, in every cell and
every component. -/
def ex_vcc_tiny : Array4 := fun _ _ _ _ => 1 / 100000000000

theorem x_kernel_extdir_eq (slopes_extdir : SlopesExtdirEb)
    (vcc : Array4) (flag : FlagArray) (fcx ccc : Array4) (d_bcrec : Nat → BCRec)
    (domain_ilo domain_ihi domain_jlo domain_jhi domain_klo domain_khi : Int) (i j k : Int) :
    x_kernel_extdir slopes_extdir vcc flag fcx ccc d_bcrec
        domain_ilo domain_ihi domain_jlo domain_jhi domain_klo domain_khi i j k
      = if (flag i j k).isConnected (-1) 0 0 = true then
          (if (d_bcrec 0).lo 0 = BCType.ext_dir ∧ i = domain_ilo then vcc (i-1) j k 0
           else if (d_bcrec 0).hi 0 = BCType.ext_dir ∧ i = domain_ihi + 1 then vcc i j k 0
           else upwind_select
             (x_states_extdir slopes_extdir vcc flag fcx ccc d_bcrec
               domain_ilo domain_ihi domain_jlo domain_jhi domain_klo domain_khi i j k).2
             (x_states_extdir slopes_extdir vcc flag fcx ccc d_bcrec
               domain_ilo domain_ihi domain_jlo domain_jhi domain_klo domain_khi i j k).1)
        else 0 := by
  simp only [x_kernel_extdir, x_states_extdir, upwind_select, decide_eq_true_eq]

theorem x_kernel_plain_eq (slopes_eb : SlopesEb)
    (vcc : Array4) (flag : FlagArray) (fcx ccc : Array4) (i j k : Int) :
    x_kernel_plain slopes_eb vcc flag fcx ccc i j k
      = if (flag i j k).isConnected (-1) 0 0 = true then
          upwind_select (x_states_plain slopes_eb vcc flag fcx ccc i j k).2
                        (x_states_plain slopes_eb vcc flag fcx ccc i j k).1
        else 0 := by
  rfl

theorem y_kernel_extdir_eq (slopes_extdir : SlopesExtdirEb)
    (vcc : Array4) (flag : FlagArray) (fcy ccc : Array4) (d_bcrec : Nat → BCRec)
    (domain_ilo domain_ihi domain_jlo domain_jhi domain_klo domain_khi : Int) (i j k : Int) :
    y_kernel_extdir slopes_extdir vcc flag fcy ccc d_bcrec
        domain_ilo domain_ihi domain_jlo domain_jhi domain_klo domain_khi i j k
      = if (flag i j k).isConnected 0 (-1) 0 = true then
          (if (d_bcrec 1).lo 1 = BCType.ext_dir ∧ j = domain_jlo then vcc i (j-1) k 1
           else if (d_bcrec 1).hi 1 = BCType.ext_dir ∧ j = domain_jhi + 1 then vcc i j k 1
           else upwind_select
             (y_states_extdir slopes_extdir vcc flag fcy ccc d_bcrec
               domain_ilo domain_ihi domain_jlo domain_jhi domain_klo domain_khi i j k).2
             (y_states_extdir slopes_extdir vcc flag fcy ccc d_bcrec
               domain_ilo domain_ihi domain_jlo domain_jhi domain_klo domain_khi i j k).1)
        else 0 := by
  simp only [y_kernel_extdir, y_states_extdir, upwind_select, decide_eq_true_eq]

theorem y_kernel_plain_eq (slopes_eb : SlopesEb)
    (vcc : Array4) (flag : FlagArray) (fcy ccc : Array4) (i j k : Int) :
    y_kernel_plain slopes_eb vcc flag fcy ccc i j k
      = if (flag i j k).isConnected 0 (-1) 0 = true then
          upwind_select (y_states_plain slopes_eb vcc flag fcy ccc i j k).2
                        (y_states_plain slopes_eb vcc flag fcy ccc i j k).1
        else 0 := by
  rfl

theorem z_kernel_extdir_eq (slopes_extdir : SlopesExtdirEb)
    (vcc : Array4) (flag : FlagArray) (fcz ccc : Array4) (d_bcrec : Nat → BCRec)
    (domain_ilo domain_ihi domain_jlo domain_jhi domain_klo domain_khi : Int) (i j k : Int) :
    z_kernel_extdir slopes_extdir vcc flag fcz ccc d_bcrec
        domain_ilo domain_ihi domain_jlo domain_jhi domain_klo domain_khi i j k
      = if (flag i j k).isConnected 0 0 (-1) = true then
          (if (d_bcrec 2).lo 2 = BCType.ext_dir ∧ k = domain_klo then vcc i j (k-1) 2
           else if (d_bcrec 2).hi 2 = BCType.ext_dir ∧ k = domain_khi + 1 then vcc i j k 2
           else upwind_select
             (z_states_extdir slopes_extdir vcc flag fcz ccc d_bcrec
               domain_ilo domain_ihi domain_jlo domain_jhi domain_klo domain_khi i j k).2
             (z_states_extdir slopes_extdir vcc flag fcz ccc d_bcrec
               domain_ilo domain_ihi domain_jlo domain_jhi domain_klo domain_khi i j k).1)
        else 0 := by
  simp only [z_kernel_extdir, z_states_extdir, upwind_select, decide_eq_true_eq]

theorem z_kernel_plain_eq (slopes_eb : SlopesEb)
    (vcc : Array4) (flag : FlagArray) (fcz ccc : Array4) (i j k : Int) :
    z_kernel_plain slopes_eb vcc flag fcz ccc i j k
      = if (flag i j k).isConnected 0 0 (-1) = true then
          upwind_select (z_states_plain slopes_eb vcc flag fcz ccc i j k).2
                        (z_states_plain slopes_eb vcc flag fcz ccc i j k).1
        else 0 := by
  rfl

/-! ## Helper lemmas: the clamp, the box test and `has_extdir` -/

theorem clamp_mem (x a b : ℚ) :
    min a b ≤ max (min x (max b a)) (min b a) ∧ max (min x (max b a)) (min b a) ≤ max a b := by
  refine ⟨?_, ?_⟩
  · rw [min_comm a b]; exact le_max_right _ _
  · rw [max_comm a b]; exact max_le (min_le_right _ _) (min_le_max)

theorem has_extdir_fst_of_acc (bcrec : Nat → BCRec) (dir : Nat) (l : List Nat) (r : Bool × Bool)
    (h : r.1 = true) :
    (l.foldl (fun r n => (r.1 || decide ((bcrec n).lo dir = BCType.ext_dir),
                          r.2 || decide ((bcrec n).hi dir = BCType.ext_dir))) r).1 = true := by
  induction l generalizing r with
  | nil => simpa using h
  | cons a l ih => simp only [List.foldl_cons]; apply ih; simp [h]

theorem has_extdir_snd_of_acc (bcrec : Nat → BCRec) (dir : Nat) (l : List Nat) (r : Bool × Bool)
    (h : r.2 = true) :
    (l.foldl (fun r n => (r.1 || decide ((bcrec n).lo dir = BCType.ext_dir),
                          r.2 || decide ((bcrec n).hi dir = BCType.ext_dir))) r).2 = true := by
  induction l generalizing r with
  | nil => simpa using h
  | cons a l ih => simp only [List.foldl_cons]; apply ih; simp [h]

theorem has_extdir_fst (bcrec : Nat → BCRec) (ncomp dir n : Nat) (hn : n < ncomp)
    (h : (bcrec n).lo dir = BCType.ext_dir) : (has_extdir bcrec ncomp dir).1 = true := by
  unfold has_extdir
  have hmem : n ∈ List.range ncomp := List.mem_range.mpr hn
  obtain ⟨l1, l2, hl⟩ := List.append_of_mem hmem
  rw [hl, List.foldl_append, List.foldl_cons]
  apply has_extdir_fst_of_acc
  simp [h]

theorem has_extdir_snd (bcrec : Nat → BCRec) (ncomp dir n : Nat) (hn : n < ncomp)
    (h : (bcrec n).hi dir = BCType.ext_dir) : (has_extdir bcrec ncomp dir).2 = true := by
  unfold has_extdir
  have hmem : n ∈ List.range ncomp := List.mem_range.mpr hn
  obtain ⟨l1, l2, hl⟩ := List.append_of_mem hmem
  rw [hl, List.foldl_append, List.foldl_cons]
  apply has_extdir_snd_of_acc
  simp [h]

theorem Box.contains_iff (bx : Box) (i j k : Int) :
    bx.contains i j k = true ↔
      (bx.smallEnd 0 ≤ i ∧ i ≤ bx.bigEnd 0 ∧ bx.smallEnd 1 ≤ j ∧ j ≤ bx.bigEnd 1 ∧
        bx.smallEnd 2 ≤ k ∧ k ≤ bx.bigEnd 2) := by
  simp [Box.contains]

/-! ## Helper lemmas: the three face arrays the driver returns -/

theorem predict_u_eq (slopes_eb : SlopesEb) (slopes_extdir : SlopesExtdirEb)
    (lev : Nat) (ccbx ubx vbx wbx : Box) (u v w : FaceArray)
    (vcc : Array4) (flag : FlagArray) (fcx fcy fcz ccc : Array4)
    (h_bcrec d_bcrec : Nat → BCRec) (geom : Nat → Geometry) :
    (predict_vels_on_faces_eb slopes_eb slopes_extdir lev ccbx ubx vbx wbx u v w
        vcc flag fcx fcy fcz ccc h_bcrec d_bcrec geom).u
      = if ((has_extdir h_bcrec AMREX_SPACEDIM 0).1 = true ∧
              (geom lev).Domain.smallEnd 0 ≥ ubx.smallEnd 0 - 1) ∨
           ((has_extdir h_bcrec AMREX_SPACEDIM 0).2 = true ∧
              (geom lev).Domain.bigEnd 0 ≤ ubx.bigEnd 0) then
          ParallelFor ubx (x_kernel_extdir slopes_extdir vcc flag fcx ccc d_bcrec
            ((geom lev).Domain.smallEnd 0) ((geom lev).Domain.bigEnd 0)
            ((geom lev).Domain.smallEnd 1) ((geom lev).Domain.bigEnd 1)
            ((geom lev).Domain.smallEnd 2) ((geom lev).Domain.bigEnd 2)) u
        else ParallelFor ubx (x_kernel_plain slopes_eb vcc flag fcx ccc) u := rfl

theorem predict_v_eq (slopes_eb : SlopesEb) (slopes_extdir : SlopesExtdirEb)
    (lev : Nat) (ccbx ubx vbx wbx : Box) (u v w : FaceArray)
    (vcc : Array4) (flag : FlagArray) (fcx fcy fcz ccc : Array4)
    (h_bcrec d_bcrec : Nat → BCRec) (geom : Nat → Geometry) :
    (predict_vels_on_faces_eb slopes_eb slopes_extdir lev ccbx ubx vbx wbx u v w
        vcc flag fcx fcy fcz ccc h_bcrec d_bcrec geom).v
      = if ((has_extdir h_bcrec AMREX_SPACEDIM 1).1 = true ∧
              (geom lev).Domain.smallEnd 1 ≥ vbx.smallEnd 1 - 1) ∨
           ((has_extdir h_bcrec AMREX_SPACEDIM 1).2 = true ∧
              (geom lev).Domain.bigEnd 1 ≤ vbx.bigEnd 1) then
          ParallelFor vbx (y_kernel_extdir slopes_extdir vcc flag fcy ccc d_bcrec
            ((geom lev).Domain.smallEnd 0) ((geom lev).Domain.bigEnd 0)
            ((geom lev).Domain.smallEnd 1) ((geom lev).Domain.bigEnd 1)
            ((geom lev).Domain.smallEnd 2) ((geom lev).Domain.bigEnd 2)) v
        else ParallelFor vbx (y_kernel_plain slopes_eb vcc flag fcy ccc) v := rfl

theorem predict_w_eq (slopes_eb : SlopesEb) (slopes_extdir : SlopesExtdirEb)
    (lev : Nat) (ccbx ubx vbx wbx : Box) (u v w : FaceArray)
    (vcc : Array4) (flag : FlagArray) (fcx fcy fcz ccc : Array4)
    (h_bcrec d_bcrec : Nat → BCRec) (geom : Nat → Geometry) :
    (predict_vels_on_faces_eb slopes_eb slopes_extdir lev ccbx ubx vbx wbx u v w
        vcc flag fcx fcy fcz ccc h_bcrec d_bcrec geom).w
      = if ((has_extdir h_bcrec AMREX_SPACEDIM 2).1 = true ∧
              (geom lev).Domain.smallEnd 2 ≥ wbx.smallEnd 2 - 1) ∨
           ((has_extdir h_bcrec AMREX_SPACEDIM 2).2 = true ∧
              (geom lev).Domain.bigEnd 2 ≤ wbx.bigEnd 2) then
          ParallelFor wbx (z_kernel_extdir slopes_extdir vcc flag fcz ccc d_bcrec
            ((geom lev).Domain.smallEnd 0) ((geom lev).Domain.bigEnd 0)
            ((geom lev).Domain.smallEnd 1) ((geom lev).Domain.bigEnd 1)
            ((geom lev).Domain.smallEnd 2) ((geom lev).Domain.bigEnd 2)) w
        else ParallelFor wbx (z_kernel_plain slopes_eb vcc flag fcz ccc) w := rfl

/-! ## C1: disconnected faces receive zero -/

/-- C1. Disconnected-face zero law: in every direction, at every face index `(i,j,k)`
whose flag reports `isConnected(-e_d) = false`, the boundary-aware kernel (for all
boundary records and domain bounds, hence also on an `ext_dir` domain face) and the plain
kernel both produce exactly `0`, for all cell values, slopes and centroid offsets; and the
driver writes `0` to that entry of the face array whenever the index lies in the
direction's face box, whichever of the two kernels the box-level test selects. -/
theorem C1_disconnected_face_zero (slopes_eb : SlopesEb) (slopes_extdir : SlopesExtdirEb)
    (lev : Nat) (ccbx ubx vbx wbx : Box) (u v w : FaceArray)
    (vcc : Array4) (flag : FlagArray) (fcx fcy fcz ccc : Array4)
    (h_bcrec d_bcrec : Nat → BCRec) (geom : Nat → Geometry) (i j k : Int) :
    ((flag i j k).isConnected (-1) 0 0 = false →
        (∀ ilo ihi jlo jhi klo khi : Int,
          x_kernel_extdir slopes_extdir vcc flag fcx ccc d_bcrec ilo ihi jlo jhi klo khi i j k = 0) ∧
        x_kernel_plain slopes_eb vcc flag fcx ccc i j k = 0 ∧
        (ubx.contains i j k = true →
          (predict_vels_on_faces_eb slopes_eb slopes_extdir lev ccbx ubx vbx wbx u v w
            vcc flag fcx fcy fcz ccc h_bcrec d_bcrec geom).u i j k = 0)) ∧
    ((flag i j k).isConnected 0 (-1) 0 = false →
        (∀ ilo ihi jlo jhi klo khi : Int,
          y_kernel_extdir slopes_extdir vcc flag fcy ccc d_bcrec ilo ihi jlo jhi klo khi i j k = 0) ∧
        y_kernel_plain slopes_eb vcc flag fcy ccc i j k = 0 ∧
        (vbx.contains i j k = true →
          (predict_vels_on_faces_eb slopes_eb slopes_extdir lev ccbx ubx vbx wbx u v w
            vcc flag fcx fcy fcz ccc h_bcrec d_bcrec geom).v i j k = 0)) ∧
    ((flag i j k).isConnected 0 0 (-1) = false →
        (∀ ilo ihi jlo jhi klo khi : Int,
          z_kernel_extdir slopes_extdir vcc flag fcz ccc d_bcrec ilo ihi jlo jhi klo khi i j k = 0) ∧
        z_kernel_plain slopes_eb vcc flag fcz ccc i j k = 0 ∧
        (wbx.contains i j k = true →
          (predict_vels_on_faces_eb slopes_eb slopes_extdir lev ccbx ubx vbx wbx u v w
            vcc flag fcx fcy fcz ccc h_bcrec d_bcrec geom).w i j k = 0)) := by
  refine ⟨fun h => ⟨?_, ?_, ?_⟩, fun h => ⟨?_, ?_, ?_⟩, fun h => ⟨?_, ?_, ?_⟩⟩
  · intro ilo ihi jlo jhi klo khi
    rw [x_kernel_extdir_eq]; simp [h]
  · rw [x_kernel_plain_eq]; simp [h]
  · intro hb
    rw [predict_u_eq]
    split <;> simp [ParallelFor, hb, x_kernel_extdir_eq, x_kernel_plain_eq, h]
  · intro ilo ihi jlo jhi klo khi
    rw [y_kernel_extdir_eq]; simp [h]
  · rw [y_kernel_plain_eq]; simp [h]
  · intro hb
    rw [predict_v_eq]
    split <;> simp [ParallelFor, hb, y_kernel_extdir_eq, y_kernel_plain_eq, h]
  · intro ilo ihi jlo jhi klo khi
    rw [z_kernel_extdir_eq]; simp [h]
  · rw [z_kernel_plain_eq]; simp [h]
  · intro hb
    rw [predict_w_eq]
    split <;> simp [ParallelFor, hb, z_kernel_extdir_eq, z_kernel_plain_eq, h]

/-- C1, at a concrete input: with `ext_dir` on the low x side of a domain starting at
`i = 0` and no neighbour connected, the face `(0,0,0)` lies in the x-face box, is on the
`ext_dir` boundary, and the driver overwrites its former content `9` with `0` although the
ghost cell holds `5`. -/
theorem C1_disconnected_face_zero_witness :
    (ex_flag_wall 0 0 0).isConnected (-1) 0 0 = false ∧
    ex_ubx.contains 0 0 0 = true ∧
    (ex_bcrec 0).lo 0 = BCType.ext_dir ∧ (ex_geom 0).Domain.smallEnd 0 = 0 ∧
    ex_vcc (-1) 0 0 0 = 5 ∧ ex_face0 0 0 0 = 9 ∧
    (predict_vels_on_faces_eb ex_slopes_eb ex_slopes_extdir 0 ex_ccbx ex_ubx ex_vbx ex_wbx
        ex_face0 ex_face0 ex_face0 ex_vcc ex_flag_wall ex_cent ex_cent ex_cent ex_cent
        ex_bcrec ex_bcrec ex_geom).u 0 0 0 = 0 :=
  ⟨rfl, by decide, rfl, rfl, by decide, rfl,
    ((C1_disconnected_face_zero ex_slopes_eb ex_slopes_extdir 0 ex_ccbx ex_ubx ex_vbx ex_wbx
        ex_face0 ex_face0 ex_face0 ex_vcc ex_flag_wall ex_cent ex_cent ex_cent ex_cent
        ex_bcrec ex_bcrec ex_geom 0 0 0).1 rfl).2.2 (by decide)⟩

/-! ## Helper lemmas: the value the driver writes on an `ext_dir` domain face -/

theorem predict_u_low_extdir (slopes_eb : SlopesEb) (slopes_extdir : SlopesExtdirEb)
    (lev : Nat) (ccbx ubx vbx wbx : Box) (u v w : FaceArray)
    (vcc : Array4) (flag : FlagArray) (fcx fcy fcz ccc : Array4)
    (h_bcrec d_bcrec : Nat → BCRec) (geom : Nat → Geometry) (i j k : Int)
    (hbc : ∀ n, n < AMREX_SPACEDIM → h_bcrec n = d_bcrec n)
    (hb : ubx.contains i j k = true)
    (hc : (flag i j k).isConnected (-1) 0 0 = true)
    (he : (d_bcrec 0).lo 0 = BCType.ext_dir)
    (hi : i = (geom lev).Domain.smallEnd 0) :
    (predict_vels_on_faces_eb slopes_eb slopes_extdir lev ccbx ubx vbx wbx u v w
        vcc flag fcx fcy fcz ccc h_bcrec d_bcrec geom).u i j k = vcc (i-1) j k 0 := by
  rw [predict_u_eq]
  have h1 : (has_extdir h_bcrec AMREX_SPACEDIM 0).1 = true :=
    has_extdir_fst h_bcrec AMREX_SPACEDIM 0 0 (by decide) (by rw [hbc 0 (by decide)]; exact he)
  have hbx := (Box.contains_iff ubx i j k).mp hb
  have h2 : (geom lev).Domain.smallEnd 0 ≥ ubx.smallEnd 0 - 1 := by omega
  rw [if_pos (Or.inl ⟨h1, h2⟩)]
  subst hi
  simp [ParallelFor, hb, x_kernel_extdir_eq, hc, he]

theorem predict_u_high_extdir (slopes_eb : SlopesEb) (slopes_extdir : SlopesExtdirEb)
    (lev : Nat) (ccbx ubx vbx wbx : Box) (u v w : FaceArray)
    (vcc : Array4) (flag : FlagArray) (fcx fcy fcz ccc : Array4)
    (h_bcrec d_bcrec : Nat → BCRec) (geom : Nat → Geometry) (i j k : Int)
    (hbc : ∀ n, n < AMREX_SPACEDIM → h_bcrec n = d_bcrec n)
    (hb : ubx.contains i j k = true)
    (hc : (flag i j k).isConnected (-1) 0 0 = true)
    (he : (d_bcrec 0).hi 0 = BCType.ext_dir)
    (hi : i = (geom lev).Domain.bigEnd 0 + 1)
    (hdom : (geom lev).Domain.smallEnd 0 ≤ (geom lev).Domain.bigEnd 0) :
    (predict_vels_on_faces_eb slopes_eb slopes_extdir lev ccbx ubx vbx wbx u v w
        vcc flag fcx fcy fcz ccc h_bcrec d_bcrec geom).u i j k = vcc i j k 0 := by
  rw [predict_u_eq]
  have h1 : (has_extdir h_bcrec AMREX_SPACEDIM 0).2 = true :=
    has_extdir_snd h_bcrec AMREX_SPACEDIM 0 0 (by decide) (by rw [hbc 0 (by decide)]; exact he)
  have hbx := (Box.contains_iff ubx i j k).mp hb
  have h2 : (geom lev).Domain.bigEnd 0 ≤ ubx.bigEnd 0 := by omega
  have h3 : i ≠ (geom lev).Domain.smallEnd 0 := by omega
  rw [if_pos (Or.inr ⟨h1, h2⟩)]
  subst hi
  simp [ParallelFor, hb, x_kernel_extdir_eq, hc, he, h3]

theorem predict_v_low_extdir (slopes_eb : SlopesEb) (slopes_extdir : SlopesExtdirEb)
    (lev : Nat) (ccbx ubx vbx wbx : Box) (u v w : FaceArray)
    (vcc : Array4) (flag : FlagArray) (fcx fcy fcz ccc : Array4)
    (h_bcrec d_bcrec : Nat → BCRec) (geom : Nat → Geometry) (i j k : Int)
    (hbc : ∀ n, n < AMREX_SPACEDIM → h_bcrec n = d_bcrec n)
    (hb : vbx.contains i j k = true)
    (hc : (flag i j k).isConnected 0 (-1) 0 = true)
    (he : (d_bcrec 1).lo 1 = BCType.ext_dir)
    (hi : j = (geom lev).Domain.smallEnd 1) :
    (predict_vels_on_faces_eb slopes_eb slopes_extdir lev ccbx ubx vbx wbx u v w
        vcc flag fcx fcy fcz ccc h_bcrec d_bcrec geom).v i j k = vcc i (j-1) k 1 := by
  rw [predict_v_eq]
  have h1 : (has_extdir h_bcrec AMREX_SPACEDIM 1).1 = true :=
    has_extdir_fst h_bcrec AMREX_SPACEDIM 1 1 (by decide) (by rw [hbc 1 (by decide)]; exact he)
  have hbx := (Box.contains_iff vbx i j k).mp hb
  have h2 : (geom lev).Domain.smallEnd 1 ≥ vbx.smallEnd 1 - 1 := by omega
  rw [if_pos (Or.inl ⟨h1, h2⟩)]
  subst hi
  simp [ParallelFor, hb, y_kernel_extdir_eq, hc, he]

theorem predict_v_high_extdir (slopes_eb : SlopesEb) (slopes_extdir : SlopesExtdirEb)
    (lev : Nat) (ccbx ubx vbx wbx : Box) (u v w : FaceArray)
    (vcc : Array4) (flag : FlagArray) (fcx fcy fcz ccc : Array4)
    (h_bcrec d_bcrec : Nat → BCRec) (geom : Nat → Geometry) (i j k : Int)
    (hbc : ∀ n, n < AMREX_SPACEDIM → h_bcrec n = d_bcrec n)
    (hb : vbx.contains i j k = true)
    (hc : (flag i j k).isConnected 0 (-1) 0 = true)
    (he : (d_bcrec 1).hi 1 = BCType.ext_dir)
    (hi : j = (geom lev).Domain.bigEnd 1 + 1)
    (hdom : (geom lev).Domain.smallEnd 1 ≤ (geom lev).Domain.bigEnd 1) :
    (predict_vels_on_faces_eb slopes_eb slopes_extdir lev ccbx ubx vbx wbx u v w
        vcc flag fcx fcy fcz ccc h_bcrec d_bcrec geom).v i j k = vcc i j k 1 := by
  rw [predict_v_eq]
  have h1 : (has_extdir h_bcrec AMREX_SPACEDIM 1).2 = true :=
    has_extdir_snd h_bcrec AMREX_SPACEDIM 1 1 (by decide) (by rw [hbc 1 (by decide)]; exact he)
  have hbx := (Box.contains_iff vbx i j k).mp hb
  have h2 : (geom lev).Domain.bigEnd 1 ≤ vbx.bigEnd 1 := by omega
  have h3 : j ≠ (geom lev).Domain.smallEnd 1 := by omega
  rw [if_pos (Or.inr ⟨h1, h2⟩)]
  subst hi
  simp [ParallelFor, hb, y_kernel_extdir_eq, hc, he, h3]

theorem predict_w_low_extdir (slopes_eb : SlopesEb) (slopes_extdir : SlopesExtdirEb)
    (lev : Nat) (ccbx ubx vbx wbx : Box) (u v w : FaceArray)
    (vcc : Array4) (flag : FlagArray) (fcx fcy fcz ccc : Array4)
    (h_bcrec d_bcrec : Nat → BCRec) (geom : Nat → Geometry) (i j k : Int)
    (hbc : ∀ n, n < AMREX_SPACEDIM → h_bcrec n = d_bcrec n)
    (hb : wbx.contains i j k = true)
    (hc : (flag i j k).isConnected 0 0 (-1) = true)
    (he : (d_bcrec 2).lo 2 = BCType.ext_dir)
    (hi : k = (geom lev).Domain.smallEnd 2) :
    (predict_vels_on_faces_eb slopes_eb slopes_extdir lev ccbx ubx vbx wbx u v w
        vcc flag fcx fcy fcz ccc h_bcrec d_bcrec geom).w i j k = vcc i j (k-1) 2 := by
  rw [predict_w_eq]
  have h1 : (has_extdir h_bcrec AMREX_SPACEDIM 2).1 = true :=
    has_extdir_fst h_bcrec AMREX_SPACEDIM 2 2 (by decide) (by rw [hbc 2 (by decide)]; exact he)
  have hbx := (Box.contains_iff wbx i j k).mp hb
  have h2 : (geom lev).Domain.smallEnd 2 ≥ wbx.smallEnd 2 - 1 := by omega
  rw [if_pos (Or.inl ⟨h1, h2⟩)]
  subst hi
  simp [ParallelFor, hb, z_kernel_extdir_eq, hc, he]

theorem predict_w_high_extdir (slopes_eb : SlopesEb) (slopes_extdir : SlopesExtdirEb)
    (lev : Nat) (ccbx ubx vbx wbx : Box) (u v w : FaceArray)
    (vcc : Array4) (flag : FlagArray) (fcx fcy fcz ccc : Array4)
    (h_bcrec d_bcrec : Nat → BCRec) (geom : Nat → Geometry) (i j k : Int)
    (hbc : ∀ n, n < AMREX_SPACEDIM → h_bcrec n = d_bcrec n)
    (hb : wbx.contains i j k = true)
    (hc : (flag i j k).isConnected 0 0 (-1) = true)
    (he : (d_bcrec 2).hi 2 = BCType.ext_dir)
    (hi : k = (geom lev).Domain.bigEnd 2 + 1)
    (hdom : (geom lev).Domain.smallEnd 2 ≤ (geom lev).Domain.bigEnd 2) :
    (predict_vels_on_faces_eb slopes_eb slopes_extdir lev ccbx ubx vbx wbx u v w
        vcc flag fcx fcy fcz ccc h_bcrec d_bcrec geom).w i j k = vcc i j k 2 := by
  rw [predict_w_eq]
  have h1 : (has_extdir h_bcrec AMREX_SPACEDIM 2).2 = true :=
    has_extdir_snd h_bcrec AMREX_SPACEDIM 2 2 (by decide) (by rw [hbc 2 (by decide)]; exact he)
  have hbx := (Box.contains_iff wbx i j k).mp hb
  have h2 : (geom lev).Domain.bigEnd 2 ≤ wbx.bigEnd 2 := by omega
  have h3 : k ≠ (geom lev).Domain.smallEnd 2 := by omega
  rw [if_pos (Or.inr ⟨h1, h2⟩)]
  subst hi
  simp [ParallelFor, hb, z_kernel_extdir_eq, hc, he, h3]

/-! ## C2: the value written on an `ext_dir` domain face -/

/-- C2, refuted as stated: the low x domain boundary at `i = 0` is `ext_dir`, the face
`(0,0,0)` is connected and lies in the x-face box, the adjacent interior cell holds
`vcc(0,0,0,0) = 3` and the ghost cell holds `vcc(-1,0,0,0) = 5`; the driver writes `5`,
the ghost-cell value, not the interior value `3`. -/
theorem C2_dirichlet_interior_counterexample :
    (ex_bcrec 0).lo 0 = BCType.ext_dir ∧ (ex_geom 0).Domain.smallEnd 0 = 0 ∧
    ex_ubx.contains 0 0 0 = true ∧ (ex_flag_conn 0 0 0).isConnected (-1) 0 0 = true ∧
    ex_vcc 0 0 0 0 = 3 ∧ ex_vcc (-1) 0 0 0 = 5 ∧
    (predict_vels_on_faces_eb ex_slopes_eb ex_slopes_extdir 0 ex_ccbx ex_ubx ex_vbx ex_wbx
        ex_face0 ex_face0 ex_face0 ex_vcc ex_flag_conn ex_cent ex_cent ex_cent ex_cent
        ex_bcrec ex_bcrec ex_geom).u 0 0 0 = 5 ∧
    (predict_vels_on_faces_eb ex_slopes_eb ex_slopes_extdir 0 ex_ccbx ex_ubx ex_vbx ex_wbx
        ex_face0 ex_face0 ex_face0 ex_vcc ex_flag_conn ex_cent ex_cent ex_cent ex_cent
        ex_bcrec ex_bcrec ex_geom).u 0 0 0 ≠ ex_vcc 0 0 0 0 := by
  have h : (predict_vels_on_faces_eb ex_slopes_eb ex_slopes_extdir 0 ex_ccbx ex_ubx ex_vbx ex_wbx
        ex_face0 ex_face0 ex_face0 ex_vcc ex_flag_conn ex_cent ex_cent ex_cent ex_cent
        ex_bcrec ex_bcrec ex_geom).u 0 0 0 = 5 := by
    rw [predict_u_low_extdir ex_slopes_eb ex_slopes_extdir 0 ex_ccbx ex_ubx ex_vbx ex_wbx
        ex_face0 ex_face0 ex_face0 ex_vcc ex_flag_conn ex_cent ex_cent ex_cent ex_cent
        ex_bcrec ex_bcrec ex_geom 0 0 0 (fun _ _ => rfl) (by decide) rfl rfl rfl]
    decide
  refine ⟨rfl, rfl, by decide, rfl, by decide, by decide, h, ?_⟩
  rw [h]; decide

/-- C2, amended. Dirichlet override law: when the host and device boundary records agree,
for every connected face of a direction's face box that coincides with a domain boundary
whose type, in the record of the normal velocity component, is `ext_dir` in the normal
direction, the value the driver writes equals exactly the raw value of the adjacent cell on
the exterior side of the boundary (the ghost cell holding the Dirichlet value): cell
`domain_lo - 1` on the low face, and cell `domain_hi + 1` on the high face of a non-empty
domain; this holds for all slopes and centroid offsets. -/
theorem C2_dirichlet_override (slopes_eb : SlopesEb) (slopes_extdir : SlopesExtdirEb)
    (lev : Nat) (ccbx ubx vbx wbx : Box) (u v w : FaceArray)
    (vcc : Array4) (flag : FlagArray) (fcx fcy fcz ccc : Array4)
    (h_bcrec d_bcrec : Nat → BCRec) (geom : Nat → Geometry) (i j k : Int)
    (hbc : ∀ n, n < AMREX_SPACEDIM → h_bcrec n = d_bcrec n) :
    (ubx.contains i j k = true → (flag i j k).isConnected (-1) 0 0 = true →
        ((d_bcrec 0).lo 0 = BCType.ext_dir → i = (geom lev).Domain.smallEnd 0 →
          (predict_vels_on_faces_eb slopes_eb slopes_extdir lev ccbx ubx vbx wbx u v w
            vcc flag fcx fcy fcz ccc h_bcrec d_bcrec geom).u i j k = vcc (i-1) j k 0) ∧
        ((d_bcrec 0).hi 0 = BCType.ext_dir → i = (geom lev).Domain.bigEnd 0 + 1 →
          (geom lev).Domain.smallEnd 0 ≤ (geom lev).Domain.bigEnd 0 →
          (predict_vels_on_faces_eb slopes_eb slopes_extdir lev ccbx ubx vbx wbx u v w
            vcc flag fcx fcy fcz ccc h_bcrec d_bcrec geom).u i j k = vcc i j k 0)) ∧
    (vbx.contains i j k = true → (flag i j k).isConnected 0 (-1) 0 = true →
        ((d_bcrec 1).lo 1 = BCType.ext_dir → j = (geom lev).Domain.smallEnd 1 →
          (predict_vels_on_faces_eb slopes_eb slopes_extdir lev ccbx ubx vbx wbx u v w
            vcc flag fcx fcy fcz ccc h_bcrec d_bcrec geom).v i j k = vcc i (j-1) k 1) ∧
        ((d_bcrec 1).hi 1 = BCType.ext_dir → j = (geom lev).Domain.bigEnd 1 + 1 →
          (geom lev).Domain.smallEnd 1 ≤ (geom lev).Domain.bigEnd 1 →
          (predict_vels_on_faces_eb slopes_eb slopes_extdir lev ccbx ubx vbx wbx u v w
            vcc flag fcx fcy fcz ccc h_bcrec d_bcrec geom).v i j k = vcc i j k 1)) ∧
    (wbx.contains i j k = true → (flag i j k).isConnected 0 0 (-1) = true →
        ((d_bcrec 2).lo 2 = BCType.ext_dir → k = (geom lev).Domain.smallEnd 2 →
          (predict_vels_on_faces_eb slopes_eb slopes_extdir lev ccbx ubx vbx wbx u v w
            vcc flag fcx fcy fcz ccc h_bcrec d_bcrec geom).w i j k = vcc i j (k-1) 2) ∧
        ((d_bcrec 2).hi 2 = BCType.ext_dir → k = (geom lev).Domain.bigEnd 2 + 1 →
          (geom lev).Domain.smallEnd 2 ≤ (geom lev).Domain.bigEnd 2 →
          (predict_vels_on_faces_eb slopes_eb slopes_extdir lev ccbx ubx vbx wbx u v w
            vcc flag fcx fcy fcz ccc h_bcrec d_bcrec geom).w i j k = vcc i j k 2)) := by
  refine ⟨fun hb hc => ⟨fun he hi => ?_, fun he hi hdom => ?_⟩,
          fun hb hc => ⟨fun he hi => ?_, fun he hi hdom => ?_⟩,
          fun hb hc => ⟨fun he hi => ?_, fun he hi hdom => ?_⟩⟩
  · exact predict_u_low_extdir slopes_eb slopes_extdir lev ccbx ubx vbx wbx u v w
      vcc flag fcx fcy fcz ccc h_bcrec d_bcrec geom i j k hbc hb hc he hi
  · exact predict_u_high_extdir slopes_eb slopes_extdir lev ccbx ubx vbx wbx u v w
      vcc flag fcx fcy fcz ccc h_bcrec d_bcrec geom i j k hbc hb hc he hi hdom
  · exact predict_v_low_extdir slopes_eb slopes_extdir lev ccbx ubx vbx wbx u v w
      vcc flag fcx fcy fcz ccc h_bcrec d_bcrec geom i j k hbc hb hc he hi
  · exact predict_v_high_extdir slopes_eb slopes_extdir lev ccbx ubx vbx wbx u v w
      vcc flag fcx fcy fcz ccc h_bcrec d_bcrec geom i j k hbc hb hc he hi hdom
  · exact predict_w_low_extdir slopes_eb slopes_extdir lev ccbx ubx vbx wbx u v w
      vcc flag fcx fcy fcz ccc h_bcrec d_bcrec geom i j k hbc hb hc he hi
  · exact predict_w_high_extdir slopes_eb slopes_extdir lev ccbx ubx vbx wbx u v w
      vcc flag fcx fcy fcz ccc h_bcrec d_bcrec geom i j k hbc hb hc he hi hdom

/-- C2 amended, at a concrete input: the low x domain boundary at `i = 0` is `ext_dir`,
the ghost cell holds `vcc(-1,0,0,0) = 3` and the interior cell `8`; the predicted `u` at the
face `i = 0` is `3`, with slopes equal to `7` in every component. -/
theorem C2_dirichlet_override_witness :
    (∀ n, n < AMREX_SPACEDIM → ex_bcrec n = ex_bcrec n) ∧
    ex_ubx.contains 0 0 0 = true ∧ (ex_flag_conn 0 0 0).isConnected (-1) 0 0 = true ∧
    (ex_bcrec 0).lo 0 = BCType.ext_dir ∧ (0 : Int) = (ex_geom 0).Domain.smallEnd 0 ∧
    ex_vcc_ghost (-1) 0 0 0 = 3 ∧ ex_vcc_ghost 0 0 0 0 = 8 ∧
    (predict_vels_on_faces_eb ex_slopes_eb ex_slopes_extdir 0 ex_ccbx ex_ubx ex_vbx ex_wbx
        ex_face0 ex_face0 ex_face0 ex_vcc_ghost ex_flag_conn ex_cent ex_cent ex_cent ex_cent
        ex_bcrec ex_bcrec ex_geom).u 0 0 0 = 3 :=
  ⟨fun _ _ => rfl, by decide, rfl, rfl, rfl, by decide, by decide,
    (((C2_dirichlet_override ex_slopes_eb ex_slopes_extdir 0 ex_ccbx ex_ubx ex_vbx ex_wbx
        ex_face0 ex_face0 ex_face0 ex_vcc_ghost ex_flag_conn ex_cent ex_cent ex_cent ex_cent
        ex_bcrec ex_bcrec ex_geom 0 0 0 (fun _ _ => rfl)).1 (by decide) rfl).1 rfl rfl).trans
      (by decide)⟩


/-! ## C3: the monotonicity clamp -/

/-- C3. Monotonicity clamp law: in every direction and in both kernel variants, for every
slope routine, every centroid offset and every face index, both clamped one-sided states
(`.1` is the high-side state `upls`/`vpls`/`wpls`, `.2` the low-side state
`umns`/`vmns`/`wmns`) lie in the closed interval `[min(vcc_mns, vcc_pls), max(vcc_mns, vcc_pls)]`
of the two cells adjacent to the face.  The lemmas `x_kernel_extdir_eq` ... `z_kernel_plain_eq`
show that these are the states each kernel body feeds to the upwind selection. -/
theorem C3_monotonicity_clamp (slopes_eb : SlopesEb) (slopes_extdir : SlopesExtdirEb)
    (vcc : Array4) (flag : FlagArray) (fcx fcy fcz ccc : Array4) (d_bcrec : Nat → BCRec)
    (ilo ihi jlo jhi klo khi : Int) (i j k : Int) :
    (min (vcc (i-1) j k 0) (vcc i j k 0) ≤ (x_states_extdir slopes_extdir vcc flag fcx ccc d_bcrec ilo ihi jlo jhi klo khi i j k).1 ∧
      (x_states_extdir slopes_extdir vcc flag fcx ccc d_bcrec ilo ihi jlo jhi klo khi i j k).1 ≤ max (vcc (i-1) j k 0) (vcc i j k 0) ∧
      min (vcc (i-1) j k 0) (vcc i j k 0) ≤ (x_states_extdir slopes_extdir vcc flag fcx ccc d_bcrec ilo ihi jlo jhi klo khi i j k).2 ∧
      (x_states_extdir slopes_extdir vcc flag fcx ccc d_bcrec ilo ihi jlo jhi klo khi i j k).2 ≤ max (vcc (i-1) j k 0) (vcc i j k 0)) ∧
    (min (vcc (i-1) j k 0) (vcc i j k 0) ≤ (x_states_plain slopes_eb vcc flag fcx ccc i j k).1 ∧
      (x_states_plain slopes_eb vcc flag fcx ccc i j k).1 ≤ max (vcc (i-1) j k 0) (vcc i j k 0) ∧
      min (vcc (i-1) j k 0) (vcc i j k 0) ≤ (x_states_plain slopes_eb vcc flag fcx ccc i j k).2 ∧
      (x_states_plain slopes_eb vcc flag fcx ccc i j k).2 ≤ max (vcc (i-1) j k 0) (vcc i j k 0)) ∧
    (min (vcc i (j-1) k 1) (vcc i j k 1) ≤ (y_states_extdir slopes_extdir vcc flag fcy ccc d_bcrec ilo ihi jlo jhi klo khi i j k).1 ∧
      (y_states_extdir slopes_extdir vcc flag fcy ccc d_bcrec ilo ihi jlo jhi klo khi i j k).1 ≤ max (vcc i (j-1) k 1) (vcc i j k 1) ∧
      min (vcc i (j-1) k 1) (vcc i j k 1) ≤ (y_states_extdir slopes_extdir vcc flag fcy ccc d_bcrec ilo ihi jlo jhi klo khi i j k).2 ∧
      (y_states_extdir slopes_extdir vcc flag fcy ccc d_bcrec ilo ihi jlo jhi klo khi i j k).2 ≤ max (vcc i (j-1) k 1) (vcc i j k 1)) ∧
    (min (vcc i (j-1) k 1) (vcc i j k 1) ≤ (y_states_plain slopes_eb vcc flag fcy ccc i j k).1 ∧
      (y_states_plain slopes_eb vcc flag fcy ccc i j k).1 ≤ max (vcc i (j-1) k 1) (vcc i j k 1) ∧
      min (vcc i (j-1) k 1) (vcc i j k 1) ≤ (y_states_plain slopes_eb vcc flag fcy ccc i j k).2 ∧
      (y_states_plain slopes_eb vcc flag fcy ccc i j k).2 ≤ max (vcc i (j-1) k 1) (vcc i j k 1)) ∧
    (min (vcc i j (k-1) 2) (vcc i j k 2) ≤ (z_states_extdir slopes_extdir vcc flag fcz ccc d_bcrec ilo ihi jlo jhi klo khi i j k).1 ∧
      (z_states_extdir slopes_extdir vcc flag fcz ccc d_bcrec ilo ihi jlo jhi klo khi i j k).1 ≤ max (vcc i j (k-1) 2) (vcc i j k 2) ∧
      min (vcc i j (k-1) 2) (vcc i j k 2) ≤ (z_states_extdir slopes_extdir vcc flag fcz ccc d_bcrec ilo ihi jlo jhi klo khi i j k).2 ∧
      (z_states_extdir slopes_extdir vcc flag fcz ccc d_bcrec ilo ihi jlo jhi klo khi i j k).2 ≤ max (vcc i j (k-1) 2) (vcc i j k 2)) ∧
    (min (vcc i j (k-1) 2) (vcc i j k 2) ≤ (z_states_plain slopes_eb vcc flag fcz ccc i j k).1 ∧
      (z_states_plain slopes_eb vcc flag fcz ccc i j k).1 ≤ max (vcc i j (k-1) 2) (vcc i j k 2) ∧
      min (vcc i j (k-1) 2) (vcc i j k 2) ≤ (z_states_plain slopes_eb vcc flag fcz ccc i j k).2 ∧
      (z_states_plain slopes_eb vcc flag fcz ccc i j k).2 ≤ max (vcc i j (k-1) 2) (vcc i j k 2)) := by
  refine ⟨?_, ?_, ?_, ?_, ?_, ?_⟩
  · simp only [x_states_extdir]
    exact ⟨(clamp_mem _ _ _).1, (clamp_mem _ _ _).2, (clamp_mem _ _ _).1, (clamp_mem _ _ _).2⟩
  · simp only [x_states_plain]
    exact ⟨(clamp_mem _ _ _).1, (clamp_mem _ _ _).2, (clamp_mem _ _ _).1, (clamp_mem _ _ _).2⟩
  · simp only [y_states_extdir]
    exact ⟨(clamp_mem _ _ _).1, (clamp_mem _ _ _).2, (clamp_mem _ _ _).1, (clamp_mem _ _ _).2⟩
  · simp only [y_states_plain]
    exact ⟨(clamp_mem _ _ _).1, (clamp_mem _ _ _).2, (clamp_mem _ _ _).1, (clamp_mem _ _ _).2⟩
  · simp only [z_states_extdir]
    exact ⟨(clamp_mem _ _ _).1, (clamp_mem _ _ _).2, (clamp_mem _ _ _).1, (clamp_mem _ _ _).2⟩
  · simp only [z_states_plain]
    exact ⟨(clamp_mem _ _ _).1, (clamp_mem _ _ _).2, (clamp_mem _ _ _).1, (clamp_mem _ _ _).2⟩

/-! ## C4: the upwind (Riemann) resolution rule -/

theorem small_vel_pos : 0 < small_vel := by norm_num [small_vel]

/-- C4. Riemann resolution rule: with `eps = small_vel = 1e-10` and `avg = 0.5*(pls+mns)`,
the resolved value `upwind_select mns pls` is `mns` when (`mns ≥ 0` or `pls ≤ 0`) and
`avg ≥ eps`, is `pls` when (`mns ≥ 0` or `pls ≤ 0`) and `avg ≤ -eps`, and is `0` in every
other case, in particular whenever `mns < 0 < pls`; `(2,-1)` resolves to `2`, `(-2,1)` to `0`
and `(1e-12,-1e-12)` to `0`.  The same rule is applied in all six kernel bodies: on a
connected face each plain kernel returns `upwind_select` of its two clamped states, and so
does each boundary-aware kernel on a face that is not an overridden boundary face. -/
theorem C4_riemann_resolution (mns pls : ℚ)
    (slopes_eb : SlopesEb) (slopes_extdir : SlopesExtdirEb)
    (vcc : Array4) (flag : FlagArray) (fcx fcy fcz ccc : Array4) (d_bcrec : Nat → BCRec)
    (ilo ihi jlo jhi klo khi : Int) (i j k : Int) :
    small_vel = 1 / 10000000000 ∧
    ((mns ≥ 0 ∨ pls ≤ 0) → 0.5 * (pls + mns) ≥ small_vel → upwind_select mns pls = mns) ∧
    ((mns ≥ 0 ∨ pls ≤ 0) → 0.5 * (pls + mns) ≤ -small_vel → upwind_select mns pls = pls) ∧
    (¬ ((mns ≥ 0 ∨ pls ≤ 0) ∧
          (0.5 * (pls + mns) ≥ small_vel ∨ 0.5 * (pls + mns) ≤ -small_vel)) →
        upwind_select mns pls = 0) ∧
    (mns < 0 → 0 < pls → upwind_select mns pls = 0) ∧
    upwind_select 2 (-1) = 2 ∧
    upwind_select (-2) 1 = 0 ∧
    upwind_select (1 / 1000000000000) (-(1 / 1000000000000)) = 0 ∧
    ((flag i j k).isConnected (-1) 0 0 = true →
      x_kernel_plain slopes_eb vcc flag fcx ccc i j k
        = upwind_select (x_states_plain slopes_eb vcc flag fcx ccc i j k).2
                        (x_states_plain slopes_eb vcc flag fcx ccc i j k).1 ∧
      (¬ ((d_bcrec 0).lo 0 = BCType.ext_dir ∧ i = ilo) →
       ¬ ((d_bcrec 0).hi 0 = BCType.ext_dir ∧ i = ihi + 1) →
        x_kernel_extdir slopes_extdir vcc flag fcx ccc d_bcrec ilo ihi jlo jhi klo khi i j k
          = upwind_select
              (x_states_extdir slopes_extdir vcc flag fcx ccc d_bcrec
                ilo ihi jlo jhi klo khi i j k).2
              (x_states_extdir slopes_extdir vcc flag fcx ccc d_bcrec
                ilo ihi jlo jhi klo khi i j k).1)) ∧
    ((flag i j k).isConnected 0 (-1) 0 = true →
      y_kernel_plain slopes_eb vcc flag fcy ccc i j k
        = upwind_select (y_states_plain slopes_eb vcc flag fcy ccc i j k).2
                        (y_states_plain slopes_eb vcc flag fcy ccc i j k).1 ∧
      (¬ ((d_bcrec 1).lo 1 = BCType.ext_dir ∧ j = jlo) →
       ¬ ((d_bcrec 1).hi 1 = BCType.ext_dir ∧ j = jhi + 1) →
        y_kernel_extdir slopes_extdir vcc flag fcy ccc d_bcrec ilo ihi jlo jhi klo khi i j k
          = upwind_select
              (y_states_extdir slopes_extdir vcc flag fcy ccc d_bcrec
                ilo ihi jlo jhi klo khi i j k).2
              (y_states_extdir slopes_extdir vcc flag fcy ccc d_bcrec
                ilo ihi jlo jhi klo khi i j k).1)) ∧
    ((flag i j k).isConnected 0 0 (-1) = true →
      z_kernel_plain slopes_eb vcc flag fcz ccc i j k
        = upwind_select (z_states_plain slopes_eb vcc flag fcz ccc i j k).2
                        (z_states_plain slopes_eb vcc flag fcz ccc i j k).1 ∧
      (¬ ((d_bcrec 2).lo 2 = BCType.ext_dir ∧ k = klo) →
       ¬ ((d_bcrec 2).hi 2 = BCType.ext_dir ∧ k = khi + 1) →
        z_kernel_extdir slopes_extdir vcc flag fcz ccc d_bcrec ilo ihi jlo jhi klo khi i j k
          = upwind_select
              (z_states_extdir slopes_extdir vcc flag fcz ccc d_bcrec
                ilo ihi jlo jhi klo khi i j k).2
              (z_states_extdir slopes_extdir vcc flag fcz ccc d_bcrec
                ilo ihi jlo jhi klo khi i j k).1)) := by
  have hpos := small_vel_pos
  refine ⟨rfl, ?_, ?_, ?_, ?_, ?_, ?_, ?_, ?_, ?_, ?_⟩
  · intro h1 h2
    simp only [upwind_select]
    rw [if_pos h1, if_pos h2]
  · intro h1 h2
    simp only [upwind_select]
    have h3 : ¬ (0.5 * (pls + mns) ≥ small_vel) := fun h => by linarith
    rw [if_pos h1, if_neg h3, if_pos h2]
  · intro h
    simp only [upwind_select]
    split_ifs with a b c
    · exact absurd ⟨a, Or.inl b⟩ h
    · exact absurd ⟨a, Or.inr c⟩ h
    · rfl
    · rfl
  · intro h1 h2
    simp only [upwind_select]
    have h3 : ¬ (mns ≥ 0 ∨ pls ≤ 0) := by
      rintro (h | h) <;> linarith
    rw [if_neg h3]
  · norm_num [upwind_select, small_vel]
  · norm_num [upwind_select, small_vel]
  · norm_num [upwind_select, small_vel]
  · intro hc
    refine ⟨?_, fun h1 h2 => ?_⟩
    · rw [x_kernel_plain_eq, if_pos hc]
    · rw [x_kernel_extdir_eq, if_pos hc, if_neg h1, if_neg h2]
  · intro hc
    refine ⟨?_, fun h1 h2 => ?_⟩
    · rw [y_kernel_plain_eq, if_pos hc]
    · rw [y_kernel_extdir_eq, if_pos hc, if_neg h1, if_neg h2]
  · intro hc
    refine ⟨?_, fun h1 h2 => ?_⟩
    · rw [z_kernel_plain_eq, if_pos hc]
    · rw [z_kernel_extdir_eq, if_pos hc, if_neg h1, if_neg h2]

/-- C4, at a concrete input: for `(mns, pls) = (2, -1)` the branch condition holds through
`mns ≥ 0`, the average `0.5` reaches the threshold, and the rule returns `mns = 2`. -/
theorem C4_riemann_resolution_witness :
    ((2 : ℚ) ≥ 0 ∨ (-1 : ℚ) ≤ 0) ∧ 0.5 * ((-1 : ℚ) + 2) ≥ small_vel ∧
    upwind_select 2 (-1) = 2 :=
  ⟨Or.inl (by norm_num), by norm_num [small_vel],
    (C4_riemann_resolution 2 (-1) ex_slopes_eb ex_slopes_extdir ex_vcc ex_flag_conn
      ex_cent ex_cent ex_cent ex_cent ex_bcrec 0 3 0 3 0 3 1 1 1).2.1
      (Or.inl (by norm_num)) (by norm_num [small_vel])⟩

/-! ## Helper lemmas: loops, the log and the frame of each phase of the driver -/

theorem foldl_induction {σ : Type} (P : σ → Prop) (body : Nat → σ → σ) (l : List Nat) (s : σ)
    (h0 : P s) (hs : ∀ lev s, P s → P (body lev s)) :
    P (l.foldl (fun s lev => body lev s) s) := by
  induction l generalizing s with
  | nil => simpa using h0
  | cons a l ih => simp only [List.foldl_cons]; exact ih _ (hs a s h0)

theorem forLev_induction {σ : Type} (P : σ → Prop) (n : Int) (body : Nat → σ → σ) (s : σ)
    (h0 : P s) (hs : ∀ lev s, P s → P (body lev s)) : P (forLev n body s) :=
  foldl_induction P body _ s h0 hs

theorem forDim_induction {σ : Type} (P : σ → Prop) (body : Nat → σ → σ) (s : σ)
    (h0 : P s) (hs : ∀ idim s, P s → P (body idim s)) : P (forDim body s) :=
  foldl_induction P body _ s h0 hs

theorem LogExt.self (k : Nat) (l : List Event) : LogExt k l l :=
  ⟨[], by simp, by simp⟩

theorem LogExt.trans {k : Nat} {l l' l'' : List Event} (h1 : LogExt k l l')
    (h2 : LogExt k l' l'') : LogExt k l l'' := by
  obtain ⟨n1, e1, p1⟩ := h1
  obtain ⟨n2, e2, p2⟩ := h2
  refine ⟨n1 ++ n2, by rw [e2, e1, List.append_assoc], ?_⟩
  intro e he
  rcases List.mem_append.mp he with h | h
  · exact p1 e h
  · exact p2 e h

theorem LogExt.snoc {k : Nat} {l l' : List Event} (h : LogExt k l l') (e : Event)
    (he : e.stage = k) : LogExt k l (l' ++ [e]) := by
  obtain ⟨n1, e1, p1⟩ := h
  refine ⟨n1 ++ [e], by rw [e1, List.append_assoc], ?_⟩
  intro e' he'
  rcases List.mem_append.mp he' with h | h
  · exact p1 e' h
  · rw [List.mem_singleton.mp h]; exact he

theorem LogExt.filter_eq {k : Nat} {l l' : List Event} (h : LogExt k l l') (p : Event → Bool)
    (hp : ∀ e, p e = true → e.stage ≠ k) : l'.filter p = l.filter p := by
  obtain ⟨n1, e1, p1⟩ := h
  rw [e1, List.filter_append]
  have : n1.filter p = [] := by
    rw [List.filter_eq_nil_iff]
    intro e he hpe
    exact hp e hpe (p1 e he)
  rw [this, List.append_nil]

theorem KeepsA.selfA (k : Nat) (s : RunState) : KeepsA k s s :=
  ⟨LogExt.self k s.log, rfl, rfl, rfl, rfl, rfl⟩

theorem KeepsB.selfB (k : Nat) (s : RunState) : KeepsB k s s :=
  ⟨LogExt.self k s.log, rfl, fun h => h⟩

theorem forcing_terms_frame (c : incflo) (x : Collaborators) (s : RunState) :
    KeepsA 1 s (forcing_terms c x s) := by
  unfold forcing_terms
  split
  · have h1 : KeepsA 1 s (if c.m_godunov_include_diff_in_forcing = true then
        forLev c.finest_level (fun lev s =>
          emit (Event.Add_divtau lev)
            { s with vel_forces := (Function.update s.vel_forces lev
                (MultiFab.Add (s.vel_forces lev) (c.divtau_o lev) 0 0 AMREX_SPACEDIM 0)) }) s
        else s) := by
      split
      · apply forLev_induction (fun t : RunState => KeepsA 1 s t)
        · exact KeepsA.selfA 1 s
        · intro lev t h
          exact ⟨h.1.snoc _ (by rfl), h.2⟩
      · exact KeepsA.selfA 1 s
    simp only []
    split
    · exact ⟨h1.1.snoc _ (by rfl), h1.2⟩
    · exact h1
  · exact KeepsA.selfA 1 s

theorem define_through_slot_frame (v : List (Option MultiFab)) (lev idim : Nat)
    (mf : MultiFab) (s t : RunState) (h : KeepsA 2 s t) :
    KeepsA 2 s (define_through_slot v lev idim mf t) := by
  unfold define_through_slot
  split
  · exact h
  · split
    · exact ⟨h.1.snoc _ (by rfl), h.2⟩
    · exact ⟨h.1.snoc _ (by rfl), h.2⟩

theorem define_inv_rho_frame (c : incflo) (s : RunState) :
    KeepsA 2 s (define_inv_rho c s) := by
  unfold define_inv_rho
  split
  · exact ⟨LogExt.self 2 s.log, rfl, rfl, rfl, rfl, rfl⟩
  · apply forLev_induction (fun t : RunState => KeepsA 2 s t)
    · exact KeepsA.selfA 2 s
    · intro lev t h
      exact define_through_slot_frame _ _ _ _ _ _
        (define_through_slot_frame _ _ _ _ _ _ (define_through_slot_frame _ _ _ _ _ _ h))

theorem inverse_density_frame (c : incflo) (x : Collaborators) (density : Nat → MultiFab)
    (s : RunState) : KeepsA 2 s (inverse_density c x density s) := by
  unfold inverse_density
  apply forLev_induction (fun t : RunState => KeepsA 2 s t)
  · exact KeepsA.selfA 2 s
  · intro lev t h
    apply forDim_induction (fun t : RunState => KeepsA 2 s t)
    · split
      · exact ⟨h.1.snoc _ (by rfl), h.2⟩
      · exact ⟨h.1.snoc _ (by rfl), h.2⟩
    · intro idim t h
      exact ⟨h.1.snoc _ (by rfl), h.2⟩

theorem init_or_update_projector_frame (c : incflo) (x : Collaborators) (s : RunState) :
    KeepsB 3 s (init_or_update_projector c x s) ∧
    (init_or_update_projector c x s).aborted = s.aborted ∧
    (init_or_update_projector c x s).macproj.m_needs_init = false := by
  unfold init_or_update_projector
  split
  · simp only []
    split
    · exact ⟨⟨((LogExt.self 3 s.log).snoc _ (by rfl)).snoc _ (by rfl), rfl, fun _ => rfl⟩, rfl, rfl⟩
    · exact ⟨⟨((LogExt.self 3 s.log).snoc _ (by rfl)).snoc _ (by rfl), rfl, fun _ => rfl⟩, rfl, rfl⟩
  · rename_i hn
    have hn' : s.macproj.m_needs_init = false := by
      simpa [MacProjector.needInitialization] using hn
    split
    · exact ⟨⟨(LogExt.self 3 s.log).snoc _ (by rfl), rfl, fun h => h⟩, rfl, hn'⟩
    · exact ⟨⟨(LogExt.self 3 s.log).snoc _ (by rfl), rfl, fun h => h⟩, rfl, hn'⟩

theorem fluxes_frame (c : incflo) (x : Collaborators) (s : RunState) :
    (KeepsB 4 s (fluxes c x s) ∧ (fluxes c x s).aborted = s.aborted) := by
  unfold fluxes
  have h1 : (fun t : RunState => KeepsB 4 s t ∧ t.aborted = s.aborted)
      (forLev c.finest_level (fun lev s =>
        forDim (fun idim s =>
          emit (Event.define_fluxes lev idim)
            { s with m_fluxes := (Function.update s.m_fluxes lev
                (Function.update (s.m_fluxes lev) idim
                  (MultiFab.define (convert (c.grids lev) idim) (c.dmap lev) 1 0))) }) s) s) := by
    apply forLev_induction (fun t : RunState => KeepsB 4 s t ∧ t.aborted = s.aborted)
    · exact ⟨KeepsB.selfB 4 s, rfl⟩
    · intro lev t h
      apply forDim_induction (fun t : RunState => KeepsB 4 s t ∧ t.aborted = s.aborted)
      · exact h
      · intro idim t h
        exact ⟨⟨h.1.1.snoc _ (by rfl), h.1.2⟩, h.2⟩
  simp only [] at h1 ⊢
  split
  · split
    · exact ⟨⟨h1.1.1.snoc _ (by rfl), h1.1.2⟩, h1.2⟩
    · exact ⟨⟨h1.1.1.snoc _ (by rfl), h1.1.2⟩, h1.2⟩
  · apply forLev_induction (fun t : RunState => KeepsB 4 s t ∧ t.aborted = s.aborted)
    · exact h1
    · intro lev t h
      apply forDim_induction (fun t : RunState => KeepsB 4 s t ∧ t.aborted = s.aborted)
      · exact h
      · intro idim t h
        exact ⟨⟨h.1.1.snoc _ (by rfl), h.1.2⟩, h.2⟩

theorem predict_to_faces_frame (c : incflo) (x : Collaborators) (vel : Nat → MultiFab)
    (s : RunState) : KeepsB 5 s (predict_to_faces c x vel s) := by
  unfold predict_to_faces
  apply forLev_induction (fun t : RunState => KeepsB 5 s t)
  · exact KeepsB.selfB 5 s
  · intro lev t h
    simp only []
    split
    · exact h
    · split
      · split
        · exact ⟨(h.1.snoc _ (by rfl)).snoc _ (by rfl), h.2⟩
        · exact ⟨(h.1.snoc _ (by rfl)).snoc _ (by rfl), h.2⟩
      · split
        · split
          · exact ⟨(h.1.snoc _ (by rfl)).snoc _ (by rfl), h.2⟩
          · exact ⟨(h.1.snoc _ (by rfl)).snoc _ (by rfl), h.2⟩
        · exact ⟨(h.1.snoc _ (by rfl)).snoc _ (by rfl), h.2⟩

theorem mac_projection_frame (c : incflo) (x : Collaborators) (s : RunState) :
    (KeepsB 6 s (mac_projection c x s) ∧ (mac_projection c x s).aborted = s.aborted) := by
  unfold mac_projection
  split
  · exact ⟨KeepsB.selfB 6 s, rfl⟩
  · have h0 : (fun t : RunState => KeepsB 6 s t ∧ t.aborted = s.aborted)
        (if c.m_verbose > 2 then
          emit (Event.Print "MAC Projection:\n")
            (emit Event.setUMAC { s with macproj := s.macproj.setUMAC })
         else emit Event.setUMAC { s with macproj := s.macproj.setUMAC }) := by
      simp only []
      split
      · exact ⟨⟨((LogExt.self 6 s.log).snoc _ (by rfl)).snoc _ (by rfl), rfl, fun h => h⟩, rfl⟩
      · exact ⟨⟨(LogExt.self 6 s.log).snoc _ (by rfl), rfl, fun h => h⟩, rfl⟩
    simp only [] at h0 ⊢
    generalize (if c.m_verbose > 2 then
          emit (Event.Print "MAC Projection:\n")
            (emit Event.setUMAC { s with macproj := s.macproj.setUMAC })
         else emit Event.setUMAC { s with macproj := s.macproj.setUMAC }) = s1 at h0 ⊢
    split
    · apply forLev_induction (fun t : RunState => KeepsB 6 s t ∧ t.aborted = s.aborted)
      · have h1 : (fun t : RunState => KeepsB 6 s t ∧ t.aborted = s.aborted)
            (forLev c.finest_level (fun lev s =>
              emit (Event.mult lev (c.m_dt / 2))
                { s with mac_phi := (Function.update s.mac_phi lev
                    ((s.mac_phi lev).mult (c.m_dt / 2) 0 1 1)) }) s1) := by
          apply forLev_induction (fun t : RunState => KeepsB 6 s t ∧ t.aborted = s.aborted)
          · exact h0
          · intro lev t h
            exact ⟨⟨h.1.1.snoc _ (by rfl), h.1.2⟩, h.2⟩
        simp only [] at h1
        exact ⟨⟨h1.1.1.snoc _ (by rfl), h1.1.2⟩, h1.2⟩
      · intro lev t h
        exact ⟨⟨h.1.1.snoc _ (by rfl), h.1.2⟩, h.2⟩
    · exact ⟨⟨h0.1.1.snoc _ (by rfl), h0.1.2⟩, h0.2⟩

/-! ## Helper lemmas: the death of the process in the first `define` call -/

theorem foldl_fixed {σ : Type} (body : Nat → σ → σ) (l : List Nat) (s : σ)
    (h : ∀ lev, body lev s = s) : l.foldl (fun s lev => body lev s) s = s := by
  induction l with
  | nil => rfl
  | cons a l ih => simp only [List.foldl_cons]; rw [h a]; exact ih

theorem slot_allocated_null (n lev : Nat) :
    slot_allocated (Vector_of_pointers n) lev = false := by
  unfold slot_allocated Vector_of_pointers
  split
  · rename_i a h
    have hm : some a ∈ List.replicate n (none : Option MultiFab) := List.get?_mem h
    have := List.eq_of_mem_replicate hm
    exact Option.noConfusion this
  · rfl

theorem alive_dead (p : RunState → RunState) (s : RunState) (h : s.crashed = true) :
    alive p s = s := by
  unfold alive
  rw [if_pos h]

theorem alive_running (p : RunState → RunState) (s : RunState) (h : s.crashed = false) :
    alive p s = p s := by
  unfold alive
  have h' : ¬ (s.crashed = true) := by rw [h]; exact Bool.noConfusion
  rw [if_neg h']

theorem define_through_slot_dead (v : List (Option MultiFab)) (lev idim : Nat)
    (mf : MultiFab) (s : RunState) (h : s.crashed = true) :
    define_through_slot v lev idim mf s = s := by
  unfold define_through_slot
  rw [if_pos h]

theorem define_through_slot_null (n lev idim : Nat) (mf : MultiFab) (s : RunState)
    (h : s.crashed = false) :
    define_through_slot (Vector_of_pointers n) lev idim mf s =
      emit (Event.define_inv_rho lev idim false) { s with crashed := true } := by
  unfold define_through_slot
  have h' : ¬ (s.crashed = true) := by rw [h]; exact Bool.noConfusion
  have hn : ¬ (slot_allocated (Vector_of_pointers n) lev = true) := by
    rw [slot_allocated_null]; exact Bool.noConfusion
  rw [if_neg h', if_neg hn]

theorem define_inv_rho_dies (c : incflo) (s : RunState) (hl : 0 ≤ c.finest_level)
    (hs : s.crashed = false) :
    define_inv_rho c s = emit (Event.define_inv_rho 0 0 false) { s with crashed := true } := by
  unfold define_inv_rho forLev
  have hneg : ¬ (c.finest_level + 1 < 0) := by omega
  obtain ⟨m, hm⟩ : ∃ m, (c.finest_level + 1).toNat = m + 1 := ⟨c.finest_level.toNat, by omega⟩
  rw [if_neg hneg, hm, List.range_succ_eq_map, List.foldl_cons]
  simp only []
  rw [define_through_slot_null (m + 1) 0 0 _ s hs,
    define_through_slot_dead _ 0 1 _ _ rfl, define_through_slot_dead _ 0 2 _ _ rfl,
    foldl_fixed]
  intro lev
  rw [define_through_slot_dead _ lev 0 _ _ rfl, define_through_slot_dead _ lev 1 _ _ rfl,
    define_through_slot_dead _ lev 2 _ _ rfl]

theorem define_inv_rho_throws (c : incflo) (s : RunState) (hl : c.finest_level + 1 < 0) :
    define_inv_rho c s = { s with crashed := true } := by
  unfold define_inv_rho
  rw [if_pos hl]

theorem define_inv_rho_no_level (c : incflo) (s : RunState) (hl : c.finest_level = -1) :
    define_inv_rho c s = s := by
  unfold define_inv_rho forLev
  have hneg : ¬ (c.finest_level + 1 < 0) := by omega
  have h0 : (c.finest_level + 1).toNat = 0 := by omega
  rw [if_neg hneg, h0]
  rfl

/-! ## Helper lemmas: what each phase leaves untouched -/

theorem forcing_terms_keeps (c : incflo) (x : Collaborators) (s : RunState) :
    (forcing_terms c x s).crashed = s.crashed ∧ (forcing_terms c x s).inv_rho = s.inv_rho ∧
    (forcing_terms c x s).mac_phi = s.mac_phi := by
  unfold forcing_terms
  split
  · have h1 : (fun t : RunState =>
          t.crashed = s.crashed ∧ t.inv_rho = s.inv_rho ∧ t.mac_phi = s.mac_phi)
        (if c.m_godunov_include_diff_in_forcing = true then
        forLev c.finest_level (fun lev s =>
          emit (Event.Add_divtau lev)
            { s with vel_forces := (Function.update s.vel_forces lev
                (MultiFab.Add (s.vel_forces lev) (c.divtau_o lev) 0 0 AMREX_SPACEDIM 0)) }) s
        else s) := by
      simp only []
      split
      · apply forLev_induction
          (fun t : RunState =>
            t.crashed = s.crashed ∧ t.inv_rho = s.inv_rho ∧ t.mac_phi = s.mac_phi)
        · exact ⟨rfl, rfl, rfl⟩
        · intro lev t h
          exact h
      · exact ⟨rfl, rfl, rfl⟩
    simp only [] at h1 ⊢
    split
    · exact h1
    · exact h1
  · exact ⟨rfl, rfl, rfl⟩

theorem inverse_density_keeps (c : incflo) (x : Collaborators) (density : Nat → MultiFab)
    (s : RunState) :
    (inverse_density c x density s).crashed = s.crashed ∧
    (inverse_density c x density s).vel_forces = s.vel_forces := by
  unfold inverse_density
  apply forLev_induction (fun t : RunState => t.crashed = s.crashed ∧ t.vel_forces = s.vel_forces)
  · exact ⟨rfl, rfl⟩
  · intro lev t h
    apply forDim_induction (fun t : RunState => t.crashed = s.crashed ∧ t.vel_forces = s.vel_forces)
    · split <;> exact h
    · intro idim t h
      exact h

theorem init_or_update_projector_keeps (c : incflo) (x : Collaborators) (s : RunState) :
    (init_or_update_projector c x s).crashed = s.crashed ∧
    (init_or_update_projector c x s).vel_forces = s.vel_forces := by
  unfold init_or_update_projector
  split
  · simp only []
    split <;> exact ⟨rfl, rfl⟩
  · split <;> exact ⟨rfl, rfl⟩

theorem fluxes_keeps (c : incflo) (x : Collaborators) (s : RunState) :
    (fluxes c x s).crashed = s.crashed ∧ (fluxes c x s).vel_forces = s.vel_forces := by
  unfold fluxes
  have h1 : (fun t : RunState => t.crashed = s.crashed ∧ t.vel_forces = s.vel_forces)
      (forLev c.finest_level (fun lev s =>
        forDim (fun idim s =>
          emit (Event.define_fluxes lev idim)
            { s with m_fluxes := (Function.update s.m_fluxes lev
                (Function.update (s.m_fluxes lev) idim
                  (MultiFab.define (convert (c.grids lev) idim) (c.dmap lev) 1 0))) }) s) s) := by
    apply forLev_induction (fun t : RunState => t.crashed = s.crashed ∧ t.vel_forces = s.vel_forces)
    · exact ⟨rfl, rfl⟩
    · intro lev t h
      apply forDim_induction (fun t : RunState => t.crashed = s.crashed ∧ t.vel_forces = s.vel_forces)
      · exact h
      · intro idim t h
        exact h
  simp only [] at h1 ⊢
  split
  · split <;> exact h1
  · apply forLev_induction (fun t : RunState => t.crashed = s.crashed ∧ t.vel_forces = s.vel_forces)
    · exact h1
    · intro lev t h
      apply forDim_induction (fun t : RunState => t.crashed = s.crashed ∧ t.vel_forces = s.vel_forces)
      · exact h
      · intro idim t h
        exact h

theorem predict_to_faces_keeps (c : incflo) (x : Collaborators) (vel : Nat → MultiFab)
    (s : RunState) :
    (predict_to_faces c x vel s).crashed = s.crashed ∧
    (predict_to_faces c x vel s).vel_forces = s.vel_forces := by
  unfold predict_to_faces
  apply forLev_induction (fun t : RunState => t.crashed = s.crashed ∧ t.vel_forces = s.vel_forces)
  · exact ⟨rfl, rfl⟩
  · intro lev t h
    simp only []
    split
    · exact h
    · split
      · split <;> exact h
      · split
        · split <;> exact h
        · exact h

theorem mac_projection_keeps (c : incflo) (x : Collaborators) (s : RunState) :
    (mac_projection c x s).crashed = s.crashed ∧
    (mac_projection c x s).vel_forces = s.vel_forces := by
  unfold mac_projection
  split
  · exact ⟨rfl, rfl⟩
  · have h0 : (fun t : RunState => t.crashed = s.crashed ∧ t.vel_forces = s.vel_forces)
        (if c.m_verbose > 2 then
          emit (Event.Print "MAC Projection:\n")
            (emit Event.setUMAC { s with macproj := s.macproj.setUMAC })
         else emit Event.setUMAC { s with macproj := s.macproj.setUMAC }) := by
      simp only []
      split <;> exact ⟨rfl, rfl⟩
    simp only [] at h0 ⊢
    generalize (if c.m_verbose > 2 then
          emit (Event.Print "MAC Projection:\n")
            (emit Event.setUMAC { s with macproj := s.macproj.setUMAC })
         else emit Event.setUMAC { s with macproj := s.macproj.setUMAC }) = s1 at h0 ⊢
    split
    · apply forLev_induction (fun t : RunState => t.crashed = s.crashed ∧ t.vel_forces = s.vel_forces)
      · have h1 : (fun t : RunState => t.crashed = s.crashed ∧ t.vel_forces = s.vel_forces)
            (forLev c.finest_level (fun lev s =>
              emit (Event.mult lev (c.m_dt / 2))
                { s with mac_phi := (Function.update s.mac_phi lev
                    ((s.mac_phi lev).mult (c.m_dt / 2) 0 1 1)) }) s1) := by
          apply forLev_induction (fun t : RunState => t.crashed = s.crashed ∧ t.vel_forces = s.vel_forces)
          · exact h0
          · intro lev t h
            exact h
        simp only [] at h1
        exact h1
      · intro lev t h
        exact h
    · exact h0

theorem alive_keeps (p : RunState → RunState)
    (hp : ∀ s, (p s).crashed = s.crashed ∧ (p s).vel_forces = s.vel_forces)
    (s : RunState) :
    (alive p s).crashed = s.crashed ∧ (alive p s).vel_forces = s.vel_forces := by
  unfold alive
  split
  · exact ⟨rfl, rfl⟩
  · exact hp s

theorem alive_filter (p : RunState → RunState) (k : Nat)
    (hp : ∀ s, LogExt k s.log (p s).log) (q : Event → Bool)
    (hq : ∀ e, q e = true → e.stage ≠ k) (s : RunState) :
    (alive p s).log.filter q = s.log.filter q := by
  unfold alive
  split
  · rfl
  · exact (hp s).filter_eq q hq

theorem define_through_slot_vel_forces (v : List (Option MultiFab)) (lev idim : Nat)
    (mf : MultiFab) (s : RunState) :
    (define_through_slot v lev idim mf s).vel_forces = s.vel_forces := by
  unfold define_through_slot
  split
  · rfl
  · split <;> rfl

theorem define_inv_rho_vel_forces (c : incflo) (s : RunState) :
    (define_inv_rho c s).vel_forces = s.vel_forces := by
  unfold define_inv_rho
  split
  · rfl
  · apply forLev_induction (fun t : RunState => t.vel_forces = s.vel_forces)
    · rfl
    · intro lev t h
      rw [define_through_slot_vel_forces, define_through_slot_vel_forces,
        define_through_slot_vel_forces]
      exact h

/-! ## Helper lemmas: the three ways a run can go -/

theorem run_dies (c : incflo) (x : Collaborators) (vel density : Nat → MultiFab) (f : Fields)
    (hl : 0 ≤ c.finest_level) :
    compute_MAC_projected_velocities c x vel density f =
      emit (Event.define_inv_rho 0 0 false)
        { forcing_terms c x (entry f) with crashed := true } := by
  unfold compute_MAC_projected_velocities before_projection
  rw [define_inv_rho_dies c _ hl (forcing_terms_keeps c x (entry f)).1,
    alive_dead _ _ rfl, alive_dead _ _ rfl, alive_dead _ _ rfl, alive_dead _ _ rfl,
    alive_dead _ _ rfl]

theorem run_throws (c : incflo) (x : Collaborators) (vel density : Nat → MultiFab)
    (f : Fields) (hl : c.finest_level + 1 < 0) :
    compute_MAC_projected_velocities c x vel density f =
      { forcing_terms c x (entry f) with crashed := true } := by
  unfold compute_MAC_projected_velocities before_projection
  rw [define_inv_rho_throws c _ hl,
    alive_dead _ _ rfl, alive_dead _ _ rfl, alive_dead _ _ rfl, alive_dead _ _ rfl,
    alive_dead _ _ rfl]

theorem run_crashed (c : incflo) (x : Collaborators) (vel density : Nat → MultiFab)
    (f : Fields) :
    (compute_MAC_projected_velocities c x vel density f).crashed = true ↔
      c.finest_level ≠ -1 := by
  constructor
  · intro h hl
    have h1 : (compute_MAC_projected_velocities c x vel density f).crashed = false := by
      unfold compute_MAC_projected_velocities before_projection
      rw [(alive_keeps _ (mac_projection_keeps c x) _).1,
        (alive_keeps _ (predict_to_faces_keeps c x vel) _).1,
        (alive_keeps _ (fluxes_keeps c x) _).1,
        (alive_keeps _ (init_or_update_projector_keeps c x) _).1,
        (alive_keeps _ (inverse_density_keeps c x density) _).1,
        define_inv_rho_no_level c _ hl, (forcing_terms_keeps c x (entry f)).1]
      rfl
    rw [h1] at h
    exact Bool.noConfusion h
  · intro hl
    by_cases h0 : 0 ≤ c.finest_level
    · rw [run_dies c x vel density f h0]
      rfl
    · rw [run_throws c x vel density f (by omega)]

theorem forcing_terms_filter (c : incflo) (x : Collaborators) (f : Fields) (p : Event → Bool)
    (hp : ∀ e, p e = true → e.stage ≠ 1) :
    (forcing_terms c x (entry f)).log.filter p = [] := by
  rw [(forcing_terms_frame c x (entry f)).1.filter_eq p hp]
  rfl

/-! ## Helper lemmas: the phase of each kind of call -/

theorem isAbort_stage (e : Event) (h : e.isAbort = true) : e.stage = 5 := by
  cases e <;> simp_all [Event.isAbort, Event.stage]

theorem isInitProjector_stage (e : Event) (h : e.isInitProjector = true) : e.stage = 3 := by
  cases e <;> simp_all [Event.isInitProjector, Event.stage]

theorem isSetDomainBC_stage (e : Event) (h : e.isSetDomainBC = true) : e.stage = 3 := by
  cases e <;> simp_all [Event.isSetDomainBC, Event.stage]

theorem isUpdateBeta_stage (e : Event) (h : e.isUpdateBeta = true) : e.stage = 3 := by
  cases e <;> simp_all [Event.isUpdateBeta, Event.stage]

theorem isCoefficient_stage (e : Event) (h : e.isCoefficient = true) : e.stage = 3 := by
  cases e <;> simp_all [Event.isCoefficient, Event.isInitProjector, Event.isUpdateBeta,
    Event.stage]

theorem isProject_stage (e : Event) (h : e.isProject = true) : e.stage = 6 := by
  cases e <;> simp_all [Event.isProject, Event.stage]

theorem isMult_stage (e : Event) (h : e.isMult = true) : e.stage = 6 := by
  cases e <;> simp_all [Event.isMult, Event.stage]

theorem isPredictor_stage (e : Event) (h : e.isPredictor = true) : e.stage = 5 := by
  cases e <;> simp_all [Event.isPredictor, Event.stage]

theorem isDefineInvRho_stage (e : Event) (h : e.isDefineInvRho = true) : e.stage = 2 := by
  cases e <;> simp_all [Event.isDefineInvRho, Event.stage]

theorem isInverseDensity_stage (e : Event) (h : e.isInverseDensity = true) : e.stage = 2 := by
  cases e <;> simp_all [Event.isInverseDensity, Event.stage]

theorem isSetUMAC_stage (e : Event) (h : e.isSetUMAC = true) : e.stage = 6 := by
  cases e <;> simp_all [Event.isSetUMAC, Event.stage]

theorem run_dies_log (c : incflo) (x : Collaborators) (vel density : Nat → MultiFab)
    (f : Fields) (hl : 0 ≤ c.finest_level) :
    (compute_MAC_projected_velocities c x vel density f).log =
      (forcing_terms c x (entry f)).log ++ [Event.define_inv_rho 0 0 false] := by
  rw [run_dies c x vel density f hl]
  rfl

theorem run_dies_filter (c : incflo) (x : Collaborators) (vel density : Nat → MultiFab)
    (f : Fields) (hl : 0 ≤ c.finest_level) (p : Event → Bool)
    (hp : ∀ e, p e = true → e.stage ≠ 1) (hd : p (Event.define_inv_rho 0 0 false) = false) :
    (compute_MAC_projected_velocities c x vel density f).log.filter p = [] := by
  rw [run_dies_log c x vel density f hl, List.filter_append, forcing_terms_filter c x f p hp]
  simp [hd]

theorem inverse_density_no_level (c : incflo) (x : Collaborators) (density : Nat → MultiFab)
    (s : RunState) (hl : c.finest_level = -1) : inverse_density c x density s = s := by
  unfold inverse_density forLev
  have h0 : (c.finest_level + 1).toNat = 0 := by omega
  rw [h0]
  rfl

theorem run_no_level (c : incflo) (x : Collaborators) (vel density : Nat → MultiFab)
    (f : Fields) (hl : c.finest_level = -1) :
    compute_MAC_projected_velocities c x vel density f =
      mac_projection c x (predict_to_faces c x vel (fluxes c x
        (init_or_update_projector c x (forcing_terms c x (entry f))))) := by
  have h0 : (forcing_terms c x (entry f)).crashed = false :=
    (forcing_terms_keeps c x (entry f)).1
  have h1 : (init_or_update_projector c x (forcing_terms c x (entry f))).crashed = false :=
    (init_or_update_projector_keeps c x _).1.trans h0
  have h2 : (fluxes c x
      (init_or_update_projector c x (forcing_terms c x (entry f)))).crashed = false :=
    (fluxes_keeps c x _).1.trans h1
  have h3 : (predict_to_faces c x vel (fluxes c x
      (init_or_update_projector c x (forcing_terms c x (entry f))))).crashed = false :=
    (predict_to_faces_keeps c x vel _).1.trans h2
  unfold compute_MAC_projected_velocities before_projection
  rw [define_inv_rho_no_level c _ hl, alive_running _ _ h0,
    inverse_density_no_level c x density _ hl, alive_running _ _ h0, alive_running _ _ h1,
    alive_running _ _ h2, alive_running _ _ h3]

theorem forcing_terms_stage (c : incflo) (x : Collaborators) (f : Fields) :
    ∀ e ∈ (forcing_terms c x (entry f)).log, e.stage = 1 := by
  intro e he
  obtain ⟨new, hnew, hst⟩ := (forcing_terms_frame c x (entry f)).1
  have hmem : e ∈ new := by
    rw [hnew] at he
    simpa [entry] using he
  exact hst e hmem

/-! ## C6: the unknown-scheme abort is never reached -/

/-- C6, the behaviour of the code: in every configuration with at least one level
(`0 ≤ finest_level`) and for every advection type, recognised or not, the process dies in
the first `define` call of line 56, made through a null slot of `inv_rho_x` (the defect of
C16).  That call is the last call of the run: the run does not end through `amrex::Abort`,
its log holds no `Abort` call, and the dispatch of lines 139-179 is not reached. -/
theorem C6_abort_never_reached (c : incflo) (x : Collaborators)
    (vel density : Nat → MultiFab) (f : Fields) (hl : 0 ≤ c.finest_level) :
    (compute_MAC_projected_velocities c x vel density f).crashed = true ∧
    (compute_MAC_projected_velocities c x vel density f).aborted = false ∧
    (compute_MAC_projected_velocities c x vel density f).log.filter Event.isAbort = [] ∧
    (∀ e ∈ (compute_MAC_projected_velocities c x vel density f).log, e.stage ≠ 5) ∧
    (compute_MAC_projected_velocities c x vel density f).log.getLast? =
      some (Event.define_inv_rho 0 0 false) := by
  have hlog := run_dies_log c x vel density f hl
  refine ⟨?_, ?_, ?_, ?_, ?_⟩
  · rw [run_dies c x vel density f hl]
    rfl
  · rw [run_dies c x vel density f hl]
    exact (forcing_terms_frame c x (entry f)).2.1
  · exact run_dies_filter c x vel density f hl _
      (fun e he => by rw [isAbort_stage e he]; decide) rfl
  · intro e he
    rw [hlog, List.mem_append, List.mem_singleton] at he
    rcases he with he | he
    · rw [forcing_terms_stage c x f e he]
      decide
    · rw [he]
      decide
  · rw [hlog]
    simp

/-- C6, at the failing input: one level and the advection type `"WENO"`, which is neither
`"Godunov"` nor `"MOL"`; the run is not ended by `amrex::Abort`, the process dies, and the
`define` call through the null slot is the only call of the run. -/
theorem C6_abort_never_reached_witness :
    (0 : Int) ≤ ex_incflo_unknown.finest_level ∧
    (ex_incflo_unknown.m_advection_type ≠ "Godunov" ∧
      ex_incflo_unknown.m_advection_type ≠ "MOL") ∧
    (compute_MAC_projected_velocities ex_incflo_unknown ex_collab ex_vel ex_density
      ex_fields).aborted = false ∧
    (compute_MAC_projected_velocities ex_incflo_unknown ex_collab ex_vel ex_density
      ex_fields).crashed = true ∧
    (compute_MAC_projected_velocities ex_incflo_unknown ex_collab ex_vel ex_density
      ex_fields).log.getLast? = some (Event.define_inv_rho 0 0 false) :=
  ⟨by decide, ⟨by decide, by decide⟩,
    (C6_abort_never_reached ex_incflo_unknown ex_collab ex_vel ex_density ex_fields
      (by decide)).2.1,
    (C6_abort_never_reached ex_incflo_unknown ex_collab ex_vel ex_density ex_fields
      (by decide)).1,
    (C6_abort_never_reached ex_incflo_unknown ex_collab ex_vel ex_density ex_fields
      (by decide)).2.2.2.2⟩

/-! ## C7: the projector set-up is never reached -/

/-- C7, the behaviour of the code: in every configuration with at least one level the
process dies in the first `define` call of line 56 (the defect of C16), before lines 84-112
are reached: the run calls neither `initProjector` nor `setDomainBC` nor `updateBeta`,
whatever `needInitialization()` reports, it leaves the projector as it was, and a sequence
of runs ends with its first run. -/
theorem C7_projector_never_reached (c : incflo) (x : Collaborators)
    (vel density : Nat → MultiFab) (f : Fields)
    (rest : List (incflo × (Nat → MultiFab) × (Nat → MultiFab)))
    (hl : 0 ≤ c.finest_level) :
    (compute_MAC_projected_velocities c x vel density f).crashed = true ∧
    (compute_MAC_projected_velocities c x vel density f).log.countP Event.isInitProjector
      = 0 ∧
    (compute_MAC_projected_velocities c x vel density f).log.countP Event.isSetDomainBC
      = 0 ∧
    (compute_MAC_projected_velocities c x vel density f).log.countP Event.isUpdateBeta
      = 0 ∧
    (compute_MAC_projected_velocities c x vel density f).macproj = f.macproj ∧
    run_steps x ((c, vel, density) :: rest) f =
      [compute_MAC_projected_velocities c x vel density f] := by
  have hcr : (compute_MAC_projected_velocities c x vel density f).crashed = true := by
    rw [run_dies c x vel density f hl]
    rfl
  refine ⟨hcr, ?_, ?_, ?_, ?_, ?_⟩
  · rw [List.countP_eq_length_filter, run_dies_filter c x vel density f hl _
      (fun e he => by rw [isInitProjector_stage e he]; decide) rfl]
    rfl
  · rw [List.countP_eq_length_filter, run_dies_filter c x vel density f hl _
      (fun e he => by rw [isSetDomainBC_stage e he]; decide) rfl]
    rfl
  · rw [List.countP_eq_length_filter, run_dies_filter c x vel density f hl _
      (fun e he => by rw [isUpdateBeta_stage e he]; decide) rfl]
    rfl
  · rw [run_dies c x vel density f hl]
    exact (forcing_terms_frame c x (entry f)).2.2.1
  · simp only [run_steps]
    rw [if_pos (Or.inr hcr)]

/-- C7, at the failing input: one level and a projector that reports
`needInitialization() = true`; the run makes no `initProjector` call and no `updateBeta`
call, and the projector still needs its initialisation afterwards. -/
theorem C7_projector_never_reached_witness :
    (0 : Int) ≤ ex_incflo.finest_level ∧
    ex_fields.macproj.needInitialization = true ∧
    (compute_MAC_projected_velocities ex_incflo ex_collab ex_vel ex_density
      ex_fields).log.countP Event.isInitProjector = 0 ∧
    (compute_MAC_projected_velocities ex_incflo ex_collab ex_vel ex_density
      ex_fields).log.countP Event.isUpdateBeta = 0 ∧
    (compute_MAC_projected_velocities ex_incflo ex_collab ex_vel ex_density
      ex_fields).macproj.needInitialization = true :=
  ⟨by decide, rfl,
    (C7_projector_never_reached ex_incflo ex_collab ex_vel ex_density ex_fields []
      (by decide)).2.1,
    (C7_projector_never_reached ex_incflo ex_collab ex_vel ex_density ex_fields []
      (by decide)).2.2.2.1,
    by
      rw [(C7_projector_never_reached ex_incflo ex_collab ex_vel ex_density ex_fields []
        (by decide)).2.2.2.2.1]
      rfl⟩

/-! ## C8: the coefficient handed to the projector -/

/-- C9, the behaviour of the code: in every configuration with at least one level the
process dies in the first `define` call of line 56 (the defect of C16), before the loop of
lines 63-79 is reached: the run makes no interpolation call and no `invert` call, and no
inverse-density field is defined, filled or inverted, whatever the density is. -/
theorem C9_inverse_density_never_built (c : incflo) (x : Collaborators)
    (vel density : Nat → MultiFab) (f : Fields) (hl : 0 ≤ c.finest_level) :
    (compute_MAC_projected_velocities c x vel density f).crashed = true ∧
    (compute_MAC_projected_velocities c x vel density f).log.filter Event.isInverseDensity
      = [] ∧
    (∀ lev idim : Nat, Event.define_inv_rho lev idim true ∉
      (compute_MAC_projected_velocities c x vel density f).log) ∧
    (compute_MAC_projected_velocities c x vel density f).inv_rho = (entry f).inv_rho := by
  refine ⟨?_, ?_, ?_, ?_⟩
  · rw [run_dies c x vel density f hl]
    rfl
  · exact run_dies_filter c x vel density f hl _
      (fun e he => by rw [isInverseDensity_stage e he]; decide) rfl
  · intro lev idim hmem
    rw [run_dies_log c x vel density f hl, List.mem_append, List.mem_singleton] at hmem
    rcases hmem with hmem | hmem
    · have hm : Event.define_inv_rho lev idim true ∈
          (forcing_terms c x (entry f)).log.filter Event.isDefineInvRho :=
        List.mem_filter.mpr ⟨hmem, rfl⟩
      rw [forcing_terms_filter c x f _
        (fun e he => by rw [isDefineInvRho_stage e he]; decide)] at hm
      exact absurd hm (List.not_mem_nil _)
    · injection hmem with _ _ hb
      exact Bool.noConfusion hb
  · rw [run_dies c x vel density f hl]
    exact (forcing_terms_keeps c x (entry f)).2.1

/-- C9, at the failing input: a build without embedded boundaries, one level, density `4`
in every cell; the run makes no interpolation and no `invert` call, and the process dies. -/
theorem C9_inverse_density_never_built_witness :
    (0 : Int) ≤ ex_incflo_noeb.finest_level ∧
    (ex_density 0).data 0 0 0 0 = 4 ∧
    (compute_MAC_projected_velocities ex_incflo_noeb ex_collab ex_vel ex_density
      ex_fields).crashed = true ∧
    (compute_MAC_projected_velocities ex_incflo_noeb ex_collab ex_vel ex_density
      ex_fields).log.filter Event.isInverseDensity = [] :=
  ⟨by decide, rfl,
    (C9_inverse_density_never_built ex_incflo_noeb ex_collab ex_vel ex_density ex_fields
      (by decide)).1,
    (C9_inverse_density_never_built ex_incflo_noeb ex_collab ex_vel ex_density ex_fields
      (by decide)).2.1⟩

/-! ## C10: the projection is never reached -/

/-- C10, the behaviour of the code: in every configuration with at least one level, with
the potential seeding the prediction or not, the process dies in the first `define` call of
line 56 (the defect of C16), before lines 180-205 are reached: the run makes no `mult` call
and no `project` call, and the potential `mac_phi` is left as it was at entry. -/
theorem C10_projection_never_reached (c : incflo) (x : Collaborators)
    (vel density : Nat → MultiFab) (f : Fields) (hl : 0 ≤ c.finest_level) :
    (compute_MAC_projected_velocities c x vel density f).crashed = true ∧
    (compute_MAC_projected_velocities c x vel density f).log.filter Event.isMult = [] ∧
    (compute_MAC_projected_velocities c x vel density f).log.filter Event.isProject = [] ∧
    (compute_MAC_projected_velocities c x vel density f).mac_phi = f.mac_phi := by
  refine ⟨?_, ?_, ?_, ?_⟩
  · rw [run_dies c x vel density f hl]
    rfl
  · exact run_dies_filter c x vel density f hl _
      (fun e he => by rw [isMult_stage e he]; decide) rfl
  · exact run_dies_filter c x vel density f hl _
      (fun e he => by rw [isProject_stage e he]; decide) rfl
  · rw [run_dies c x vel density f hl]
    exact (forcing_terms_keeps c x (entry f)).2.2

/-- C10, at the failing input: one level, the potential seeding the prediction and
`dt = 1/10`; the run makes no `mult` call and no `project` call. -/
theorem C10_projection_never_reached_witness :
    (0 : Int) ≤ ex_incflo.finest_level ∧
    ex_incflo.m_use_mac_phi_in_godunov = true ∧ ex_incflo.m_dt ≠ 0 ∧
    (compute_MAC_projected_velocities ex_incflo ex_collab ex_vel ex_density
      ex_fields).log.filter Event.isMult = [] ∧
    (compute_MAC_projected_velocities ex_incflo ex_collab ex_vel ex_density
      ex_fields).log.filter Event.isProject = [] :=
  ⟨by decide, rfl, by norm_num [ex_incflo],
    (C10_projection_never_reached ex_incflo ex_collab ex_vel ex_density ex_fields
      (by decide)).2.1,
    (C10_projection_never_reached ex_incflo ex_collab ex_vel ex_density ex_fields
      (by decide)).2.2.1⟩

/-! ## Helper lemmas: the forcing of a run -/

theorem add_loop (c : incflo) (m : Nat) (t : RunState) :
    (List.range m).foldl (fun s lev =>
        emit (Event.Add_divtau lev)
          { s with vel_forces := (Function.update s.vel_forces lev
              (MultiFab.Add (s.vel_forces lev) (c.divtau_o lev) 0 0 AMREX_SPACEDIM 0)) }) t
      = { t with vel_forces := add_divtau_levels m c.divtau_o t.vel_forces,
                 log := t.log ++ (List.range m).map (fun lev => Event.Add_divtau lev) } := by
  induction m with
  | zero =>
    have h0 : add_divtau_levels 0 c.divtau_o t.vel_forces = t.vel_forces := by
      funext lev
      simp [add_divtau_levels]
    simp [h0]
  | succ m ih =>
    rw [List.range_succ, List.foldl_append, ih]
    simp only [List.foldl_cons, List.foldl_nil, emit, List.map_append, List.map_cons,
      List.map_nil, List.append_assoc]
    congr 2
    funext lev
    by_cases h : lev = m
    · subst h
      simp [add_divtau_levels]
    · rw [Function.update_noteq h]
      have h1 : lev < m + 1 ↔ lev < m := by omega
      simp [add_divtau_levels, h1]

theorem forcing_terms_value (c : incflo) (x : Collaborators) (s : RunState) :
    (forcing_terms c x s).vel_forces =
      (if c.m_advection_type ≠ "MOL" then
        (if x.nghost_force > 0 then
          x.fillpatch_force c.m_cur_time
            (if c.m_godunov_include_diff_in_forcing = true then
              add_divtau_levels (c.finest_level + 1).toNat c.divtau_o s.vel_forces
             else s.vel_forces) x.nghost_force
         else
          (if c.m_godunov_include_diff_in_forcing = true then
            add_divtau_levels (c.finest_level + 1).toNat c.divtau_o s.vel_forces
           else s.vel_forces))
       else s.vel_forces) ∧
    (forcing_terms c x s).log = s.log ++
      (if c.m_advection_type ≠ "MOL" then
        (if c.m_godunov_include_diff_in_forcing = true then
          (List.range (c.finest_level + 1).toNat).map (fun lev => Event.Add_divtau lev)
         else []) ++
        (if x.nghost_force > 0 then [Event.fillpatch_force x.nghost_force] else [])
       else []) := by
  unfold forcing_terms forLev
  simp only [add_loop]
  by_cases h1 : c.m_advection_type ≠ "MOL"
  · simp only [if_pos h1]
    by_cases h2 : c.m_godunov_include_diff_in_forcing = true
    · by_cases h3 : x.nghost_force > 0
      · simp only [if_pos h2, if_pos h3]
        refine ⟨?_, ?_⟩ <;> first | rfl | trivial | simp [emit]
      · simp only [if_pos h2, if_neg h3]
        refine ⟨?_, ?_⟩ <;> first | rfl | trivial | simp [emit]
    · by_cases h3 : x.nghost_force > 0
      · simp only [if_neg h2, if_pos h3]
        refine ⟨?_, ?_⟩ <;> rfl
      · simp only [if_neg h2, if_neg h3]
        refine ⟨?_, ?_⟩ <;> first | rfl | trivial | simp [emit]
  · simp only [if_neg h1]
    refine ⟨?_, ?_⟩ <;> first | rfl | trivial | simp [emit]

theorem run_vel_forces (c : incflo) (x : Collaborators) (vel density : Nat → MultiFab)
    (f : Fields) :
    (compute_MAC_projected_velocities c x vel density f).vel_forces =
      (forcing_terms c x (entry f)).vel_forces := by
  unfold compute_MAC_projected_velocities before_projection
  rw [(alive_keeps _ (mac_projection_keeps c x) _).2,
    (alive_keeps _ (predict_to_faces_keeps c x vel) _).2,
    (alive_keeps _ (fluxes_keeps c x) _).2,
    (alive_keeps _ (init_or_update_projector_keeps c x) _).2,
    (alive_keeps _ (inverse_density_keeps c x density) _).2,
    define_inv_rho_vel_forces]

theorem run_filter_stage1 (c : incflo) (x : Collaborators) (vel density : Nat → MultiFab)
    (f : Fields) (p : Event → Bool) (hp : ∀ e, p e = true → e.stage = 1) :
    (compute_MAC_projected_velocities c x vel density f).log.filter p =
      ((if c.m_advection_type ≠ "MOL" then
        (if c.m_godunov_include_diff_in_forcing = true then
          (List.range (c.finest_level + 1).toNat).map (fun lev => Event.Add_divtau lev)
         else []) ++
        (if x.nghost_force > 0 then [Event.fillpatch_force x.nghost_force] else [])
       else [])).filter p := by
  unfold compute_MAC_projected_velocities before_projection
  have hne : ∀ k, k ≠ 1 → ∀ e, p e = true → e.stage ≠ k := fun k hk e he h =>
    hk (by rw [← h, hp e he])
  rw [alive_filter _ 6 (fun s => (mac_projection_frame c x s).1.1) p (hne 6 (by decide)),
    alive_filter _ 5 (fun s => (predict_to_faces_frame c x vel s).1) p (hne 5 (by decide)),
    alive_filter _ 4 (fun s => (fluxes_frame c x s).1.1) p (hne 4 (by decide)),
    alive_filter _ 3 (fun s => (init_or_update_projector_frame c x s).1.1) p
      (hne 3 (by decide)),
    alive_filter _ 2 (fun s => (inverse_density_frame c x density s).1) p (hne 2 (by decide)),
    (define_inv_rho_frame c _).1.filter_eq p (hne 2 (by decide)),
    (forcing_terms_value c x _).2, List.filter_append]
  rfl

theorem isAddDivtau_stage (e : Event) (h : e.isAddDivtau = true) : e.stage = 1 := by
  cases e <;> simp_all [Event.isAddDivtau, Event.stage]

theorem isFillpatchForce_stage (e : Event) (h : e.isFillpatchForce = true) : e.stage = 1 := by
  cases e <;> simp_all [Event.isFillpatchForce, Event.stage]

theorem filter_map_Add_divtau (l : List Nat) :
    (l.map (fun lev => Event.Add_divtau lev)).filter Event.isAddDivtau
      = l.map (fun lev => Event.Add_divtau lev) := by
  induction l with
  | nil => rfl
  | cons a l ih => simp [List.filter_cons, Event.isAddDivtau, ih]

/-! ## C11: the forcing assembly -/

/-- C11, refuted as stated: with the higher-order scheme `"Godunov"` selected and the
include-diffusion option on, the run adds `divtau_o` to `vel_forces` (one `Add` call for the
single level, the entry `1` becomes `11`); with the lower-order scheme `"MOL"` selected and
the same option on, no `Add` call is made and `vel_forces` is left as it was. -/
theorem C11_forcing_assembly_counterexample :
    (ex_incflo_godunov.m_advection_type = "Godunov" ∧
      ex_incflo_godunov.m_godunov_include_diff_in_forcing = true ∧
      (compute_MAC_projected_velocities ex_incflo_godunov ex_collab ex_vel ex_density
          ex_fields).log.filter Event.isAddDivtau = [Event.Add_divtau 0] ∧
      (ex_fields.vel_forces 0).data 0 0 0 0 = 1 ∧
      ((compute_MAC_projected_velocities ex_incflo_godunov ex_collab ex_vel ex_density
          ex_fields).vel_forces 0).data 0 0 0 0 = 11) ∧
    (ex_incflo_mol_diff.m_advection_type = "MOL" ∧
      ex_incflo_mol_diff.m_godunov_include_diff_in_forcing = true ∧
      (compute_MAC_projected_velocities ex_incflo_mol_diff ex_collab ex_vel ex_density
          ex_fields).log.filter Event.isAddDivtau = [] ∧
      (compute_MAC_projected_velocities ex_incflo_mol_diff ex_collab ex_vel ex_density
          ex_fields).vel_forces = ex_fields.vel_forces) := by
  refine ⟨⟨rfl, rfl, ?_, rfl, ?_⟩, ⟨rfl, rfl, ?_, ?_⟩⟩
  · rw [run_filter_stage1 ex_incflo_godunov ex_collab ex_vel ex_density ex_fields _
      isAddDivtau_stage]
    rfl
  · rw [run_vel_forces, (forcing_terms_value ex_incflo_godunov ex_collab (entry ex_fields)).1]
    have h1 : ex_incflo_godunov.m_advection_type ≠ "MOL" := by decide
    have h2 : ¬ (ex_collab.nghost_force > 0) := by decide
    have h3 : ex_incflo_godunov.m_godunov_include_diff_in_forcing = true := rfl
    rw [if_pos h1, if_neg h2, if_pos h3]
    norm_num [add_divtau_levels, MultiFab.Add, MultiFab.region, ex_fields, ex_mf,
      ex_incflo_godunov, ex_incflo, ex_ccbx, Box.grow, Box.contains, AMREX_SPACEDIM, entry]
  · rw [run_filter_stage1 ex_incflo_mol_diff ex_collab ex_vel ex_density ex_fields _
      isAddDivtau_stage]
    rfl
  · rw [run_vel_forces, (forcing_terms_value ex_incflo_mol_diff ex_collab (entry ex_fields)).1]
    rfl

/-- C11, amended. Forcing assembly: the stored diffusive term `divtau_o` is added to the
forcing field `vel_forces` exactly when the advection type is not `"MOL"` (the higher-order
Godunov-type scheme, or an unrecognised name) and the include-diffusion-in-forcing option is
on, and then once on every level, on all components of the valid region, before the
optional ghost fill; when the lower-order scheme `"MOL"` is selected the run adds nothing to
`vel_forces` and makes no `fillpatch_force` call, and when the option is off no addition is
made either. -/
theorem C11_forcing_assembly (c : incflo) (x : Collaborators)
    (vel density : Nat → MultiFab) (f : Fields) :
    (c.m_advection_type = "MOL" →
      (compute_MAC_projected_velocities c x vel density f).vel_forces = f.vel_forces ∧
      (compute_MAC_projected_velocities c x vel density f).log.filter Event.isAddDivtau = [] ∧
      (compute_MAC_projected_velocities c x vel density f).log.filter Event.isFillpatchForce
        = []) ∧
    (c.m_advection_type ≠ "MOL" → c.m_godunov_include_diff_in_forcing = true →
      (compute_MAC_projected_velocities c x vel density f).log.filter Event.isAddDivtau =
        (List.range (c.finest_level + 1).toNat).map (fun lev => Event.Add_divtau lev) ∧
      (compute_MAC_projected_velocities c x vel density f).vel_forces =
        (if x.nghost_force > 0 then
          x.fillpatch_force c.m_cur_time
            (add_divtau_levels (c.finest_level + 1).toNat c.divtau_o f.vel_forces)
            x.nghost_force
         else add_divtau_levels (c.finest_level + 1).toNat c.divtau_o f.vel_forces)) ∧
    (c.m_advection_type ≠ "MOL" → c.m_godunov_include_diff_in_forcing = false →
      (compute_MAC_projected_velocities c x vel density f).log.filter Event.isAddDivtau = [] ∧
      (compute_MAC_projected_velocities c x vel density f).vel_forces =
        (if x.nghost_force > 0 then
          x.fillpatch_force c.m_cur_time f.vel_forces x.nghost_force
         else f.vel_forces)) := by
  have hv := run_vel_forces c x vel density f
  have hval := (forcing_terms_value c x (entry f)).1
  have hA := run_filter_stage1 c x vel density f _ isAddDivtau_stage
  have hF := run_filter_stage1 c x vel density f _ isFillpatchForce_stage
  refine ⟨?_, ?_, ?_⟩
  · intro hm
    have hm' : ¬ (c.m_advection_type ≠ "MOL") := fun h => h hm
    rw [hv, hval, hA, hF]
    simp only [if_neg hm']
    exact ⟨rfl, rfl, rfl⟩
  · intro hm ho
    rw [hv, hval, hA]
    simp only [if_pos hm, if_pos ho, List.filter_append, filter_map_Add_divtau]
    constructor
    · split <;> simp [Event.isAddDivtau]
    · rfl
  · intro hm ho
    have ho' : ¬ (c.m_godunov_include_diff_in_forcing = true) := by
      rw [ho]; exact Bool.noConfusion
    rw [hv, hval, hA]
    simp only [if_pos hm, if_neg ho']
    constructor
    · split <;> simp [Event.isAddDivtau]
    · rfl

/-- C11 amended, at a concrete input: one level under `"Godunov"` with the option on; the
`Add` calls of the run are the single call for level 0. -/
theorem C11_forcing_assembly_witness :
    ex_incflo_godunov.m_advection_type ≠ "MOL" ∧
    ex_incflo_godunov.m_godunov_include_diff_in_forcing = true ∧
    (compute_MAC_projected_velocities ex_incflo_godunov ex_collab ex_vel ex_density
        ex_fields).log.filter Event.isAddDivtau =
      (List.range (ex_incflo_godunov.finest_level + 1).toNat).map
        (fun lev => Event.Add_divtau lev) :=
  ⟨by decide, rfl,
    ((C11_forcing_assembly ex_incflo_godunov ex_collab ex_vel ex_density ex_fields).2.1
      (by decide) rfl).1⟩

/-! ## C12: the prediction dispatch is never reached -/

/-- C12, the behaviour of the code: in every configuration with at least one level and for
each scheme, the process dies in the first `define` call of line 56 (the defect of C16),
before the loop of lines 139-179 is reached: no face-velocity predictor is called for any
level, whatever `isAllRegular()` reports, and the face velocities are left as they were at
entry. -/
theorem C12_predictor_never_called (c : incflo) (x : Collaborators)
    (vel density : Nat → MultiFab) (f : Fields) (hl : 0 ≤ c.finest_level) :
    (compute_MAC_projected_velocities c x vel density f).crashed = true ∧
    (compute_MAC_projected_velocities c x vel density f).log.filter Event.isPredictor = [] ∧
    (compute_MAC_projected_velocities c x vel density f).u_mac = f.u_mac ∧
    (compute_MAC_projected_velocities c x vel density f).v_mac = f.v_mac ∧
    (compute_MAC_projected_velocities c x vel density f).w_mac = f.w_mac := by
  have hfr := forcing_terms_frame c x (entry f)
  refine ⟨?_, ?_, ?_, ?_, ?_⟩
  · rw [run_dies c x vel density f hl]
    rfl
  · exact run_dies_filter c x vel density f hl _
      (fun e he => by rw [isPredictor_stage e he]; decide) rfl
  · rw [run_dies c x vel density f hl]
    exact hfr.2.2.2.1
  · rw [run_dies c x vel density f hl]
    exact hfr.2.2.2.2.1
  · rw [run_dies c x vel density f hl]
    exact hfr.2.2.2.2.2

/-- C12, at the failing input: one level under the recognised scheme `"MOL"`, a build with
embedded boundaries and a level that is not all regular; no predictor is called. -/
theorem C12_predictor_never_called_witness :
    (0 : Int) ≤ ex_incflo.finest_level ∧ ex_incflo.m_advection_type = "MOL" ∧
    ex_incflo.AMREX_USE_EB = true ∧ ex_collab.isAllRegular 0 = false ∧
    (compute_MAC_projected_velocities ex_incflo ex_collab ex_vel ex_density
      ex_fields).log.filter Event.isPredictor = [] :=
  ⟨by decide, rfl, rfl, rfl,
    (C12_predictor_never_called ex_incflo ex_collab ex_vel ex_density ex_fields
      (by decide)).2.1⟩

/-! ## C16: the slots the inverse-density fields are defined through -/

/-- C16, the behaviour of the code: every slot of the pointer vectors `inv_rho_x`,
`inv_rho_y`, `inv_rho_z` of lines 47-51 is null at every level, since the vectors are
created with value-initialised entries and nothing assigns them; each of the `define` calls
of lines 56-58, for every level and every direction, is therefore a call through a null
slot that ends a process still alive when it is made; so in every run with at least one
level the first `define` call of line 56 is made through a null slot, it is the only
`define` call of the run because the process dies in it, and no `define` call of any run is
made through an allocated slot.  The process stays alive exactly when the hierarchy has no
level (`finest_level = -1`).  For the one-level configuration `ex_incflo` the `define`
calls of the run are the single call for level 0 and direction 0. -/
theorem C16_define_through_null_slots (c : incflo) (x : Collaborators)
    (vel density : Nat → MultiFab) (f : Fields) :
    (∀ lev : Nat, slot_allocated (Vector_of_pointers (c.finest_level + 1).toNat) lev = false) ∧
    (∀ (lev idim : Nat) (mf : MultiFab) (s : RunState),
      define_through_slot (Vector_of_pointers (c.finest_level + 1).toNat) lev idim mf
          { s with crashed := false } =
        emit (Event.define_inv_rho lev idim false) { s with crashed := true }) ∧
    ((compute_MAC_projected_velocities c x vel density f).log.filter Event.isDefineInvRho =
      if 0 ≤ c.finest_level then [Event.define_inv_rho 0 0 false] else []) ∧
    (∀ (lev idim : Nat) (b : Bool),
      Event.define_inv_rho lev idim b ∈
        (compute_MAC_projected_velocities c x vel density f).log → b = false) ∧
    ((compute_MAC_projected_velocities c x vel density f).crashed = true ↔
      c.finest_level ≠ -1) ∧
    ((compute_MAC_projected_velocities ex_incflo ex_collab ex_vel ex_density
        ex_fields).log.filter Event.isDefineInvRho = [Event.define_inv_rho 0 0 false] ∧
      (compute_MAC_projected_velocities ex_incflo ex_collab ex_vel ex_density
        ex_fields).crashed = true) := by
  have hst : ∀ e, Event.isDefineInvRho e = true → e.stage ≠ 1 := fun e he => by
    rw [isDefineInvRho_stage e he]; decide
  have key : ∀ (c : incflo) (x : Collaborators) (vel density : Nat → MultiFab) (f : Fields),
      (compute_MAC_projected_velocities c x vel density f).log.filter Event.isDefineInvRho =
        if 0 ≤ c.finest_level then [Event.define_inv_rho 0 0 false] else [] := by
    intro c x vel density f
    by_cases h0 : 0 ≤ c.finest_level
    · rw [if_pos h0, run_dies_log c x vel density f h0, List.filter_append,
        forcing_terms_filter c x f _ hst]
      rfl
    · rw [if_neg h0]
      by_cases hneg : c.finest_level + 1 < 0
      · rw [run_throws c x vel density f hneg]
        exact forcing_terms_filter c x f _ hst
      · have hl : c.finest_level = -1 := by omega
        have hne : ∀ k, k ≠ 2 → ∀ e, Event.isDefineInvRho e = true → e.stage ≠ k :=
          fun k hk e he h => hk (by rw [← h, isDefineInvRho_stage e he])
        rw [run_no_level c x vel density f hl,
          (mac_projection_frame c x _).1.1.filter_eq _ (hne 6 (by decide)),
          (predict_to_faces_frame c x vel _).1.filter_eq _ (hne 5 (by decide)),
          (fluxes_frame c x _).1.1.filter_eq _ (hne 4 (by decide)),
          (init_or_update_projector_frame c x _).1.1.filter_eq _ (hne 3 (by decide))]
        exact forcing_terms_filter c x f _ hst
  refine ⟨fun lev => slot_allocated_null _ lev,
    fun lev idim mf s => define_through_slot_null _ lev idim mf _ rfl,
    key c x vel density f, ?_, run_crashed c x vel density f, ?_, ?_⟩
  · intro lev idim b hmem
    have hm : Event.define_inv_rho lev idim b ∈
        (compute_MAC_projected_velocities c x vel density f).log.filter
          Event.isDefineInvRho :=
      List.mem_filter.mpr ⟨hmem, rfl⟩
    rw [key] at hm
    split at hm
    · rw [List.mem_singleton] at hm
      injection hm with _ _ hb
    · exact absurd hm (List.not_mem_nil _)
  · rw [key]
    rfl
  · exact (run_crashed ex_incflo ex_collab ex_vel ex_density ex_fields).mpr (by decide)

/-! ## C15: the phases after the first `define` call never run -/

/-- C15, the behaviour of the code: in every configuration with at least one level the
calls of the run are the calls of the forcing phase (lines 32-43) followed by the first
`define` call of line 56, in which the process dies (the defect of C16).  No inverse-density
field is built or inverted, the coefficient is not handed to the projector, no predictor is
called, and neither `setUMAC` nor `project` is called, so none of the phases the claim
orders is reached. -/
theorem C15_run_ends_at_first_define (c : incflo) (x : Collaborators)
    (vel density : Nat → MultiFab) (f : Fields) (hl : 0 ≤ c.finest_level) :
    ((compute_MAC_projected_velocities c x vel density f).log =
      (forcing_terms c x (entry f)).log ++ [Event.define_inv_rho 0 0 false]) ∧
    (∀ e ∈ (forcing_terms c x (entry f)).log, e.stage = 1) ∧
    (compute_MAC_projected_velocities c x vel density f).crashed = true ∧
    (compute_MAC_projected_velocities c x vel density f).aborted = false ∧
    (compute_MAC_projected_velocities c x vel density f).log.filter Event.isInverseDensity
      = [] ∧
    (compute_MAC_projected_velocities c x vel density f).log.filter Event.isCoefficient
      = [] ∧
    (compute_MAC_projected_velocities c x vel density f).log.filter Event.isPredictor = [] ∧
    (compute_MAC_projected_velocities c x vel density f).log.filter Event.isSetUMAC = [] ∧
    (compute_MAC_projected_velocities c x vel density f).log.filter Event.isProject = [] := by
  refine ⟨run_dies_log c x vel density f hl, forcing_terms_stage c x f, ?_, ?_, ?_, ?_, ?_,
    ?_, ?_⟩
  · rw [run_dies c x vel density f hl]
    rfl
  · rw [run_dies c x vel density f hl]
    exact (forcing_terms_frame c x (entry f)).2.1
  · exact run_dies_filter c x vel density f hl _
      (fun e he => by rw [isInverseDensity_stage e he]; decide) rfl
  · exact run_dies_filter c x vel density f hl _
      (fun e he => by rw [isCoefficient_stage e he]; decide) rfl
  · exact run_dies_filter c x vel density f hl _
      (fun e he => by rw [isPredictor_stage e he]; decide) rfl
  · exact run_dies_filter c x vel density f hl _
      (fun e he => by rw [isSetUMAC_stage e he]; decide) rfl
  · exact run_dies_filter c x vel density f hl _
      (fun e he => by rw [isProject_stage e he]; decide) rfl

/-- C15, at the failing input: one level under the scheme `"MOL"`; the run is not ended by
`amrex::Abort`, and its only call is the `define` call through the null slot. -/
theorem C15_run_ends_at_first_define_witness :
    (0 : Int) ≤ ex_incflo.finest_level ∧
    (compute_MAC_projected_velocities ex_incflo ex_collab ex_vel ex_density
      ex_fields).aborted = false ∧
    (compute_MAC_projected_velocities ex_incflo ex_collab ex_vel ex_density
      ex_fields).log = [Event.define_inv_rho 0 0 false] :=
  ⟨by decide,
    (C15_run_ends_at_first_define ex_incflo ex_collab ex_vel ex_density ex_fields
      (by decide)).2.2.2.1,
    (C15_run_ends_at_first_define ex_incflo ex_collab ex_vel ex_density ex_fields
      (by decide)).1.trans (by rfl)⟩

/-! ## C13: the centroid extrapolation formula -/

/-- C13. Centroid extrapolation formula: in every direction and in both kernel variants,
each one-sided state is the clamp of the first-order extrapolation from the cell's own
centroid to the face centroid, `vcc(H) + slope(H) . (x_face - x_centroid(H))` for the high
cell and `vcc(L) + slope(L) . (x_face - x_centroid(L))` for the low cell, where the face
centroid has normal coordinate `-0.5` seen from `H` and `+0.5` seen from `L` and transverse
coordinates read from the face-centroid field; so the displacement along the normal is
`-(0.5 + ccc_d(H))` for `H` and `0.5 - ccc_d(L)` for `L`, and the transverse displacements
are face centroid minus cell centroid. -/
theorem C13_centroid_extrapolation (slopes_eb : SlopesEb) (slopes_extdir : SlopesExtdirEb)
    (vcc : Array4) (flag : FlagArray) (fcx fcy fcz ccc : Array4) (d_bcrec : Nat → BCRec)
    (ilo ihi jlo jhi klo khi : Int) (i j k : Int) (c t0 t1 : ℚ) :
    ((x_states_extdir slopes_extdir vcc flag fcx ccc d_bcrec ilo ihi jlo jhi klo khi i j k).1 =
        max (min (spec_extrapolation (vcc i j k 0) (slopes_extdir i j k 0 vcc ccc flag
            (decide ((d_bcrec 0).lo 0 = BCType.ext_dir)) (decide ((d_bcrec 0).hi 0 = BCType.ext_dir)) ilo ihi
            (decide ((d_bcrec 0).lo 1 = BCType.ext_dir)) (decide ((d_bcrec 0).hi 1 = BCType.ext_dir)) jlo jhi
            (decide ((d_bcrec 0).lo 2 = BCType.ext_dir)) (decide ((d_bcrec 0).hi 2 = BCType.ext_dir)) klo khi)
            (spec_face_centroid 0 (-0.5) (fcx i j k 0) (fcx i j k 1)) (ccc i j k))
          (max (vcc i j k 0) (vcc (i-1) j k 0))) (min (vcc i j k 0) (vcc (i-1) j k 0)) ∧
      (x_states_extdir slopes_extdir vcc flag fcx ccc d_bcrec ilo ihi jlo jhi klo khi i j k).2 =
        max (min (spec_extrapolation (vcc (i-1) j k 0) (slopes_extdir (i-1) j k 0 vcc ccc flag
            (decide ((d_bcrec 0).lo 0 = BCType.ext_dir)) (decide ((d_bcrec 0).hi 0 = BCType.ext_dir)) ilo ihi
            (decide ((d_bcrec 0).lo 1 = BCType.ext_dir)) (decide ((d_bcrec 0).hi 1 = BCType.ext_dir)) jlo jhi
            (decide ((d_bcrec 0).lo 2 = BCType.ext_dir)) (decide ((d_bcrec 0).hi 2 = BCType.ext_dir)) klo khi)
            (spec_face_centroid 0 0.5 (fcx i j k 0) (fcx i j k 1)) (ccc (i-1) j k))
          (max (vcc i j k 0) (vcc (i-1) j k 0))) (min (vcc i j k 0) (vcc (i-1) j k 0))) ∧
    ((x_states_plain slopes_eb vcc flag fcx ccc i j k).1 =
        max (min (spec_extrapolation (vcc i j k 0) (slopes_eb i j k 0 vcc ccc flag)
            (spec_face_centroid 0 (-0.5) (fcx i j k 0) (fcx i j k 1)) (ccc i j k))
          (max (vcc i j k 0) (vcc (i-1) j k 0))) (min (vcc i j k 0) (vcc (i-1) j k 0)) ∧
      (x_states_plain slopes_eb vcc flag fcx ccc i j k).2 =
        max (min (spec_extrapolation (vcc (i-1) j k 0) (slopes_eb (i-1) j k 0 vcc ccc flag)
            (spec_face_centroid 0 0.5 (fcx i j k 0) (fcx i j k 1)) (ccc (i-1) j k))
          (max (vcc i j k 0) (vcc (i-1) j k 0))) (min (vcc i j k 0) (vcc (i-1) j k 0))) ∧
    ((y_states_extdir slopes_extdir vcc flag fcy ccc d_bcrec ilo ihi jlo jhi klo khi i j k).1 =
        max (min (spec_extrapolation (vcc i j k 1) (slopes_extdir i j k 1 vcc ccc flag
            (decide ((d_bcrec 1).lo 0 = BCType.ext_dir)) (decide ((d_bcrec 1).hi 0 = BCType.ext_dir)) ilo ihi
            (decide ((d_bcrec 1).lo 1 = BCType.ext_dir)) (decide ((d_bcrec 1).hi 1 = BCType.ext_dir)) jlo jhi
            (decide ((d_bcrec 1).lo 2 = BCType.ext_dir)) (decide ((d_bcrec 1).hi 2 = BCType.ext_dir)) klo khi)
            (spec_face_centroid 1 (-0.5) (fcy i j k 0) (fcy i j k 1)) (ccc i j k))
          (max (vcc i j k 1) (vcc i (j-1) k 1))) (min (vcc i j k 1) (vcc i (j-1) k 1)) ∧
      (y_states_extdir slopes_extdir vcc flag fcy ccc d_bcrec ilo ihi jlo jhi klo khi i j k).2 =
        max (min (spec_extrapolation (vcc i (j-1) k 1) (slopes_extdir i (j-1) k 1 vcc ccc flag
            (decide ((d_bcrec 1).lo 0 = BCType.ext_dir)) (decide ((d_bcrec 1).hi 0 = BCType.ext_dir)) ilo ihi
            (decide ((d_bcrec 1).lo 1 = BCType.ext_dir)) (decide ((d_bcrec 1).hi 1 = BCType.ext_dir)) jlo jhi
            (decide ((d_bcrec 1).lo 2 = BCType.ext_dir)) (decide ((d_bcrec 1).hi 2 = BCType.ext_dir)) klo khi)
            (spec_face_centroid 1 0.5 (fcy i j k 0) (fcy i j k 1)) (ccc i (j-1) k))
          (max (vcc i j k 1) (vcc i (j-1) k 1))) (min (vcc i j k 1) (vcc i (j-1) k 1))) ∧
    ((y_states_plain slopes_eb vcc flag fcy ccc i j k).1 =
        max (min (spec_extrapolation (vcc i j k 1) (slopes_eb i j k 1 vcc ccc flag)
            (spec_face_centroid 1 (-0.5) (fcy i j k 0) (fcy i j k 1)) (ccc i j k))
          (max (vcc i j k 1) (vcc i (j-1) k 1))) (min (vcc i j k 1) (vcc i (j-1) k 1)) ∧
      (y_states_plain slopes_eb vcc flag fcy ccc i j k).2 =
        max (min (spec_extrapolation (vcc i (j-1) k 1) (slopes_eb i (j-1) k 1 vcc ccc flag)
            (spec_face_centroid 1 0.5 (fcy i j k 0) (fcy i j k 1)) (ccc i (j-1) k))
          (max (vcc i j k 1) (vcc i (j-1) k 1))) (min (vcc i j k 1) (vcc i (j-1) k 1))) ∧
    ((z_states_extdir slopes_extdir vcc flag fcz ccc d_bcrec ilo ihi jlo jhi klo khi i j k).1 =
        max (min (spec_extrapolation (vcc i j k 2) (slopes_extdir i j k 2 vcc ccc flag
            (decide ((d_bcrec 2).lo 0 = BCType.ext_dir)) (decide ((d_bcrec 2).hi 0 = BCType.ext_dir)) ilo ihi
            (decide ((d_bcrec 2).lo 1 = BCType.ext_dir)) (decide ((d_bcrec 2).hi 1 = BCType.ext_dir)) jlo jhi
            (decide ((d_bcrec 2).lo 2 = BCType.ext_dir)) (decide ((d_bcrec 2).hi 2 = BCType.ext_dir)) klo khi)
            (spec_face_centroid 2 (-0.5) (fcz i j k 0) (fcz i j k 1)) (ccc i j k))
          (max (vcc i j k 2) (vcc i j (k-1) 2))) (min (vcc i j k 2) (vcc i j (k-1) 2)) ∧
      (z_states_extdir slopes_extdir vcc flag fcz ccc d_bcrec ilo ihi jlo jhi klo khi i j k).2 =
        max (min (spec_extrapolation (vcc i j (k-1) 2) (slopes_extdir i j (k-1) 2 vcc ccc flag
            (decide ((d_bcrec 2).lo 0 = BCType.ext_dir)) (decide ((d_bcrec 2).hi 0 = BCType.ext_dir)) ilo ihi
            (decide ((d_bcrec 2).lo 1 = BCType.ext_dir)) (decide ((d_bcrec 2).hi 1 = BCType.ext_dir)) jlo jhi
            (decide ((d_bcrec 2).lo 2 = BCType.ext_dir)) (decide ((d_bcrec 2).hi 2 = BCType.ext_dir)) klo khi)
            (spec_face_centroid 2 0.5 (fcz i j k 0) (fcz i j k 1)) (ccc i j (k-1)))
          (max (vcc i j k 2) (vcc i j (k-1) 2))) (min (vcc i j k 2) (vcc i j (k-1) 2))) ∧
    ((z_states_plain slopes_eb vcc flag fcz ccc i j k).1 =
        max (min (spec_extrapolation (vcc i j k 2) (slopes_eb i j k 2 vcc ccc flag)
            (spec_face_centroid 2 (-0.5) (fcz i j k 0) (fcz i j k 1)) (ccc i j k))
          (max (vcc i j k 2) (vcc i j (k-1) 2))) (min (vcc i j k 2) (vcc i j (k-1) 2)) ∧
      (z_states_plain slopes_eb vcc flag fcz ccc i j k).2 =
        max (min (spec_extrapolation (vcc i j (k-1) 2) (slopes_eb i j (k-1) 2 vcc ccc flag)
            (spec_face_centroid 2 0.5 (fcz i j k 0) (fcz i j k 1)) (ccc i j (k-1)))
          (max (vcc i j k 2) (vcc i j (k-1) 2))) (min (vcc i j k 2) (vcc i j (k-1) 2))) ∧
    (spec_face_centroid 0 (-0.5) t0 t1 0 - c = -(0.5 + c) ∧
      spec_face_centroid 0 0.5 t0 t1 0 - c = 0.5 - c ∧
      spec_face_centroid 1 (-0.5) t0 t1 1 - c = -(0.5 + c) ∧
      spec_face_centroid 1 0.5 t0 t1 1 - c = 0.5 - c ∧
      spec_face_centroid 2 (-0.5) t0 t1 2 - c = -(0.5 + c) ∧
      spec_face_centroid 2 0.5 t0 t1 2 - c = 0.5 - c) := by
  refine ⟨?_, ?_, ?_, ?_, ?_, ?_, ?_⟩
  · simp only [x_states_extdir, spec_extrapolation, spec_face_centroid]
    constructor <;> congr 2 <;> norm_num <;> ring
  · simp only [x_states_plain, spec_extrapolation, spec_face_centroid]
    constructor <;> congr 2 <;> norm_num <;> ring
  · simp only [y_states_extdir, spec_extrapolation, spec_face_centroid]
    constructor <;> congr 2 <;> norm_num <;> ring
  · simp only [y_states_plain, spec_extrapolation, spec_face_centroid]
    constructor <;> congr 2 <;> norm_num <;> ring
  · simp only [z_states_extdir, spec_extrapolation, spec_face_centroid]
    constructor <;> congr 2 <;> norm_num <;> ring
  · simp only [z_states_plain, spec_extrapolation, spec_face_centroid]
    constructor <;> congr 2 <;> norm_num <;> ring
  · refine ⟨?_, ?_, ?_, ?_, ?_, ?_⟩ <;> simp [spec_face_centroid] <;> ring

/-! ## C14: the value of the boundary override -/

/-- C14. Boundary override value: in the boundary-aware kernel of each direction `d`, on a
connected face whose index along `d` equals the domain low end, with the normal component's
record `ext_dir` on the low side of `d`, the value is exactly the raw value of component `d`
in the cell at index `domain_lo - 1`; on a connected face at index `domain_hi + 1` with
`ext_dir` on the high side and the low-side condition not met, it is exactly the raw value
in the cell at index `domain_hi + 1`; for all slopes, centroid offsets and whatever the
upwind selection produced. -/
theorem C14_boundary_override_value (slopes_extdir : SlopesExtdirEb)
    (vcc : Array4) (flag : FlagArray) (fcx fcy fcz ccc : Array4) (d_bcrec : Nat → BCRec)
    (ilo ihi jlo jhi klo khi : Int) (i j k : Int) :
    ((flag i j k).isConnected (-1) 0 0 = true →
      ((d_bcrec 0).lo 0 = BCType.ext_dir → i = ilo →
        x_kernel_extdir slopes_extdir vcc flag fcx ccc d_bcrec ilo ihi jlo jhi klo khi i j k = vcc (ilo - 1) j k 0) ∧
      ((d_bcrec 0).hi 0 = BCType.ext_dir → i = ihi + 1 →
        ¬ ((d_bcrec 0).lo 0 = BCType.ext_dir ∧ i = ilo) →
        x_kernel_extdir slopes_extdir vcc flag fcx ccc d_bcrec ilo ihi jlo jhi klo khi i j k = vcc (ihi + 1) j k 0)) ∧
    ((flag i j k).isConnected 0 (-1) 0 = true →
      ((d_bcrec 1).lo 1 = BCType.ext_dir → j = jlo →
        y_kernel_extdir slopes_extdir vcc flag fcy ccc d_bcrec ilo ihi jlo jhi klo khi i j k = vcc i (jlo - 1) k 1) ∧
      ((d_bcrec 1).hi 1 = BCType.ext_dir → j = jhi + 1 →
        ¬ ((d_bcrec 1).lo 1 = BCType.ext_dir ∧ j = jlo) →
        y_kernel_extdir slopes_extdir vcc flag fcy ccc d_bcrec ilo ihi jlo jhi klo khi i j k = vcc i (jhi + 1) k 1)) ∧
    ((flag i j k).isConnected 0 0 (-1) = true →
      ((d_bcrec 2).lo 2 = BCType.ext_dir → k = klo →
        z_kernel_extdir slopes_extdir vcc flag fcz ccc d_bcrec ilo ihi jlo jhi klo khi i j k = vcc i j (klo - 1) 2) ∧
      ((d_bcrec 2).hi 2 = BCType.ext_dir → k = khi + 1 →
        ¬ ((d_bcrec 2).lo 2 = BCType.ext_dir ∧ k = klo) →
        z_kernel_extdir slopes_extdir vcc flag fcz ccc d_bcrec ilo ihi jlo jhi klo khi i j k = vcc i j (khi + 1) 2)) := by
  refine ⟨?_, ?_, ?_⟩
  · intro hc
    constructor
    · intro he hi
      subst hi
      rw [x_kernel_extdir_eq, if_pos hc, if_pos ⟨he, rfl⟩]
    · intro he hi hn
      subst hi
      rw [x_kernel_extdir_eq, if_pos hc, if_neg hn, if_pos ⟨he, rfl⟩]
  · intro hc
    constructor
    · intro he hi
      subst hi
      rw [y_kernel_extdir_eq, if_pos hc, if_pos ⟨he, rfl⟩]
    · intro he hi hn
      subst hi
      rw [y_kernel_extdir_eq, if_pos hc, if_neg hn, if_pos ⟨he, rfl⟩]
  · intro hc
    constructor
    · intro he hi
      subst hi
      rw [z_kernel_extdir_eq, if_pos hc, if_pos ⟨he, rfl⟩]
    · intro he hi hn
      subst hi
      rw [z_kernel_extdir_eq, if_pos hc, if_neg hn, if_pos ⟨he, rfl⟩]

/-- C14, at a concrete input: the y-face `(1,0,2)` on the low y boundary `j = 0` of the
domain, `ext_dir` on the low side; the ghost cell `j = -1` holds `5`, the interior cell `3`,
and the kernel returns `5` although every slope component is `7`. -/
theorem C14_boundary_override_value_witness :
    (ex_flag_conn 1 0 2).isConnected 0 (-1) 0 = true ∧
    (ex_bcrec 1).lo 1 = BCType.ext_dir ∧ (0 : Int) = 0 ∧
    (fun (i j k : Int) (n : Nat) => if j < 0 then (5 : ℚ) else 3) 1 (0 - 1) 2 1 = 5 ∧
    y_kernel_extdir ex_slopes_extdir (fun _ j _ _ => if j < 0 then 5 else 3) ex_flag_conn
        ex_cent ex_cent ex_bcrec 0 3 0 3 0 3 1 0 2 = 5 :=
  ⟨rfl, rfl, rfl, by decide,
    (((C14_boundary_override_value ex_slopes_extdir (fun _ j _ _ => if j < 0 then 5 else 3)
        ex_flag_conn ex_cent ex_cent ex_cent ex_cent ex_bcrec 0 3 0 3 0 3 1 0 2).2.1 rfl).1
      rfl rfl).trans (by decide)⟩


/-! ## C18: the box-level test never misses an override -/

/-- C18. Boundary dispatch never misses an override: when the host and device boundary
records agree on the three velocity components, for every direction `d`, every face box and
every face in it whose index along `d` equals `domain_lo` with the normal component's record
`ext_dir` on the low side of `d`, or equals `domain_hi + 1` with `ext_dir` on the high side,
the box-level test `(has_extdir_lo and domain_lo >= box.smallEnd(d) - 1) or (has_extdir_hi
and domain_hi <= box.bigEnd(d))` is true, and the value the driver writes at that face is
the value of the boundary-aware kernel. -/
theorem C18_dispatch_never_misses (slopes_eb : SlopesEb) (slopes_extdir : SlopesExtdirEb)
    (lev : Nat) (ccbx ubx vbx wbx : Box) (u v w : FaceArray)
    (vcc : Array4) (flag : FlagArray) (fcx fcy fcz ccc : Array4)
    (h_bcrec d_bcrec : Nat → BCRec) (geom : Nat → Geometry) (i j k : Int)
    (hbc : ∀ n, n < AMREX_SPACEDIM → h_bcrec n = d_bcrec n) :
    (ubx.contains i j k = true →
      (((d_bcrec 0).lo 0 = BCType.ext_dir ∧ i = (geom lev).Domain.smallEnd 0) ∨
        ((d_bcrec 0).hi 0 = BCType.ext_dir ∧ i = (geom lev).Domain.bigEnd 0 + 1)) →
      (((has_extdir h_bcrec AMREX_SPACEDIM 0).1 = true ∧
            (geom lev).Domain.smallEnd 0 ≥ ubx.smallEnd 0 - 1) ∨
          ((has_extdir h_bcrec AMREX_SPACEDIM 0).2 = true ∧
            (geom lev).Domain.bigEnd 0 ≤ ubx.bigEnd 0)) ∧
      (predict_vels_on_faces_eb slopes_eb slopes_extdir lev ccbx ubx vbx wbx u v w
            vcc flag fcx fcy fcz ccc h_bcrec d_bcrec geom).u i j k =
        x_kernel_extdir slopes_extdir vcc flag fcx ccc d_bcrec
          ((geom lev).Domain.smallEnd 0) ((geom lev).Domain.bigEnd 0)
          ((geom lev).Domain.smallEnd 1) ((geom lev).Domain.bigEnd 1)
          ((geom lev).Domain.smallEnd 2) ((geom lev).Domain.bigEnd 2) i j k) ∧
    (vbx.contains i j k = true →
      (((d_bcrec 1).lo 1 = BCType.ext_dir ∧ j = (geom lev).Domain.smallEnd 1) ∨
        ((d_bcrec 1).hi 1 = BCType.ext_dir ∧ j = (geom lev).Domain.bigEnd 1 + 1)) →
      (((has_extdir h_bcrec AMREX_SPACEDIM 1).1 = true ∧
            (geom lev).Domain.smallEnd 1 ≥ vbx.smallEnd 1 - 1) ∨
          ((has_extdir h_bcrec AMREX_SPACEDIM 1).2 = true ∧
            (geom lev).Domain.bigEnd 1 ≤ vbx.bigEnd 1)) ∧
      (predict_vels_on_faces_eb slopes_eb slopes_extdir lev ccbx ubx vbx wbx u v w
            vcc flag fcx fcy fcz ccc h_bcrec d_bcrec geom).v i j k =
        y_kernel_extdir slopes_extdir vcc flag fcy ccc d_bcrec
          ((geom lev).Domain.smallEnd 0) ((geom lev).Domain.bigEnd 0)
          ((geom lev).Domain.smallEnd 1) ((geom lev).Domain.bigEnd 1)
          ((geom lev).Domain.smallEnd 2) ((geom lev).Domain.bigEnd 2) i j k) ∧
    (wbx.contains i j k = true →
      (((d_bcrec 2).lo 2 = BCType.ext_dir ∧ k = (geom lev).Domain.smallEnd 2) ∨
        ((d_bcrec 2).hi 2 = BCType.ext_dir ∧ k = (geom lev).Domain.bigEnd 2 + 1)) →
      (((has_extdir h_bcrec AMREX_SPACEDIM 2).1 = true ∧
            (geom lev).Domain.smallEnd 2 ≥ wbx.smallEnd 2 - 1) ∨
          ((has_extdir h_bcrec AMREX_SPACEDIM 2).2 = true ∧
            (geom lev).Domain.bigEnd 2 ≤ wbx.bigEnd 2)) ∧
      (predict_vels_on_faces_eb slopes_eb slopes_extdir lev ccbx ubx vbx wbx u v w
            vcc flag fcx fcy fcz ccc h_bcrec d_bcrec geom).w i j k =
        z_kernel_extdir slopes_extdir vcc flag fcz ccc d_bcrec
          ((geom lev).Domain.smallEnd 0) ((geom lev).Domain.bigEnd 0)
          ((geom lev).Domain.smallEnd 1) ((geom lev).Domain.bigEnd 1)
          ((geom lev).Domain.smallEnd 2) ((geom lev).Domain.bigEnd 2) i j k) := by
  refine ⟨?_, ?_, ?_⟩
  · intro hb hface
    have hbx := (Box.contains_iff ubx i j k).mp hb
    have htest : (((has_extdir h_bcrec AMREX_SPACEDIM 0).1 = true ∧
            (geom lev).Domain.smallEnd 0 ≥ ubx.smallEnd 0 - 1) ∨
          ((has_extdir h_bcrec AMREX_SPACEDIM 0).2 = true ∧
            (geom lev).Domain.bigEnd 0 ≤ ubx.bigEnd 0)) := by
      rcases hface with ⟨he, hi⟩ | ⟨he, hi⟩
      · left
        refine ⟨has_extdir_fst h_bcrec AMREX_SPACEDIM 0 0 (by decide)
          (by rw [hbc 0 (by decide)]; exact he), ?_⟩
        omega
      · right
        refine ⟨has_extdir_snd h_bcrec AMREX_SPACEDIM 0 0 (by decide)
          (by rw [hbc 0 (by decide)]; exact he), ?_⟩
        omega
    refine ⟨htest, ?_⟩
    rw [predict_u_eq, if_pos htest]
    simp [ParallelFor, hb]
  · intro hb hface
    have hbx := (Box.contains_iff vbx i j k).mp hb
    have htest : (((has_extdir h_bcrec AMREX_SPACEDIM 1).1 = true ∧
            (geom lev).Domain.smallEnd 1 ≥ vbx.smallEnd 1 - 1) ∨
          ((has_extdir h_bcrec AMREX_SPACEDIM 1).2 = true ∧
            (geom lev).Domain.bigEnd 1 ≤ vbx.bigEnd 1)) := by
      rcases hface with ⟨he, hi⟩ | ⟨he, hi⟩
      · left
        refine ⟨has_extdir_fst h_bcrec AMREX_SPACEDIM 1 1 (by decide)
          (by rw [hbc 1 (by decide)]; exact he), ?_⟩
        omega
      · right
        refine ⟨has_extdir_snd h_bcrec AMREX_SPACEDIM 1 1 (by decide)
          (by rw [hbc 1 (by decide)]; exact he), ?_⟩
        omega
    refine ⟨htest, ?_⟩
    rw [predict_v_eq, if_pos htest]
    simp [ParallelFor, hb]
  · intro hb hface
    have hbx := (Box.contains_iff wbx i j k).mp hb
    have htest : (((has_extdir h_bcrec AMREX_SPACEDIM 2).1 = true ∧
            (geom lev).Domain.smallEnd 2 ≥ wbx.smallEnd 2 - 1) ∨
          ((has_extdir h_bcrec AMREX_SPACEDIM 2).2 = true ∧
            (geom lev).Domain.bigEnd 2 ≤ wbx.bigEnd 2)) := by
      rcases hface with ⟨he, hi⟩ | ⟨he, hi⟩
      · left
        refine ⟨has_extdir_fst h_bcrec AMREX_SPACEDIM 2 2 (by decide)
          (by rw [hbc 2 (by decide)]; exact he), ?_⟩
        omega
      · right
        refine ⟨has_extdir_snd h_bcrec AMREX_SPACEDIM 2 2 (by decide)
          (by rw [hbc 2 (by decide)]; exact he), ?_⟩
        omega
    refine ⟨htest, ?_⟩
    rw [predict_w_eq, if_pos htest]
    simp [ParallelFor, hb]

/-- C18, at a concrete input: `ext_dir` on the high x side of a domain ending at `i = 3`;
the face `(4,0,0)` lies in the x-face box and the driver writes the value of the
boundary-aware kernel there. -/
theorem C18_dispatch_never_misses_witness :
    (∀ n, n < AMREX_SPACEDIM → ex_bcrec_hi n = ex_bcrec_hi n) ∧
    ex_ubx.contains 4 0 0 = true ∧
    ((ex_bcrec_hi 0).hi 0 = BCType.ext_dir ∧ (4 : Int) = (ex_geom 0).Domain.bigEnd 0 + 1) ∧
    (predict_vels_on_faces_eb ex_slopes_eb ex_slopes_extdir 0 ex_ccbx ex_ubx ex_vbx ex_wbx
        ex_face0 ex_face0 ex_face0 ex_vcc ex_flag_conn ex_cent ex_cent ex_cent ex_cent
        ex_bcrec_hi ex_bcrec_hi ex_geom).u 4 0 0 =
      x_kernel_extdir ex_slopes_extdir ex_vcc ex_flag_conn ex_cent ex_cent ex_bcrec_hi
        ((ex_geom 0).Domain.smallEnd 0) ((ex_geom 0).Domain.bigEnd 0)
        ((ex_geom 0).Domain.smallEnd 1) ((ex_geom 0).Domain.bigEnd 1)
        ((ex_geom 0).Domain.smallEnd 2) ((ex_geom 0).Domain.bigEnd 2) 4 0 0 :=
  ⟨fun _ _ => rfl, by decide, ⟨rfl, by decide⟩,
    ((C18_dispatch_never_misses ex_slopes_eb ex_slopes_extdir 0 ex_ccbx ex_ubx ex_vbx ex_wbx
        ex_face0 ex_face0 ex_face0 ex_vcc ex_flag_conn ex_cent ex_cent ex_cent ex_cent
        ex_bcrec_hi ex_bcrec_hi ex_geom 4 0 0 (fun _ _ => rfl)).1 (by decide)
      (Or.inr ⟨rfl, by decide⟩)).2⟩


/-! ## C19: the two kernel variants away from the boundary -/

/-- C19. Boundary-aware and plain kernels agree away from the boundary: in every direction
`d`, at every face that is not an overridden boundary face (its index along `d` is neither
`domain_lo` with low-side `ext_dir` nor `domain_hi + 1` with high-side `ext_dir` in the
normal component's record), if the boundary-aware slope routine returns the same slope
vector as the plain slope routine at each of the two cells adjacent to the face, then the
boundary-aware kernel produces exactly the value of the plain kernel; nothing is assumed
about why the boundary-aware branch was selected, so this covers a selection caused by
another velocity component's record. -/
theorem C19_kernels_agree_off_boundary (slopes_eb : SlopesEb) (slopes_extdir : SlopesExtdirEb)
    (vcc : Array4) (flag : FlagArray) (fcx fcy fcz ccc : Array4) (d_bcrec : Nat → BCRec)
    (ilo ihi jlo jhi klo khi : Int) (i j k : Int) :
    (¬ ((d_bcrec 0).lo 0 = BCType.ext_dir ∧ i = ilo) →
      ¬ ((d_bcrec 0).hi 0 = BCType.ext_dir ∧ i = ihi + 1) →
      (∀ m : Nat, m < 3 →
        slopes_extdir i j k 0 vcc ccc flag
            (decide ((d_bcrec 0).lo 0 = BCType.ext_dir)) (decide ((d_bcrec 0).hi 0 = BCType.ext_dir)) ilo ihi
            (decide ((d_bcrec 0).lo 1 = BCType.ext_dir)) (decide ((d_bcrec 0).hi 1 = BCType.ext_dir)) jlo jhi
            (decide ((d_bcrec 0).lo 2 = BCType.ext_dir)) (decide ((d_bcrec 0).hi 2 = BCType.ext_dir)) klo khi m
          = slopes_eb i j k 0 vcc ccc flag m) →
      (∀ m : Nat, m < 3 →
        slopes_extdir (i-1) j k 0 vcc ccc flag
            (decide ((d_bcrec 0).lo 0 = BCType.ext_dir)) (decide ((d_bcrec 0).hi 0 = BCType.ext_dir)) ilo ihi
            (decide ((d_bcrec 0).lo 1 = BCType.ext_dir)) (decide ((d_bcrec 0).hi 1 = BCType.ext_dir)) jlo jhi
            (decide ((d_bcrec 0).lo 2 = BCType.ext_dir)) (decide ((d_bcrec 0).hi 2 = BCType.ext_dir)) klo khi m
          = slopes_eb (i-1) j k 0 vcc ccc flag m) →
      x_kernel_extdir slopes_extdir vcc flag fcx ccc d_bcrec ilo ihi jlo jhi klo khi i j k
        = x_kernel_plain slopes_eb vcc flag fcx ccc i j k) ∧
    (¬ ((d_bcrec 1).lo 1 = BCType.ext_dir ∧ j = jlo) →
      ¬ ((d_bcrec 1).hi 1 = BCType.ext_dir ∧ j = jhi + 1) →
      (∀ m : Nat, m < 3 →
        slopes_extdir i j k 1 vcc ccc flag
            (decide ((d_bcrec 1).lo 0 = BCType.ext_dir)) (decide ((d_bcrec 1).hi 0 = BCType.ext_dir)) ilo ihi
            (decide ((d_bcrec 1).lo 1 = BCType.ext_dir)) (decide ((d_bcrec 1).hi 1 = BCType.ext_dir)) jlo jhi
            (decide ((d_bcrec 1).lo 2 = BCType.ext_dir)) (decide ((d_bcrec 1).hi 2 = BCType.ext_dir)) klo khi m
          = slopes_eb i j k 1 vcc ccc flag m) →
      (∀ m : Nat, m < 3 →
        slopes_extdir i (j-1) k 1 vcc ccc flag
            (decide ((d_bcrec 1).lo 0 = BCType.ext_dir)) (decide ((d_bcrec 1).hi 0 = BCType.ext_dir)) ilo ihi
            (decide ((d_bcrec 1).lo 1 = BCType.ext_dir)) (decide ((d_bcrec 1).hi 1 = BCType.ext_dir)) jlo jhi
            (decide ((d_bcrec 1).lo 2 = BCType.ext_dir)) (decide ((d_bcrec 1).hi 2 = BCType.ext_dir)) klo khi m
          = slopes_eb i (j-1) k 1 vcc ccc flag m) →
      y_kernel_extdir slopes_extdir vcc flag fcy ccc d_bcrec ilo ihi jlo jhi klo khi i j k
        = y_kernel_plain slopes_eb vcc flag fcy ccc i j k) ∧
    (¬ ((d_bcrec 2).lo 2 = BCType.ext_dir ∧ k = klo) →
      ¬ ((d_bcrec 2).hi 2 = BCType.ext_dir ∧ k = khi + 1) →
      (∀ m : Nat, m < 3 →
        slopes_extdir i j k 2 vcc ccc flag
            (decide ((d_bcrec 2).lo 0 = BCType.ext_dir)) (decide ((d_bcrec 2).hi 0 = BCType.ext_dir)) ilo ihi
            (decide ((d_bcrec 2).lo 1 = BCType.ext_dir)) (decide ((d_bcrec 2).hi 1 = BCType.ext_dir)) jlo jhi
            (decide ((d_bcrec 2).lo 2 = BCType.ext_dir)) (decide ((d_bcrec 2).hi 2 = BCType.ext_dir)) klo khi m
          = slopes_eb i j k 2 vcc ccc flag m) →
      (∀ m : Nat, m < 3 →
        slopes_extdir i j (k-1) 2 vcc ccc flag
            (decide ((d_bcrec 2).lo 0 = BCType.ext_dir)) (decide ((d_bcrec 2).hi 0 = BCType.ext_dir)) ilo ihi
            (decide ((d_bcrec 2).lo 1 = BCType.ext_dir)) (decide ((d_bcrec 2).hi 1 = BCType.ext_dir)) jlo jhi
            (decide ((d_bcrec 2).lo 2 = BCType.ext_dir)) (decide ((d_bcrec 2).hi 2 = BCType.ext_dir)) klo khi m
          = slopes_eb i j (k-1) 2 vcc ccc flag m) →
      z_kernel_extdir slopes_extdir vcc flag fcz ccc d_bcrec ilo ihi jlo jhi klo khi i j k
        = z_kernel_plain slopes_eb vcc flag fcz ccc i j k) := by
  refine ⟨?_, ?_, ?_⟩
  · intro h1 h2 hH hL
    rw [x_kernel_extdir_eq, x_kernel_plain_eq, if_neg h1, if_neg h2]
    simp only [x_states_extdir, x_states_plain, hH 0 (by decide), hH 1 (by decide),
      hH 2 (by decide), hL 0 (by decide), hL 1 (by decide), hL 2 (by decide)]
  · intro h1 h2 hH hL
    rw [y_kernel_extdir_eq, y_kernel_plain_eq, if_neg h1, if_neg h2]
    simp only [y_states_extdir, y_states_plain, hH 0 (by decide), hH 1 (by decide),
      hH 2 (by decide), hL 0 (by decide), hL 1 (by decide), hL 2 (by decide)]
  · intro h1 h2 hH hL
    rw [z_kernel_extdir_eq, z_kernel_plain_eq, if_neg h1, if_neg h2]
    simp only [z_states_extdir, z_states_plain, hH 0 (by decide), hH 1 (by decide),
      hH 2 (by decide), hL 0 (by decide), hL 1 (by decide), hL 2 (by decide)]

/-- C19, at a concrete input: the interior x-face `(2,0,0)` of a domain `0..3` with
`ext_dir` on the low sides, both slope routines returning `7`; the two kernels agree. -/
theorem C19_kernels_agree_off_boundary_witness :
    ¬ ((ex_bcrec 0).lo 0 = BCType.ext_dir ∧ (2 : Int) = 0) ∧
    ¬ ((ex_bcrec 0).hi 0 = BCType.ext_dir ∧ (2 : Int) = 3 + 1) ∧
    x_kernel_extdir ex_slopes_extdir ex_vcc ex_flag_conn ex_cent ex_cent ex_bcrec
        0 3 0 3 0 3 2 0 0
      = x_kernel_plain ex_slopes_eb ex_vcc ex_flag_conn ex_cent ex_cent 2 0 0 :=
  ⟨by decide, by decide,
    (C19_kernels_agree_off_boundary ex_slopes_eb ex_slopes_extdir ex_vcc ex_flag_conn
      ex_cent ex_cent ex_cent ex_cent ex_bcrec 0 3 0 3 0 3 2 0 0).1 (by decide) (by decide)
      (fun _ _ => rfl) (fun _ _ => rfl)⟩


/-! ## C20: the sign of the upwinded value -/

theorem upwind_select_sign (mns pls : ℚ) :
    upwind_select mns pls * (0.5 * (pls + mns)) ≥ 0 := by
  have hpos := small_vel_pos
  simp only [upwind_select]
  split_ifs with a b c
  · have hm : 0 ≤ mns := by
      rcases a with h | h
      · exact h
      · linarith
    have : 0 ≤ 0.5 * (pls + mns) := by linarith
    exact mul_nonneg hm this
  · have hp : pls ≤ 0 := by
      rcases a with h | h
      · linarith
      · exact h
    have : 0.5 * (pls + mns) ≤ 0 := by linarith
    exact mul_nonneg_of_nonpos_of_nonpos hp this
  · simp
  · simp

/-- C20. Upwind sign consistency: for all states `mns` and `pls`, the value `r` of the
upwind selection satisfies `r * avg ≥ 0` with `avg = 0.5*(pls+mns)`; whenever `mns` is
selected (branch condition and `avg ≥ 1e-10`) then `mns ≥ 0`, and whenever `pls` is selected
(branch condition and `avg ≤ -1e-10`) then `pls ≤ 0`.  The same holds for the value of each
of the six kernel bodies against the average of its two clamped states: always for the plain
kernels, and on every face that is not an overridden boundary face for the boundary-aware
kernels. -/
theorem C20_upwind_sign_consistency (mns pls : ℚ)
    (slopes_eb : SlopesEb) (slopes_extdir : SlopesExtdirEb)
    (vcc : Array4) (flag : FlagArray) (fcx fcy fcz ccc : Array4) (d_bcrec : Nat → BCRec)
    (ilo ihi jlo jhi klo khi : Int) (i j k : Int) :
    (upwind_select mns pls * (0.5 * (pls + mns)) ≥ 0) ∧
    ((mns ≥ 0 ∨ pls ≤ 0) → 0.5 * (pls + mns) ≥ small_vel →
      upwind_select mns pls = mns ∧ mns ≥ 0) ∧
    ((mns ≥ 0 ∨ pls ≤ 0) → 0.5 * (pls + mns) ≤ -small_vel →
      upwind_select mns pls = pls ∧ pls ≤ 0) ∧
    (x_kernel_plain slopes_eb vcc flag fcx ccc i j k
        * (0.5 * ((x_states_plain slopes_eb vcc flag fcx ccc i j k).1 + (x_states_plain slopes_eb vcc flag fcx ccc i j k).2)) ≥ 0) ∧
    (¬ ((d_bcrec 0).lo 0 = BCType.ext_dir ∧ i = ilo) →
      ¬ ((d_bcrec 0).hi 0 = BCType.ext_dir ∧ i = ihi + 1) →
      x_kernel_extdir slopes_extdir vcc flag fcx ccc d_bcrec ilo ihi jlo jhi klo khi i j k
        * (0.5 * ((x_states_extdir slopes_extdir vcc flag fcx ccc d_bcrec ilo ihi jlo jhi klo khi i j k).1
            + (x_states_extdir slopes_extdir vcc flag fcx ccc d_bcrec ilo ihi jlo jhi klo khi i j k).2)) ≥ 0) ∧
    (y_kernel_plain slopes_eb vcc flag fcy ccc i j k
        * (0.5 * ((y_states_plain slopes_eb vcc flag fcy ccc i j k).1 + (y_states_plain slopes_eb vcc flag fcy ccc i j k).2)) ≥ 0) ∧
    (¬ ((d_bcrec 1).lo 1 = BCType.ext_dir ∧ j = jlo) →
      ¬ ((d_bcrec 1).hi 1 = BCType.ext_dir ∧ j = jhi + 1) →
      y_kernel_extdir slopes_extdir vcc flag fcy ccc d_bcrec ilo ihi jlo jhi klo khi i j k
        * (0.5 * ((y_states_extdir slopes_extdir vcc flag fcy ccc d_bcrec ilo ihi jlo jhi klo khi i j k).1
            + (y_states_extdir slopes_extdir vcc flag fcy ccc d_bcrec ilo ihi jlo jhi klo khi i j k).2)) ≥ 0) ∧
    (z_kernel_plain slopes_eb vcc flag fcz ccc i j k
        * (0.5 * ((z_states_plain slopes_eb vcc flag fcz ccc i j k).1 + (z_states_plain slopes_eb vcc flag fcz ccc i j k).2)) ≥ 0) ∧
    (¬ ((d_bcrec 2).lo 2 = BCType.ext_dir ∧ k = klo) →
      ¬ ((d_bcrec 2).hi 2 = BCType.ext_dir ∧ k = khi + 1) →
      z_kernel_extdir slopes_extdir vcc flag fcz ccc d_bcrec ilo ihi jlo jhi klo khi i j k
        * (0.5 * ((z_states_extdir slopes_extdir vcc flag fcz ccc d_bcrec ilo ihi jlo jhi klo khi i j k).1
            + (z_states_extdir slopes_extdir vcc flag fcz ccc d_bcrec ilo ihi jlo jhi klo khi i j k).2)) ≥ 0) := by
  have hpos := small_vel_pos
  refine ⟨upwind_select_sign mns pls, ?_, ?_, ?_, ?_, ?_, ?_, ?_, ?_⟩
  · intro h1 h2
    constructor
    · simp only [upwind_select]
      rw [if_pos h1, if_pos h2]
    · rcases h1 with h | h
      · exact h
      · linarith
  · intro h1 h2
    constructor
    · simp only [upwind_select]
      have h3 : ¬ (0.5 * (pls + mns) ≥ small_vel) := fun h => by linarith
      rw [if_pos h1, if_neg h3, if_pos h2]
    · rcases h1 with h | h
      · linarith
      · exact h
  · rw [x_kernel_plain_eq]
    split
    · exact upwind_select_sign _ _
    · simp
  · intro h1 h2
    rw [x_kernel_extdir_eq, if_neg h1, if_neg h2]
    split
    · exact upwind_select_sign _ _
    · simp
  · rw [y_kernel_plain_eq]
    split
    · exact upwind_select_sign _ _
    · simp
  · intro h1 h2
    rw [y_kernel_extdir_eq, if_neg h1, if_neg h2]
    split
    · exact upwind_select_sign _ _
    · simp
  · rw [z_kernel_plain_eq]
    split
    · exact upwind_select_sign _ _
    · simp
  · intro h1 h2
    rw [z_kernel_extdir_eq, if_neg h1, if_neg h2]
    split
    · exact upwind_select_sign _ _
    · simp

/-- C20, at a concrete input: `(mns, pls) = (3, -1)`; the branch condition holds through
`pls ≤ 0`, the average `1` reaches the threshold, `mns` is selected and is non-negative. -/
theorem C20_upwind_sign_consistency_witness :
    ((3 : ℚ) ≥ 0 ∨ (-1 : ℚ) ≤ 0) ∧ 0.5 * ((-1 : ℚ) + 3) ≥ small_vel ∧
    (upwind_select 3 (-1) = 3 ∧ (3 : ℚ) ≥ 0) :=
  ⟨Or.inr (by norm_num), by norm_num [small_vel],
    (C20_upwind_sign_consistency 3 (-1) ex_slopes_eb ex_slopes_extdir ex_vcc ex_flag_conn
      ex_cent ex_cent ex_cent ex_cent ex_bcrec 0 3 0 3 0 3 1 1 1).2.1
      (Or.inr (by norm_num)) (by norm_num [small_vel])⟩

/-! ## Helper lemmas: each kernel reads one velocity component -/

theorem x_kernel_extdir_congr (slopes_extdir : SlopesExtdirEb)
    (hs : slopes_extdir.reads_own_component)
    (vcc vcc' : Array4) (hv : ∀ a b c : Int, vcc a b c 0 = vcc' a b c 0)
    (flag : FlagArray) (fcx ccc : Array4) (d_bcrec : Nat → BCRec)
    (ilo ihi jlo jhi klo khi : Int) (i j k : Int) :
    x_kernel_extdir slopes_extdir vcc flag fcx ccc d_bcrec ilo ihi jlo jhi klo khi i j k
      = x_kernel_extdir slopes_extdir vcc' flag fcx ccc d_bcrec ilo ihi jlo jhi klo khi
          i j k := by
  have hs' := fun (i j k : Int) (e1 e2 : Bool) (d1 d2 : Int) (e3 e4 : Bool) (d3 d4 : Int)
      (e5 e6 : Bool) (d5 d6 : Int) =>
    hs i j k 0 vcc vcc' ccc flag e1 e2 d1 d2 e3 e4 d3 d4 e5 e6 d5 d6 hv
  simp only [x_kernel_extdir, hs', hv]

theorem x_kernel_plain_congr (slopes_eb : SlopesEb) (hs : slopes_eb.reads_own_component)
    (vcc vcc' : Array4) (hv : ∀ a b c : Int, vcc a b c 0 = vcc' a b c 0)
    (flag : FlagArray) (fcx ccc : Array4) (i j k : Int) :
    x_kernel_plain slopes_eb vcc flag fcx ccc i j k
      = x_kernel_plain slopes_eb vcc' flag fcx ccc i j k := by
  have hs' := fun (i j k : Int) => hs i j k 0 vcc vcc' ccc flag hv
  simp only [x_kernel_plain, hs', hv]

theorem y_kernel_extdir_congr (slopes_extdir : SlopesExtdirEb)
    (hs : slopes_extdir.reads_own_component)
    (vcc vcc' : Array4) (hv : ∀ a b c : Int, vcc a b c 1 = vcc' a b c 1)
    (flag : FlagArray) (fcy ccc : Array4) (d_bcrec : Nat → BCRec)
    (ilo ihi jlo jhi klo khi : Int) (i j k : Int) :
    y_kernel_extdir slopes_extdir vcc flag fcy ccc d_bcrec ilo ihi jlo jhi klo khi i j k
      = y_kernel_extdir slopes_extdir vcc' flag fcy ccc d_bcrec ilo ihi jlo jhi klo khi
          i j k := by
  have hs' := fun (i j k : Int) (e1 e2 : Bool) (d1 d2 : Int) (e3 e4 : Bool) (d3 d4 : Int)
      (e5 e6 : Bool) (d5 d6 : Int) =>
    hs i j k 1 vcc vcc' ccc flag e1 e2 d1 d2 e3 e4 d3 d4 e5 e6 d5 d6 hv
  simp only [y_kernel_extdir, hs', hv]

theorem y_kernel_plain_congr (slopes_eb : SlopesEb) (hs : slopes_eb.reads_own_component)
    (vcc vcc' : Array4) (hv : ∀ a b c : Int, vcc a b c 1 = vcc' a b c 1)
    (flag : FlagArray) (fcy ccc : Array4) (i j k : Int) :
    y_kernel_plain slopes_eb vcc flag fcy ccc i j k
      = y_kernel_plain slopes_eb vcc' flag fcy ccc i j k := by
  have hs' := fun (i j k : Int) => hs i j k 1 vcc vcc' ccc flag hv
  simp only [y_kernel_plain, hs', hv]

theorem z_kernel_extdir_congr (slopes_extdir : SlopesExtdirEb)
    (hs : slopes_extdir.reads_own_component)
    (vcc vcc' : Array4) (hv : ∀ a b c : Int, vcc a b c 2 = vcc' a b c 2)
    (flag : FlagArray) (fcz ccc : Array4) (d_bcrec : Nat → BCRec)
    (ilo ihi jlo jhi klo khi : Int) (i j k : Int) :
    z_kernel_extdir slopes_extdir vcc flag fcz ccc d_bcrec ilo ihi jlo jhi klo khi i j k
      = z_kernel_extdir slopes_extdir vcc' flag fcz ccc d_bcrec ilo ihi jlo jhi klo khi
          i j k := by
  have hs' := fun (i j k : Int) (e1 e2 : Bool) (d1 d2 : Int) (e3 e4 : Bool) (d3 d4 : Int)
      (e5 e6 : Bool) (d5 d6 : Int) =>
    hs i j k 2 vcc vcc' ccc flag e1 e2 d1 d2 e3 e4 d3 d4 e5 e6 d5 d6 hv
  simp only [z_kernel_extdir, hs', hv]

theorem z_kernel_plain_congr (slopes_eb : SlopesEb) (hs : slopes_eb.reads_own_component)
    (vcc vcc' : Array4) (hv : ∀ a b c : Int, vcc a b c 2 = vcc' a b c 2)
    (flag : FlagArray) (fcz ccc : Array4) (i j k : Int) :
    z_kernel_plain slopes_eb vcc flag fcz ccc i j k
      = z_kernel_plain slopes_eb vcc' flag fcz ccc i j k := by
  have hs' := fun (i j k : Int) => hs i j k 2 vcc vcc' ccc flag hv
  simp only [z_kernel_plain, hs', hv]


/-! ## C17: no coupling between directions -/

/-- C17. No cross-direction coupling: two invocations of the driver that agree on the
velocity, the flags, the cell centroids, the boundary records, the domain box and on
direction `d`'s face box and face centroids write the same value at every index of
direction `d`'s face box, and leave the same value wherever their output arrays for `d`
held the same value, whatever the level, the cell box and the other two directions' face
boxes, face-centroid fields and output arrays are.  Moreover, when each slope routine reads
only the velocity component it is asked for, the face field of direction `d` is the same for
any two velocities that agree on component `d`. -/
theorem C17_no_cross_direction_coupling (slopes_eb : SlopesEb)
    (slopes_extdir : SlopesExtdirEb) (lev lev' : Nat)
    (ccbx ubx vbx wbx ccbx' ubx' vbx' wbx' : Box) (u v w u' v' w' : FaceArray)
    (vcc vcc' : Array4) (flag : FlagArray) (fcx fcy fcz fcx' fcy' fcz' ccc : Array4)
    (h_bcrec d_bcrec : Nat → BCRec) (geom geom' : Nat → Geometry)
    (hdom : (geom lev).Domain = (geom' lev').Domain) :
    (∀ i j k : Int, (ubx.contains i j k = true ∨ u i j k = u' i j k) →
      (predict_vels_on_faces_eb slopes_eb slopes_extdir
          lev ccbx ubx vbx wbx u v w vcc flag fcx fcy fcz ccc h_bcrec d_bcrec geom).u i j k
        = (predict_vels_on_faces_eb slopes_eb slopes_extdir
          lev' ccbx' ubx vbx' wbx' u' v' w' vcc flag fcx fcy' fcz' ccc h_bcrec d_bcrec geom').u i j k) ∧
    (∀ i j k : Int, (vbx.contains i j k = true ∨ v i j k = v' i j k) →
      (predict_vels_on_faces_eb slopes_eb slopes_extdir
          lev ccbx ubx vbx wbx u v w vcc flag fcx fcy fcz ccc h_bcrec d_bcrec geom).v i j k
        = (predict_vels_on_faces_eb slopes_eb slopes_extdir
          lev' ccbx' ubx' vbx wbx' u' v' w' vcc flag fcx' fcy fcz' ccc h_bcrec d_bcrec geom').v i j k) ∧
    (∀ i j k : Int, (wbx.contains i j k = true ∨ w i j k = w' i j k) →
      (predict_vels_on_faces_eb slopes_eb slopes_extdir
          lev ccbx ubx vbx wbx u v w vcc flag fcx fcy fcz ccc h_bcrec d_bcrec geom).w i j k
        = (predict_vels_on_faces_eb slopes_eb slopes_extdir
          lev' ccbx' ubx' vbx' wbx u' v' w' vcc flag fcx' fcy' fcz ccc h_bcrec d_bcrec geom').w i j k) ∧
    (slopes_eb.reads_own_component → slopes_extdir.reads_own_component →
      (∀ a b c : Int, vcc a b c 0 = vcc' a b c 0) →
      (predict_vels_on_faces_eb slopes_eb slopes_extdir
          lev ccbx ubx vbx wbx u v w vcc flag fcx fcy fcz ccc h_bcrec d_bcrec geom).u
        = (predict_vels_on_faces_eb slopes_eb slopes_extdir
          lev ccbx ubx vbx wbx u v w vcc' flag fcx fcy fcz ccc h_bcrec d_bcrec geom).u) ∧
    (slopes_eb.reads_own_component → slopes_extdir.reads_own_component →
      (∀ a b c : Int, vcc a b c 1 = vcc' a b c 1) →
      (predict_vels_on_faces_eb slopes_eb slopes_extdir
          lev ccbx ubx vbx wbx u v w vcc flag fcx fcy fcz ccc h_bcrec d_bcrec geom).v
        = (predict_vels_on_faces_eb slopes_eb slopes_extdir
          lev ccbx ubx vbx wbx u v w vcc' flag fcx fcy fcz ccc h_bcrec d_bcrec geom).v) ∧
    (slopes_eb.reads_own_component → slopes_extdir.reads_own_component →
      (∀ a b c : Int, vcc a b c 2 = vcc' a b c 2) →
      (predict_vels_on_faces_eb slopes_eb slopes_extdir
          lev ccbx ubx vbx wbx u v w vcc flag fcx fcy fcz ccc h_bcrec d_bcrec geom).w
        = (predict_vels_on_faces_eb slopes_eb slopes_extdir
          lev ccbx ubx vbx wbx u v w vcc' flag fcx fcy fcz ccc h_bcrec d_bcrec geom).w) := by
  refine ⟨?_, ?_, ?_, ?_, ?_, ?_⟩
  · intro i j k h
    rw [predict_u_eq, predict_u_eq, ← hdom]
    split
    · simp only [ParallelFor]
      split
      · rfl
      · rcases h with h | h
        · contradiction
        · exact h
    · simp only [ParallelFor]
      split
      · rfl
      · rcases h with h | h
        · contradiction
        · exact h
  · intro i j k h
    rw [predict_v_eq, predict_v_eq, ← hdom]
    split
    · simp only [ParallelFor]
      split
      · rfl
      · rcases h with h | h
        · contradiction
        · exact h
    · simp only [ParallelFor]
      split
      · rfl
      · rcases h with h | h
        · contradiction
        · exact h
  · intro i j k h
    rw [predict_w_eq, predict_w_eq, ← hdom]
    split
    · simp only [ParallelFor]
      split
      · rfl
      · rcases h with h | h
        · contradiction
        · exact h
    · simp only [ParallelFor]
      split
      · rfl
      · rcases h with h | h
        · contradiction
        · exact h
  · intro hs1 hs2 hv
    rw [predict_u_eq, predict_u_eq]
    have h1 := fun (a b c d e f g h i : Int) =>
      x_kernel_extdir_congr slopes_extdir hs2 vcc vcc' hv flag fcx ccc d_bcrec a b c d e f
        g h i
    have h2 := fun (g h i : Int) =>
      x_kernel_plain_congr slopes_eb hs1 vcc vcc' hv flag fcx ccc g h i
    split
    · funext i j k
      simp only [ParallelFor, h1]
    · funext i j k
      simp only [ParallelFor, h2]
  · intro hs1 hs2 hv
    rw [predict_v_eq, predict_v_eq]
    have h1 := fun (a b c d e f g h i : Int) =>
      y_kernel_extdir_congr slopes_extdir hs2 vcc vcc' hv flag fcy ccc d_bcrec a b c d e f
        g h i
    have h2 := fun (g h i : Int) =>
      y_kernel_plain_congr slopes_eb hs1 vcc vcc' hv flag fcy ccc g h i
    split
    · funext i j k
      simp only [ParallelFor, h1]
    · funext i j k
      simp only [ParallelFor, h2]
  · intro hs1 hs2 hv
    rw [predict_w_eq, predict_w_eq]
    have h1 := fun (a b c d e f g h i : Int) =>
      z_kernel_extdir_congr slopes_extdir hs2 vcc vcc' hv flag fcz ccc d_bcrec a b c d e f
        g h i
    have h2 := fun (g h i : Int) =>
      z_kernel_plain_congr slopes_eb hs1 vcc vcc' hv flag fcz ccc g h i
    split
    · funext i j k
      simp only [ParallelFor, h1]
    · funext i j k
      simp only [ParallelFor, h2]

/-- C17, at a concrete input: two velocities that agree on component 0 and differ on the
other components (`3` or `5` against `100`), with slope routines that return `7`; the
x-face fields the driver writes are the same. -/
theorem C17_no_cross_direction_coupling_witness :
    (ex_geom 0).Domain = (ex_geom 0).Domain ∧
    ex_slopes_eb.reads_own_component ∧ ex_slopes_extdir.reads_own_component ∧
    (∀ a b c : Int, ex_vcc a b c 0 = ex_vcc_other a b c 0) ∧
    ex_vcc 0 0 0 1 ≠ ex_vcc_other 0 0 0 1 ∧
    (predict_vels_on_faces_eb ex_slopes_eb ex_slopes_extdir 0 ex_ccbx ex_ubx ex_vbx ex_wbx
        ex_face0 ex_face0 ex_face0 ex_vcc ex_flag_conn ex_cent ex_cent ex_cent ex_cent
        ex_bcrec ex_bcrec ex_geom).u
      = (predict_vels_on_faces_eb ex_slopes_eb ex_slopes_extdir 0 ex_ccbx ex_ubx ex_vbx ex_wbx
        ex_face0 ex_face0 ex_face0 ex_vcc_other ex_flag_conn ex_cent ex_cent ex_cent ex_cent
        ex_bcrec ex_bcrec ex_geom).u :=
  ⟨rfl, fun _ _ _ _ _ _ _ _ _ => rfl,
    fun _ _ _ _ _ _ _ _ _ _ _ _ _ _ _ _ _ _ _ _ _ => rfl,
    fun _ _ _ => rfl, by decide,
    (C17_no_cross_direction_coupling ex_slopes_eb ex_slopes_extdir 0 0
      ex_ccbx ex_ubx ex_vbx ex_wbx ex_ccbx ex_ubx ex_vbx ex_wbx
      ex_face0 ex_face0 ex_face0 ex_face0 ex_face0 ex_face0 ex_vcc ex_vcc_other ex_flag_conn
      ex_cent ex_cent ex_cent ex_cent ex_cent ex_cent ex_cent ex_bcrec ex_bcrec ex_geom ex_geom
      rfl).2.2.2.1 (fun _ _ _ _ _ _ _ _ _ => rfl)
      (fun _ _ _ _ _ _ _ _ _ _ _ _ _ _ _ _ _ _ _ _ _ => rfl) (fun _ _ _ => rfl)⟩

/-! ## C21: reflection antisymmetry of the upwind selection -/

/-- C21. Reflection antisymmetry of the upwind selection: writing `R(mns, pls)` for
`upwind_select mns pls` (lines 116-125, repeated verbatim in every kernel body, among them
lines 484-493), for all `mns` and `pls` we have `R(-pls, -mns) = -R(mns, pls)`: negating both
states and swapping the low and the high side negates the resolved value.  The four closed
instances show the law on both upwind branches, and the last two conjuncts recall that the
boundary-aware x-face kernel and the plain z-face kernel resolve their two clamped states
through this very selection. -/
theorem C21_reflection_antisymmetry (slopes_eb : SlopesEb) (slopes_extdir : SlopesExtdirEb)
    (vcc : Array4) (flag : FlagArray) (fcx fcz ccc : Array4) (d_bcrec : Nat → BCRec)
    (ilo ihi jlo jhi klo khi : Int) (i j k : Int) :
    (∀ mns pls : ℚ, upwind_select (-pls) (-mns) = -upwind_select mns pls) ∧
    upwind_select 2 (-1) = 2 ∧ upwind_select 1 (-2) = -2 ∧
    upwind_select (-5) (-3) = -3 ∧ upwind_select 3 5 = 3 ∧
    x_kernel_extdir slopes_extdir vcc flag fcx ccc d_bcrec ilo ihi jlo jhi klo khi i j k
      = (if (flag i j k).isConnected (-1) 0 0 = true then
          (if (d_bcrec 0).lo 0 = BCType.ext_dir ∧ i = ilo then vcc (i-1) j k 0
           else if (d_bcrec 0).hi 0 = BCType.ext_dir ∧ i = ihi + 1 then vcc i j k 0
           else upwind_select
             (x_states_extdir slopes_extdir vcc flag fcx ccc d_bcrec
               ilo ihi jlo jhi klo khi i j k).2
             (x_states_extdir slopes_extdir vcc flag fcx ccc d_bcrec
               ilo ihi jlo jhi klo khi i j k).1)
        else 0) ∧
    z_kernel_plain slopes_eb vcc flag fcz ccc i j k
      = (if (flag i j k).isConnected 0 0 (-1) = true then
          upwind_select (z_states_plain slopes_eb vcc flag fcz ccc i j k).2
                        (z_states_plain slopes_eb vcc flag fcz ccc i j k).1
        else 0) := by
  have hs := small_vel_pos
  refine ⟨?_, ?_, ?_, ?_, ?_, x_kernel_extdir_eq _ _ _ _ _ _ _ _ _ _ _ _ _ _ _,
    z_kernel_plain_eq _ _ _ _ _ _ _ _⟩
  · intro mns pls
    simp only [upwind_select]
    have e : (0.5 : ℚ) * (-mns + -pls) = -(0.5 * (pls + mns)) := by ring
    rw [e]
    by_cases h : mns ≥ 0 ∨ pls ≤ 0
    · have h' : -pls ≥ 0 ∨ -mns ≤ 0 := by
        rcases h with h | h
        · exact Or.inr (by linarith)
        · exact Or.inl (by linarith)
      rw [if_pos h, if_pos h']
      by_cases a1 : 0.5 * (pls + mns) ≥ small_vel
      · have n1 : ¬ (-(0.5 * (pls + mns)) ≥ small_vel) := by intro hh; linarith
        have n2 : -(0.5 * (pls + mns)) ≤ -small_vel := by linarith
        rw [if_pos a1, if_neg n1, if_pos n2]
      · by_cases a2 : 0.5 * (pls + mns) ≤ -small_vel
        · have p1 : -(0.5 * (pls + mns)) ≥ small_vel := by linarith
          rw [if_neg a1, if_pos a2, if_pos p1]
        · have n1 : ¬ (-(0.5 * (pls + mns)) ≥ small_vel) := by
            intro hh; apply a2; linarith
          have n2 : ¬ (-(0.5 * (pls + mns)) ≤ -small_vel) := by
            intro hh; apply a1; linarith
          rw [if_neg a1, if_neg a2, if_neg n1, if_neg n2, neg_zero]
    · have h' : ¬ (-pls ≥ 0 ∨ -mns ≤ 0) := by
        intro hh; apply h
        rcases hh with hh | hh
        · exact Or.inr (by linarith)
        · exact Or.inl (by linarith)
      rw [if_neg h, if_neg h', neg_zero]
  · norm_num [upwind_select, small_vel]
  · norm_num [upwind_select, small_vel]
  · norm_num [upwind_select, small_vel]
  · norm_num [upwind_select, small_vel]

/-! ## C22: uniform fields -/

theorem clamp_self (x c : ℚ) : max (min x (max c c)) (min c c) = c := by
  rw [max_self, min_self]; exact max_eq_right (min_le_right _ _)

theorem upwind_select_uniform (c : ℚ) :
    upwind_select c c = if |c| ≥ small_vel then c else 0 := by
  have hs := small_vel_pos
  have h : c ≥ 0 ∨ c ≤ 0 := le_total 0 c
  have e : (0.5 : ℚ) * (c + c) = c := by ring
  simp only [upwind_select]
  rw [if_pos h, e]
  by_cases a1 : c ≥ small_vel
  · have p : |c| ≥ small_vel := le_trans a1 (le_abs_self c)
    rw [if_pos a1, if_pos p]
  · by_cases a2 : c ≤ -small_vel
    · have p : |c| ≥ small_vel := by
        have := neg_le_abs c
        linarith
      rw [if_neg a1, if_pos a2, if_pos p]
    · have n : ¬ (|c| ≥ small_vel) := by
        intro hh
        rcases le_abs.mp hh with h1 | h1
        · exact a1 h1
        · exact a2 (by linarith)
      rw [if_neg a1, if_neg a2, if_neg n]

/-- C22. Uniform-field behaviour: in each direction, at a connected face whose two adjacent
cells hold the same value `c` of the normal velocity component, for every slope routine
and all face and cell centroid offsets: the plain kernel returns `c` when `|c| ≥ small_vel`
and `0` otherwise; the boundary-aware kernel returns `c` for every `c` on a face where the
override of lines 127-131 (278-283, 429-434) applies, and otherwise `c` when
`|c| ≥ small_vel` and `0` when `|c| < small_vel`; and the value the driver writes at a face
index of the direction's box is `c` on an overridden face (the boundary-aware kernel was
selected and the override applies) and otherwise decided by the threshold in the same way. -/
theorem C22_uniform_field (slopes_eb : SlopesEb) (slopes_extdir : SlopesExtdirEb)
    (lev : Nat) (ccbx ubx vbx wbx : Box) (u v w : FaceArray)
    (vcc : Array4) (flag : FlagArray) (fcx fcy fcz ccc : Array4)
    (h_bcrec d_bcrec : Nat → BCRec) (geom : Nat → Geometry) (i j k : Int) (c : ℚ) :
    ((flag i j k).isConnected (-1) 0 0 = true → vcc (i-1) j k 0 = c → vcc i j k 0 = c →
        x_kernel_plain slopes_eb vcc flag fcx ccc i j k = (if |c| ≥ small_vel then c else 0) ∧
        (∀ ilo ihi jlo jhi klo khi : Int,
          x_kernel_extdir slopes_extdir vcc flag fcx ccc d_bcrec ilo ihi jlo jhi klo khi i j k
            = if ((d_bcrec 0).lo 0 = BCType.ext_dir ∧ i = ilo) ∨
                 ((d_bcrec 0).hi 0 = BCType.ext_dir ∧ i = ihi + 1) then c
              else if |c| ≥ small_vel then c else 0) ∧
        (ubx.contains i j k = true →
          (predict_vels_on_faces_eb slopes_eb slopes_extdir lev ccbx ubx vbx wbx u v w
            vcc flag fcx fcy fcz ccc h_bcrec d_bcrec geom).u i j k
            = if (((has_extdir h_bcrec AMREX_SPACEDIM 0).1 = true ∧
                    (geom lev).Domain.smallEnd 0 ≥ ubx.smallEnd 0 - 1) ∨
                  ((has_extdir h_bcrec AMREX_SPACEDIM 0).2 = true ∧
                    (geom lev).Domain.bigEnd 0 ≤ ubx.bigEnd 0)) ∧
                 (((d_bcrec 0).lo 0 = BCType.ext_dir ∧ i = (geom lev).Domain.smallEnd 0) ∨
                  ((d_bcrec 0).hi 0 = BCType.ext_dir ∧ i = (geom lev).Domain.bigEnd 0 + 1))
              then c
              else if |c| ≥ small_vel then c else 0)) ∧
    ((flag i j k).isConnected 0 (-1) 0 = true → vcc i (j-1) k 1 = c → vcc i j k 1 = c →
        y_kernel_plain slopes_eb vcc flag fcy ccc i j k = (if |c| ≥ small_vel then c else 0) ∧
        (∀ ilo ihi jlo jhi klo khi : Int,
          y_kernel_extdir slopes_extdir vcc flag fcy ccc d_bcrec ilo ihi jlo jhi klo khi i j k
            = if ((d_bcrec 1).lo 1 = BCType.ext_dir ∧ j = jlo) ∨
                 ((d_bcrec 1).hi 1 = BCType.ext_dir ∧ j = jhi + 1) then c
              else if |c| ≥ small_vel then c else 0) ∧
        (vbx.contains i j k = true →
          (predict_vels_on_faces_eb slopes_eb slopes_extdir lev ccbx ubx vbx wbx u v w
            vcc flag fcx fcy fcz ccc h_bcrec d_bcrec geom).v i j k
            = if (((has_extdir h_bcrec AMREX_SPACEDIM 1).1 = true ∧
                    (geom lev).Domain.smallEnd 1 ≥ vbx.smallEnd 1 - 1) ∨
                  ((has_extdir h_bcrec AMREX_SPACEDIM 1).2 = true ∧
                    (geom lev).Domain.bigEnd 1 ≤ vbx.bigEnd 1)) ∧
                 (((d_bcrec 1).lo 1 = BCType.ext_dir ∧ j = (geom lev).Domain.smallEnd 1) ∨
                  ((d_bcrec 1).hi 1 = BCType.ext_dir ∧ j = (geom lev).Domain.bigEnd 1 + 1))
              then c
              else if |c| ≥ small_vel then c else 0)) ∧
    ((flag i j k).isConnected 0 0 (-1) = true → vcc i j (k-1) 2 = c → vcc i j k 2 = c →
        z_kernel_plain slopes_eb vcc flag fcz ccc i j k = (if |c| ≥ small_vel then c else 0) ∧
        (∀ ilo ihi jlo jhi klo khi : Int,
          z_kernel_extdir slopes_extdir vcc flag fcz ccc d_bcrec ilo ihi jlo jhi klo khi i j k
            = if ((d_bcrec 2).lo 2 = BCType.ext_dir ∧ k = klo) ∨
                 ((d_bcrec 2).hi 2 = BCType.ext_dir ∧ k = khi + 1) then c
              else if |c| ≥ small_vel then c else 0) ∧
        (wbx.contains i j k = true →
          (predict_vels_on_faces_eb slopes_eb slopes_extdir lev ccbx ubx vbx wbx u v w
            vcc flag fcx fcy fcz ccc h_bcrec d_bcrec geom).w i j k
            = if (((has_extdir h_bcrec AMREX_SPACEDIM 2).1 = true ∧
                    (geom lev).Domain.smallEnd 2 ≥ wbx.smallEnd 2 - 1) ∨
                  ((has_extdir h_bcrec AMREX_SPACEDIM 2).2 = true ∧
                    (geom lev).Domain.bigEnd 2 ≤ wbx.bigEnd 2)) ∧
                 (((d_bcrec 2).lo 2 = BCType.ext_dir ∧ k = (geom lev).Domain.smallEnd 2) ∨
                  ((d_bcrec 2).hi 2 = BCType.ext_dir ∧ k = (geom lev).Domain.bigEnd 2 + 1))
              then c
              else if |c| ≥ small_vel then c else 0)) := by
  refine ⟨fun hc h1 h2 => ?_, fun hc h1 h2 => ?_, fun hc h1 h2 => ?_⟩
  · have hp : x_kernel_plain slopes_eb vcc flag fcx ccc i j k
        = (if |c| ≥ small_vel then c else 0) := by
      have hst : x_states_plain slopes_eb vcc flag fcx ccc i j k = (c, c) := by
        simp only [x_states_plain, h1, h2, clamp_self]
      rw [x_kernel_plain_eq, if_pos hc, hst]
      exact upwind_select_uniform c
    have he : ∀ ilo ihi jlo jhi klo khi : Int,
        x_kernel_extdir slopes_extdir vcc flag fcx ccc d_bcrec ilo ihi jlo jhi klo khi i j k
          = if ((d_bcrec 0).lo 0 = BCType.ext_dir ∧ i = ilo) ∨
               ((d_bcrec 0).hi 0 = BCType.ext_dir ∧ i = ihi + 1) then c
            else if |c| ≥ small_vel then c else 0 := by
      intro ilo ihi jlo jhi klo khi
      have hst : x_states_extdir slopes_extdir vcc flag fcx ccc d_bcrec
          ilo ihi jlo jhi klo khi i j k = (c, c) := by
        simp only [x_states_extdir, h1, h2, clamp_self]
      rw [x_kernel_extdir_eq, if_pos hc, hst, h1, h2]
      by_cases o1 : (d_bcrec 0).lo 0 = BCType.ext_dir ∧ i = ilo
      · rw [if_pos o1, if_pos (Or.inl o1)]
      · by_cases o2 : (d_bcrec 0).hi 0 = BCType.ext_dir ∧ i = ihi + 1
        · rw [if_neg o1, if_pos o2, if_pos (Or.inr o2)]
        · rw [if_neg o1, if_neg o2, if_neg (fun h => h.elim o1 o2)]
          exact upwind_select_uniform c
    refine ⟨hp, he, fun hb => ?_⟩
    rw [predict_u_eq]
    by_cases hd : ((has_extdir h_bcrec AMREX_SPACEDIM 0).1 = true ∧
          (geom lev).Domain.smallEnd 0 ≥ ubx.smallEnd 0 - 1) ∨
        ((has_extdir h_bcrec AMREX_SPACEDIM 0).2 = true ∧
          (geom lev).Domain.bigEnd 0 ≤ ubx.bigEnd 0)
    · rw [if_pos hd]
      simp only [ParallelFor]
      rw [if_pos hb, he]
      simp only [hd, true_and]
    · rw [if_neg hd]
      simp only [ParallelFor]
      rw [if_pos hb, hp]
      simp only [hd, false_and, if_false]
  · have hp : y_kernel_plain slopes_eb vcc flag fcy ccc i j k
        = (if |c| ≥ small_vel then c else 0) := by
      have hst : y_states_plain slopes_eb vcc flag fcy ccc i j k = (c, c) := by
        simp only [y_states_plain, h1, h2, clamp_self]
      rw [y_kernel_plain_eq, if_pos hc, hst]
      exact upwind_select_uniform c
    have he : ∀ ilo ihi jlo jhi klo khi : Int,
        y_kernel_extdir slopes_extdir vcc flag fcy ccc d_bcrec ilo ihi jlo jhi klo khi i j k
          = if ((d_bcrec 1).lo 1 = BCType.ext_dir ∧ j = jlo) ∨
               ((d_bcrec 1).hi 1 = BCType.ext_dir ∧ j = jhi + 1) then c
            else if |c| ≥ small_vel then c else 0 := by
      intro ilo ihi jlo jhi klo khi
      have hst : y_states_extdir slopes_extdir vcc flag fcy ccc d_bcrec
          ilo ihi jlo jhi klo khi i j k = (c, c) := by
        simp only [y_states_extdir, h1, h2, clamp_self]
      rw [y_kernel_extdir_eq, if_pos hc, hst, h1, h2]
      by_cases o1 : (d_bcrec 1).lo 1 = BCType.ext_dir ∧ j = jlo
      · rw [if_pos o1, if_pos (Or.inl o1)]
      · by_cases o2 : (d_bcrec 1).hi 1 = BCType.ext_dir ∧ j = jhi + 1
        · rw [if_neg o1, if_pos o2, if_pos (Or.inr o2)]
        · rw [if_neg o1, if_neg o2, if_neg (fun h => h.elim o1 o2)]
          exact upwind_select_uniform c
    refine ⟨hp, he, fun hb => ?_⟩
    rw [predict_v_eq]
    by_cases hd : ((has_extdir h_bcrec AMREX_SPACEDIM 1).1 = true ∧
          (geom lev).Domain.smallEnd 1 ≥ vbx.smallEnd 1 - 1) ∨
        ((has_extdir h_bcrec AMREX_SPACEDIM 1).2 = true ∧
          (geom lev).Domain.bigEnd 1 ≤ vbx.bigEnd 1)
    · rw [if_pos hd]
      simp only [ParallelFor]
      rw [if_pos hb, he]
      simp only [hd, true_and]
    · rw [if_neg hd]
      simp only [ParallelFor]
      rw [if_pos hb, hp]
      simp only [hd, false_and, if_false]
  · have hp : z_kernel_plain slopes_eb vcc flag fcz ccc i j k
        = (if |c| ≥ small_vel then c else 0) := by
      have hst : z_states_plain slopes_eb vcc flag fcz ccc i j k = (c, c) := by
        simp only [z_states_plain, h1, h2, clamp_self]
      rw [z_kernel_plain_eq, if_pos hc, hst]
      exact upwind_select_uniform c
    have he : ∀ ilo ihi jlo jhi klo khi : Int,
        z_kernel_extdir slopes_extdir vcc flag fcz ccc d_bcrec ilo ihi jlo jhi klo khi i j k
          = if ((d_bcrec 2).lo 2 = BCType.ext_dir ∧ k = klo) ∨
               ((d_bcrec 2).hi 2 = BCType.ext_dir ∧ k = khi + 1) then c
            else if |c| ≥ small_vel then c else 0 := by
      intro ilo ihi jlo jhi klo khi
      have hst : z_states_extdir slopes_extdir vcc flag fcz ccc d_bcrec
          ilo ihi jlo jhi klo khi i j k = (c, c) := by
        simp only [z_states_extdir, h1, h2, clamp_self]
      rw [z_kernel_extdir_eq, if_pos hc, hst, h1, h2]
      by_cases o1 : (d_bcrec 2).lo 2 = BCType.ext_dir ∧ k = klo
      · rw [if_pos o1, if_pos (Or.inl o1)]
      · by_cases o2 : (d_bcrec 2).hi 2 = BCType.ext_dir ∧ k = khi + 1
        · rw [if_neg o1, if_pos o2, if_pos (Or.inr o2)]
        · rw [if_neg o1, if_neg o2, if_neg (fun h => h.elim o1 o2)]
          exact upwind_select_uniform c
    refine ⟨hp, he, fun hb => ?_⟩
    rw [predict_w_eq]
    by_cases hd : ((has_extdir h_bcrec AMREX_SPACEDIM 2).1 = true ∧
          (geom lev).Domain.smallEnd 2 ≥ wbx.smallEnd 2 - 1) ∨
        ((has_extdir h_bcrec AMREX_SPACEDIM 2).2 = true ∧
          (geom lev).Domain.bigEnd 2 ≤ wbx.bigEnd 2)
    · rw [if_pos hd]
      simp only [ParallelFor]
      rw [if_pos hb, he]
      simp only [hd, true_and]
    · rw [if_neg hd]
      simp only [ParallelFor]
      rw [if_pos hb, hp]
      simp only [hd, false_and, if_false]

/-- C22, at concrete inputs: the x-face box holds the faces `0 ≤ i ≤ 4` over a domain
starting at `i = 0` with `ext_dir` on its low x side, every face is connected and both slope
routines return `7`.  For the uniform field `3` the interior face `(1,0,0)` receives `3`;
for the uniform field `1e-11` the same face receives `0`, while the overridden boundary
face `(0,0,0)` receives `1e-11`. -/
theorem C22_uniform_field_witness :
    (ex_flag_conn 1 0 0).isConnected (-1) 0 0 = true ∧
    ex_vcc_uniform (1 - 1) 0 0 0 = 3 ∧ ex_vcc_uniform 1 0 0 0 = 3 ∧
    ex_ubx.contains 1 0 0 = true ∧ ex_ubx.contains 0 0 0 = true ∧
    ex_slopes_extdir 1 0 0 0 ex_vcc_uniform ex_cent ex_flag_conn
      true false 0 3 true false 0 3 true false 0 3 0 = 7 ∧
    (predict_vels_on_faces_eb ex_slopes_eb ex_slopes_extdir 0 ex_ccbx ex_ubx ex_vbx ex_wbx
        ex_face0 ex_face0 ex_face0 ex_vcc_uniform ex_flag_conn ex_cent ex_cent ex_cent ex_cent
        ex_bcrec ex_bcrec ex_geom).u 1 0 0 = 3 ∧
    (predict_vels_on_faces_eb ex_slopes_eb ex_slopes_extdir 0 ex_ccbx ex_ubx ex_vbx ex_wbx
        ex_face0 ex_face0 ex_face0 ex_vcc_tiny ex_flag_conn ex_cent ex_cent ex_cent ex_cent
        ex_bcrec ex_bcrec ex_geom).u 1 0 0 = 0 ∧
    (predict_vels_on_faces_eb ex_slopes_eb ex_slopes_extdir 0 ex_ccbx ex_ubx ex_vbx ex_wbx
        ex_face0 ex_face0 ex_face0 ex_vcc_tiny ex_flag_conn ex_cent ex_cent ex_cent ex_cent
        ex_bcrec ex_bcrec ex_geom).u 0 0 0 = 1 / 100000000000 := by
  have h3 : |(3 : ℚ)| ≥ small_vel := by norm_num [small_vel]
  have ht : ¬ (|(1 / 100000000000 : ℚ)| ≥ small_vel) := by norm_num [small_vel, abs_of_pos]
  have hA := ((C22_uniform_field ex_slopes_eb ex_slopes_extdir 0 ex_ccbx ex_ubx ex_vbx ex_wbx
    ex_face0 ex_face0 ex_face0 ex_vcc_uniform ex_flag_conn ex_cent ex_cent ex_cent ex_cent
    ex_bcrec ex_bcrec ex_geom 1 0 0 3).1 rfl rfl rfl).2.2 (by decide)
  have hB := ((C22_uniform_field ex_slopes_eb ex_slopes_extdir 0 ex_ccbx ex_ubx ex_vbx ex_wbx
    ex_face0 ex_face0 ex_face0 ex_vcc_tiny ex_flag_conn ex_cent ex_cent ex_cent ex_cent
    ex_bcrec ex_bcrec ex_geom 1 0 0 (1 / 100000000000)).1 rfl rfl rfl).2.2 (by decide)
  have hC := ((C22_uniform_field ex_slopes_eb ex_slopes_extdir 0 ex_ccbx ex_ubx ex_vbx ex_wbx
    ex_face0 ex_face0 ex_face0 ex_vcc_tiny ex_flag_conn ex_cent ex_cent ex_cent ex_cent
    ex_bcrec ex_bcrec ex_geom 0 0 0 (1 / 100000000000)).1 rfl rfl rfl).2.2 (by decide)
  refine ⟨rfl, rfl, rfl, by decide, by decide, rfl, ?_, ?_, ?_⟩
  · rw [hA, if_pos h3, ite_self]
  · rw [hB, if_neg ht, if_neg (by decide)]
  · rw [hC, if_pos (by decide)]

/-! ## C23: the bound on every face value -/

theorem upwind_select_cases (mns pls : ℚ) :
    upwind_select mns pls = 0 ∨ upwind_select mns pls = mns ∨ upwind_select mns pls = pls := by
  simp only [upwind_select]
  split_ifs
  · exact Or.inr (Or.inl rfl)
  · exact Or.inr (Or.inr rfl)
  · exact Or.inl rfl
  · exact Or.inl rfl

theorem face_value_bound (val s2 s1 m p : ℚ)
    (h2 : min m p ≤ s2 ∧ s2 ≤ max m p) (h1 : min m p ≤ s1 ∧ s1 ≤ max m p)
    (h : val = 0 ∨ val = s2 ∨ val = s1 ∨ val = m ∨ val = p) :
    min 0 (min m p) ≤ val ∧ val ≤ max 0 (max m p) ∧ |val| ≤ max |m| |p| := by
  have hv : val = 0 ∨ (min m p ≤ val ∧ val ≤ max m p) := by
    rcases h with h | h | h | h | h
    · exact Or.inl h
    · rw [h]; exact Or.inr h2
    · rw [h]; exact Or.inr h1
    · rw [h]; exact Or.inr ⟨min_le_left _ _, le_max_left _ _⟩
    · rw [h]; exact Or.inr ⟨min_le_right _ _, le_max_right _ _⟩
  rcases hv with h | ⟨l1, l2⟩
  · subst h
    refine ⟨min_le_left _ _, le_max_left _ _, ?_⟩
    rw [abs_zero]
    exact le_trans (abs_nonneg m) (le_max_left _ _)
  · refine ⟨le_trans (min_le_right _ _) l1, le_trans l2 (le_max_right _ _), ?_⟩
    rw [abs_le]
    have m1 := neg_abs_le m
    have m2 := le_abs_self m
    have p1 := neg_abs_le p
    have p2 := le_abs_self p
    have a1 : |m| ≤ max |m| |p| := le_max_left _ _
    have a2 : |p| ≤ max |m| |p| := le_max_right _ _
    constructor
    · rcases min_cases m p with ⟨e, _⟩ | ⟨e, _⟩ <;> linarith
    · rcases max_cases m p with ⟨e, _⟩ | ⟨e, _⟩ <;> linarith

/-- C23. Face-value bound: in each direction, for every slope routine, all centroid
offsets, connectivity flags, boundary records and domain bounds, and at every face index:
the value of the boundary-aware kernel is one of `0`, the clamped low state (`.2`), the
clamped high state (`.1`), or one of the two adjacent raw cell values; the value of the plain
kernel is one of `0` and its two clamped states; each lies in the closed interval
`[min(0, vcc_mns, vcc_pls), max(0, vcc_mns, vcc_pls)]` and its magnitude is at most the larger
of `|vcc_mns|` and `|vcc_pls|`; and the same interval and magnitude bound hold for the value
the driver writes at any index of the direction's face box, whichever kernel the box-level
test selects. -/
theorem C23_face_value_bound (slopes_eb : SlopesEb) (slopes_extdir : SlopesExtdirEb)
    (lev : Nat) (ccbx ubx vbx wbx : Box) (u v w : FaceArray)
    (vcc : Array4) (flag : FlagArray) (fcx fcy fcz ccc : Array4)
    (h_bcrec d_bcrec : Nat → BCRec) (geom : Nat → Geometry)
    (ilo ihi jlo jhi klo khi : Int) (i j k : Int) :
    ((x_kernel_extdir slopes_extdir vcc flag fcx ccc d_bcrec
          ilo ihi jlo jhi klo khi i j k = 0 ∨
      x_kernel_extdir slopes_extdir vcc flag fcx ccc d_bcrec
          ilo ihi jlo jhi klo khi i j k =
        (x_states_extdir slopes_extdir vcc flag fcx ccc d_bcrec
            ilo ihi jlo jhi klo khi i j k).2 ∨
      x_kernel_extdir slopes_extdir vcc flag fcx ccc d_bcrec
          ilo ihi jlo jhi klo khi i j k =
        (x_states_extdir slopes_extdir vcc flag fcx ccc d_bcrec
            ilo ihi jlo jhi klo khi i j k).1 ∨
      x_kernel_extdir slopes_extdir vcc flag fcx ccc d_bcrec
          ilo ihi jlo jhi klo khi i j k = vcc (i-1) j k 0 ∨
      x_kernel_extdir slopes_extdir vcc flag fcx ccc d_bcrec
          ilo ihi jlo jhi klo khi i j k = vcc i j k 0) ∧
      min 0 (min (vcc (i-1) j k 0) (vcc i j k 0)) ≤
        x_kernel_extdir slopes_extdir vcc flag fcx ccc d_bcrec
          ilo ihi jlo jhi klo khi i j k ∧
      x_kernel_extdir slopes_extdir vcc flag fcx ccc d_bcrec
          ilo ihi jlo jhi klo khi i j k ≤
        max 0 (max (vcc (i-1) j k 0) (vcc i j k 0)) ∧
      |x_kernel_extdir slopes_extdir vcc flag fcx ccc d_bcrec
          ilo ihi jlo jhi klo khi i j k| ≤
        max |vcc (i-1) j k 0| |vcc i j k 0|) ∧
    ((x_kernel_plain slopes_eb vcc flag fcx ccc i j k = 0 ∨
      x_kernel_plain slopes_eb vcc flag fcx ccc i j k =
        (x_states_plain slopes_eb vcc flag fcx ccc i j k).2 ∨
      x_kernel_plain slopes_eb vcc flag fcx ccc i j k =
        (x_states_plain slopes_eb vcc flag fcx ccc i j k).1) ∧
      min 0 (min (vcc (i-1) j k 0) (vcc i j k 0)) ≤
        x_kernel_plain slopes_eb vcc flag fcx ccc i j k ∧
      x_kernel_plain slopes_eb vcc flag fcx ccc i j k ≤
        max 0 (max (vcc (i-1) j k 0) (vcc i j k 0)) ∧
      |x_kernel_plain slopes_eb vcc flag fcx ccc i j k| ≤
        max |vcc (i-1) j k 0| |vcc i j k 0|) ∧
    (ubx.contains i j k = true →
      min 0 (min (vcc (i-1) j k 0) (vcc i j k 0)) ≤
        (predict_vels_on_faces_eb slopes_eb slopes_extdir lev ccbx ubx vbx wbx u v w
          vcc flag fcx fcy fcz ccc h_bcrec d_bcrec geom).u i j k ∧
      (predict_vels_on_faces_eb slopes_eb slopes_extdir lev ccbx ubx vbx wbx u v w
          vcc flag fcx fcy fcz ccc h_bcrec d_bcrec geom).u i j k ≤
        max 0 (max (vcc (i-1) j k 0) (vcc i j k 0)) ∧
      |(predict_vels_on_faces_eb slopes_eb slopes_extdir lev ccbx ubx vbx wbx u v w
          vcc flag fcx fcy fcz ccc h_bcrec d_bcrec geom).u i j k| ≤
        max |vcc (i-1) j k 0| |vcc i j k 0|) ∧
    ((y_kernel_extdir slopes_extdir vcc flag fcy ccc d_bcrec
          ilo ihi jlo jhi klo khi i j k = 0 ∨
      y_kernel_extdir slopes_extdir vcc flag fcy ccc d_bcrec
          ilo ihi jlo jhi klo khi i j k =
        (y_states_extdir slopes_extdir vcc flag fcy ccc d_bcrec
            ilo ihi jlo jhi klo khi i j k).2 ∨
      y_kernel_extdir slopes_extdir vcc flag fcy ccc d_bcrec
          ilo ihi jlo jhi klo khi i j k =
        (y_states_extdir slopes_extdir vcc flag fcy ccc d_bcrec
            ilo ihi jlo jhi klo khi i j k).1 ∨
      y_kernel_extdir slopes_extdir vcc flag fcy ccc d_bcrec
          ilo ihi jlo jhi klo khi i j k = vcc i (j-1) k 1 ∨
      y_kernel_extdir slopes_extdir vcc flag fcy ccc d_bcrec
          ilo ihi jlo jhi klo khi i j k = vcc i j k 1) ∧
      min 0 (min (vcc i (j-1) k 1) (vcc i j k 1)) ≤
        y_kernel_extdir slopes_extdir vcc flag fcy ccc d_bcrec
          ilo ihi jlo jhi klo khi i j k ∧
      y_kernel_extdir slopes_extdir vcc flag fcy ccc d_bcrec
          ilo ihi jlo jhi klo khi i j k ≤
        max 0 (max (vcc i (j-1) k 1) (vcc i j k 1)) ∧
      |y_kernel_extdir slopes_extdir vcc flag fcy ccc d_bcrec
          ilo ihi jlo jhi klo khi i j k| ≤
        max |vcc i (j-1) k 1| |vcc i j k 1|) ∧
    ((y_kernel_plain slopes_eb vcc flag fcy ccc i j k = 0 ∨
      y_kernel_plain slopes_eb vcc flag fcy ccc i j k =
        (y_states_plain slopes_eb vcc flag fcy ccc i j k).2 ∨
      y_kernel_plain slopes_eb vcc flag fcy ccc i j k =
        (y_states_plain slopes_eb vcc flag fcy ccc i j k).1) ∧
      min 0 (min (vcc i (j-1) k 1) (vcc i j k 1)) ≤
        y_kernel_plain slopes_eb vcc flag fcy ccc i j k ∧
      y_kernel_plain slopes_eb vcc flag fcy ccc i j k ≤
        max 0 (max (vcc i (j-1) k 1) (vcc i j k 1)) ∧
      |y_kernel_plain slopes_eb vcc flag fcy ccc i j k| ≤
        max |vcc i (j-1) k 1| |vcc i j k 1|) ∧
    (vbx.contains i j k = true →
      min 0 (min (vcc i (j-1) k 1) (vcc i j k 1)) ≤
        (predict_vels_on_faces_eb slopes_eb slopes_extdir lev ccbx ubx vbx wbx u v w
          vcc flag fcx fcy fcz ccc h_bcrec d_bcrec geom).v i j k ∧
      (predict_vels_on_faces_eb slopes_eb slopes_extdir lev ccbx ubx vbx wbx u v w
          vcc flag fcx fcy fcz ccc h_bcrec d_bcrec geom).v i j k ≤
        max 0 (max (vcc i (j-1) k 1) (vcc i j k 1)) ∧
      |(predict_vels_on_faces_eb slopes_eb slopes_extdir lev ccbx ubx vbx wbx u v w
          vcc flag fcx fcy fcz ccc h_bcrec d_bcrec geom).v i j k| ≤
        max |vcc i (j-1) k 1| |vcc i j k 1|) ∧
    ((z_kernel_extdir slopes_extdir vcc flag fcz ccc d_bcrec
          ilo ihi jlo jhi klo khi i j k = 0 ∨
      z_kernel_extdir slopes_extdir vcc flag fcz ccc d_bcrec
          ilo ihi jlo jhi klo khi i j k =
        (z_states_extdir slopes_extdir vcc flag fcz ccc d_bcrec
            ilo ihi jlo jhi klo khi i j k).2 ∨
      z_kernel_extdir slopes_extdir vcc flag fcz ccc d_bcrec
          ilo ihi jlo jhi klo khi i j k =
        (z_states_extdir slopes_extdir vcc flag fcz ccc d_bcrec
            ilo ihi jlo jhi klo khi i j k).1 ∨
      z_kernel_extdir slopes_extdir vcc flag fcz ccc d_bcrec
          ilo ihi jlo jhi klo khi i j k = vcc i j (k-1) 2 ∨
      z_kernel_extdir slopes_extdir vcc flag fcz ccc d_bcrec
          ilo ihi jlo jhi klo khi i j k = vcc i j k 2) ∧
      min 0 (min (vcc i j (k-1) 2) (vcc i j k 2)) ≤
        z_kernel_extdir slopes_extdir vcc flag fcz ccc d_bcrec
          ilo ihi jlo jhi klo khi i j k ∧
      z_kernel_extdir slopes_extdir vcc flag fcz ccc d_bcrec
          ilo ihi jlo jhi klo khi i j k ≤
        max 0 (max (vcc i j (k-1) 2) (vcc i j k 2)) ∧
      |z_kernel_extdir slopes_extdir vcc flag fcz ccc d_bcrec
          ilo ihi jlo jhi klo khi i j k| ≤
        max |vcc i j (k-1) 2| |vcc i j k 2|) ∧
    ((z_kernel_plain slopes_eb vcc flag fcz ccc i j k = 0 ∨
      z_kernel_plain slopes_eb vcc flag fcz ccc i j k =
        (z_states_plain slopes_eb vcc flag fcz ccc i j k).2 ∨
      z_kernel_plain slopes_eb vcc flag fcz ccc i j k =
        (z_states_plain slopes_eb vcc flag fcz ccc i j k).1) ∧
      min 0 (min (vcc i j (k-1) 2) (vcc i j k 2)) ≤
        z_kernel_plain slopes_eb vcc flag fcz ccc i j k ∧
      z_kernel_plain slopes_eb vcc flag fcz ccc i j k ≤
        max 0 (max (vcc i j (k-1) 2) (vcc i j k 2)) ∧
      |z_kernel_plain slopes_eb vcc flag fcz ccc i j k| ≤
        max |vcc i j (k-1) 2| |vcc i j k 2|) ∧
    (wbx.contains i j k = true →
      min 0 (min (vcc i j (k-1) 2) (vcc i j k 2)) ≤
        (predict_vels_on_faces_eb slopes_eb slopes_extdir lev ccbx ubx vbx wbx u v w
          vcc flag fcx fcy fcz ccc h_bcrec d_bcrec geom).w i j k ∧
      (predict_vels_on_faces_eb slopes_eb slopes_extdir lev ccbx ubx vbx wbx u v w
          vcc flag fcx fcy fcz ccc h_bcrec d_bcrec geom).w i j k ≤
        max 0 (max (vcc i j (k-1) 2) (vcc i j k 2)) ∧
      |(predict_vels_on_faces_eb slopes_eb slopes_extdir lev ccbx ubx vbx wbx u v w
          vcc flag fcx fcy fcz ccc h_bcrec d_bcrec geom).w i j k| ≤
        max |vcc i j (k-1) 2| |vcc i j k 2|) := by
  have hxe : ∀ a b c d e f : Int,
      (x_kernel_extdir slopes_extdir vcc flag fcx ccc d_bcrec
          a b c d e f i j k = 0 ∨
      x_kernel_extdir slopes_extdir vcc flag fcx ccc d_bcrec
          a b c d e f i j k =
        (x_states_extdir slopes_extdir vcc flag fcx ccc d_bcrec
            a b c d e f i j k).2 ∨
      x_kernel_extdir slopes_extdir vcc flag fcx ccc d_bcrec
          a b c d e f i j k =
        (x_states_extdir slopes_extdir vcc flag fcx ccc d_bcrec
            a b c d e f i j k).1 ∨
      x_kernel_extdir slopes_extdir vcc flag fcx ccc d_bcrec
          a b c d e f i j k = vcc (i-1) j k 0 ∨
      x_kernel_extdir slopes_extdir vcc flag fcx ccc d_bcrec
          a b c d e f i j k = vcc i j k 0) := by
    intro a b c d e f
    rw [x_kernel_extdir_eq]
    split_ifs
    · exact Or.inr (Or.inr (Or.inr (Or.inl rfl)))
    · exact Or.inr (Or.inr (Or.inr (Or.inr rfl)))
    · rcases upwind_select_cases
        (x_states_extdir slopes_extdir vcc flag fcx ccc d_bcrec
            a b c d e f i j k).2
        (x_states_extdir slopes_extdir vcc flag fcx ccc d_bcrec
            a b c d e f i j k).1 with h | h | h
      · exact Or.inl h
      · exact Or.inr (Or.inl h)
      · exact Or.inr (Or.inr (Or.inl h))
    · exact Or.inl rfl
  have hxp :
      (x_kernel_plain slopes_eb vcc flag fcx ccc i j k = 0 ∨
      x_kernel_plain slopes_eb vcc flag fcx ccc i j k =
        (x_states_plain slopes_eb vcc flag fcx ccc i j k).2 ∨
      x_kernel_plain slopes_eb vcc flag fcx ccc i j k =
        (x_states_plain slopes_eb vcc flag fcx ccc i j k).1) := by
    rw [x_kernel_plain_eq]
    split_ifs
    · rcases upwind_select_cases (x_states_plain slopes_eb vcc flag fcx ccc i j k).2
        (x_states_plain slopes_eb vcc flag fcx ccc i j k).1 with h | h | h
      · exact Or.inl h
      · exact Or.inr (Or.inl h)
      · exact Or.inr (Or.inr h)
    · exact Or.inl rfl
  have cxe : ∀ a b c d e f : Int,
      (min (vcc (i-1) j k 0) (vcc i j k 0) ≤
          (x_states_extdir slopes_extdir vcc flag fcx ccc d_bcrec
              a b c d e f i j k).2 ∧
        (x_states_extdir slopes_extdir vcc flag fcx ccc d_bcrec
            a b c d e f i j k).2 ≤
          max (vcc (i-1) j k 0) (vcc i j k 0)) ∧
      (min (vcc (i-1) j k 0) (vcc i j k 0) ≤
          (x_states_extdir slopes_extdir vcc flag fcx ccc d_bcrec
              a b c d e f i j k).1 ∧
        (x_states_extdir slopes_extdir vcc flag fcx ccc d_bcrec
            a b c d e f i j k).1 ≤
          max (vcc (i-1) j k 0) (vcc i j k 0)) := by
    intro a b c d e f
    simp only [x_states_extdir]
    exact ⟨⟨(clamp_mem _ _ _).1, (clamp_mem _ _ _).2⟩, ⟨(clamp_mem _ _ _).1, (clamp_mem _ _ _).2⟩⟩
  have cxp :
      (min (vcc (i-1) j k 0) (vcc i j k 0) ≤ (x_states_plain slopes_eb vcc flag fcx ccc i j k).2 ∧
        (x_states_plain slopes_eb vcc flag fcx ccc i j k).2 ≤ max (vcc (i-1) j k 0) (vcc i j k 0)) ∧
      (min (vcc (i-1) j k 0) (vcc i j k 0) ≤ (x_states_plain slopes_eb vcc flag fcx ccc i j k).1 ∧
        (x_states_plain slopes_eb vcc flag fcx ccc i j k).1 ≤ max (vcc (i-1) j k 0) (vcc i j k 0)) := by
    simp only [x_states_plain]
    exact ⟨⟨(clamp_mem _ _ _).1, (clamp_mem _ _ _).2⟩, ⟨(clamp_mem _ _ _).1, (clamp_mem _ _ _).2⟩⟩
  have hye : ∀ a b c d e f : Int,
      (y_kernel_extdir slopes_extdir vcc flag fcy ccc d_bcrec
          a b c d e f i j k = 0 ∨
      y_kernel_extdir slopes_extdir vcc flag fcy ccc d_bcrec
          a b c d e f i j k =
        (y_states_extdir slopes_extdir vcc flag fcy ccc d_bcrec
            a b c d e f i j k).2 ∨
      y_kernel_extdir slopes_extdir vcc flag fcy ccc d_bcrec
          a b c d e f i j k =
        (y_states_extdir slopes_extdir vcc flag fcy ccc d_bcrec
            a b c d e f i j k).1 ∨
      y_kernel_extdir slopes_extdir vcc flag fcy ccc d_bcrec
          a b c d e f i j k = vcc i (j-1) k 1 ∨
      y_kernel_extdir slopes_extdir vcc flag fcy ccc d_bcrec
          a b c d e f i j k = vcc i j k 1) := by
    intro a b c d e f
    rw [y_kernel_extdir_eq]
    split_ifs
    · exact Or.inr (Or.inr (Or.inr (Or.inl rfl)))
    · exact Or.inr (Or.inr (Or.inr (Or.inr rfl)))
    · rcases upwind_select_cases
        (y_states_extdir slopes_extdir vcc flag fcy ccc d_bcrec
            a b c d e f i j k).2
        (y_states_extdir slopes_extdir vcc flag fcy ccc d_bcrec
            a b c d e f i j k).1 with h | h | h
      · exact Or.inl h
      · exact Or.inr (Or.inl h)
      · exact Or.inr (Or.inr (Or.inl h))
    · exact Or.inl rfl
  have hyp :
      (y_kernel_plain slopes_eb vcc flag fcy ccc i j k = 0 ∨
      y_kernel_plain slopes_eb vcc flag fcy ccc i j k =
        (y_states_plain slopes_eb vcc flag fcy ccc i j k).2 ∨
      y_kernel_plain slopes_eb vcc flag fcy ccc i j k =
        (y_states_plain slopes_eb vcc flag fcy ccc i j k).1) := by
    rw [y_kernel_plain_eq]
    split_ifs
    · rcases upwind_select_cases (y_states_plain slopes_eb vcc flag fcy ccc i j k).2
        (y_states_plain slopes_eb vcc flag fcy ccc i j k).1 with h | h | h
      · exact Or.inl h
      · exact Or.inr (Or.inl h)
      · exact Or.inr (Or.inr h)
    · exact Or.inl rfl
  have cye : ∀ a b c d e f : Int,
      (min (vcc i (j-1) k 1) (vcc i j k 1) ≤
          (y_states_extdir slopes_extdir vcc flag fcy ccc d_bcrec
              a b c d e f i j k).2 ∧
        (y_states_extdir slopes_extdir vcc flag fcy ccc d_bcrec
            a b c d e f i j k).2 ≤
          max (vcc i (j-1) k 1) (vcc i j k 1)) ∧
      (min (vcc i (j-1) k 1) (vcc i j k 1) ≤
          (y_states_extdir slopes_extdir vcc flag fcy ccc d_bcrec
              a b c d e f i j k).1 ∧
        (y_states_extdir slopes_extdir vcc flag fcy ccc d_bcrec
            a b c d e f i j k).1 ≤
          max (vcc i (j-1) k 1) (vcc i j k 1)) := by
    intro a b c d e f
    simp only [y_states_extdir]
    exact ⟨⟨(clamp_mem _ _ _).1, (clamp_mem _ _ _).2⟩, ⟨(clamp_mem _ _ _).1, (clamp_mem _ _ _).2⟩⟩
  have cyp :
      (min (vcc i (j-1) k 1) (vcc i j k 1) ≤ (y_states_plain slopes_eb vcc flag fcy ccc i j k).2 ∧
        (y_states_plain slopes_eb vcc flag fcy ccc i j k).2 ≤ max (vcc i (j-1) k 1) (vcc i j k 1)) ∧
      (min (vcc i (j-1) k 1) (vcc i j k 1) ≤ (y_states_plain slopes_eb vcc flag fcy ccc i j k).1 ∧
        (y_states_plain slopes_eb vcc flag fcy ccc i j k).1 ≤ max (vcc i (j-1) k 1) (vcc i j k 1)) := by
    simp only [y_states_plain]
    exact ⟨⟨(clamp_mem _ _ _).1, (clamp_mem _ _ _).2⟩, ⟨(clamp_mem _ _ _).1, (clamp_mem _ _ _).2⟩⟩
  have hze : ∀ a b c d e f : Int,
      (z_kernel_extdir slopes_extdir vcc flag fcz ccc d_bcrec
          a b c d e f i j k = 0 ∨
      z_kernel_extdir slopes_extdir vcc flag fcz ccc d_bcrec
          a b c d e f i j k =
        (z_states_extdir slopes_extdir vcc flag fcz ccc d_bcrec
            a b c d e f i j k).2 ∨
      z_kernel_extdir slopes_extdir vcc flag fcz ccc d_bcrec
          a b c d e f i j k =
        (z_states_extdir slopes_extdir vcc flag fcz ccc d_bcrec
            a b c d e f i j k).1 ∨
      z_kernel_extdir slopes_extdir vcc flag fcz ccc d_bcrec
          a b c d e f i j k = vcc i j (k-1) 2 ∨
      z_kernel_extdir slopes_extdir vcc flag fcz ccc d_bcrec
          a b c d e f i j k = vcc i j k 2) := by
    intro a b c d e f
    rw [z_kernel_extdir_eq]
    split_ifs
    · exact Or.inr (Or.inr (Or.inr (Or.inl rfl)))
    · exact Or.inr (Or.inr (Or.inr (Or.inr rfl)))
    · rcases upwind_select_cases
        (z_states_extdir slopes_extdir vcc flag fcz ccc d_bcrec
            a b c d e f i j k).2
        (z_states_extdir slopes_extdir vcc flag fcz ccc d_bcrec
            a b c d e f i j k).1 with h | h | h
      · exact Or.inl h
      · exact Or.inr (Or.inl h)
      · exact Or.inr (Or.inr (Or.inl h))
    · exact Or.inl rfl
  have hzp :
      (z_kernel_plain slopes_eb vcc flag fcz ccc i j k = 0 ∨
      z_kernel_plain slopes_eb vcc flag fcz ccc i j k =
        (z_states_plain slopes_eb vcc flag fcz ccc i j k).2 ∨
      z_kernel_plain slopes_eb vcc flag fcz ccc i j k =
        (z_states_plain slopes_eb vcc flag fcz ccc i j k).1) := by
    rw [z_kernel_plain_eq]
    split_ifs
    · rcases upwind_select_cases (z_states_plain slopes_eb vcc flag fcz ccc i j k).2
        (z_states_plain slopes_eb vcc flag fcz ccc i j k).1 with h | h | h
      · exact Or.inl h
      · exact Or.inr (Or.inl h)
      · exact Or.inr (Or.inr h)
    · exact Or.inl rfl
  have cze : ∀ a b c d e f : Int,
      (min (vcc i j (k-1) 2) (vcc i j k 2) ≤
          (z_states_extdir slopes_extdir vcc flag fcz ccc d_bcrec
              a b c d e f i j k).2 ∧
        (z_states_extdir slopes_extdir vcc flag fcz ccc d_bcrec
            a b c d e f i j k).2 ≤
          max (vcc i j (k-1) 2) (vcc i j k 2)) ∧
      (min (vcc i j (k-1) 2) (vcc i j k 2) ≤
          (z_states_extdir slopes_extdir vcc flag fcz ccc d_bcrec
              a b c d e f i j k).1 ∧
        (z_states_extdir slopes_extdir vcc flag fcz ccc d_bcrec
            a b c d e f i j k).1 ≤
          max (vcc i j (k-1) 2) (vcc i j k 2)) := by
    intro a b c d e f
    simp only [z_states_extdir]
    exact ⟨⟨(clamp_mem _ _ _).1, (clamp_mem _ _ _).2⟩, ⟨(clamp_mem _ _ _).1, (clamp_mem _ _ _).2⟩⟩
  have czp :
      (min (vcc i j (k-1) 2) (vcc i j k 2) ≤ (z_states_plain slopes_eb vcc flag fcz ccc i j k).2 ∧
        (z_states_plain slopes_eb vcc flag fcz ccc i j k).2 ≤ max (vcc i j (k-1) 2) (vcc i j k 2)) ∧
      (min (vcc i j (k-1) 2) (vcc i j k 2) ≤ (z_states_plain slopes_eb vcc flag fcz ccc i j k).1 ∧
        (z_states_plain slopes_eb vcc flag fcz ccc i j k).1 ≤ max (vcc i j (k-1) 2) (vcc i j k 2)) := by
    simp only [z_states_plain]
    exact ⟨⟨(clamp_mem _ _ _).1, (clamp_mem _ _ _).2⟩, ⟨(clamp_mem _ _ _).1, (clamp_mem _ _ _).2⟩⟩
  refine ⟨⟨hxe _ _ _ _ _ _, ?_⟩, ⟨hxp, ?_⟩, fun hb => ?_, ⟨hye _ _ _ _ _ _, ?_⟩, ⟨hyp, ?_⟩, fun hb => ?_,
    ⟨hze _ _ _ _ _ _, ?_⟩, ⟨hzp, ?_⟩, fun hb => ?_⟩
  · exact face_value_bound _ _ _ _ _ (cxe _ _ _ _ _ _).1 (cxe _ _ _ _ _ _).2 (hxe _ _ _ _ _ _)
  · exact face_value_bound _ _ _ _ _ cxp.1 cxp.2
      (hxp.elim Or.inl (fun h => Or.inr (h.elim Or.inl (fun h => Or.inr (Or.inl h)))))
  · rw [predict_u_eq]
    split_ifs
    · simp only [ParallelFor]
      rw [if_pos hb]
      exact face_value_bound _ _ _ _ _ (cxe _ _ _ _ _ _).1 (cxe _ _ _ _ _ _).2 (hxe _ _ _ _ _ _)
    · simp only [ParallelFor]
      rw [if_pos hb]
      exact face_value_bound _ _ _ _ _ cxp.1 cxp.2
        (hxp.elim Or.inl (fun h => Or.inr (h.elim Or.inl (fun h => Or.inr (Or.inl h)))))
  · exact face_value_bound _ _ _ _ _ (cye _ _ _ _ _ _).1 (cye _ _ _ _ _ _).2 (hye _ _ _ _ _ _)
  · exact face_value_bound _ _ _ _ _ cyp.1 cyp.2
      (hyp.elim Or.inl (fun h => Or.inr (h.elim Or.inl (fun h => Or.inr (Or.inl h)))))
  · rw [predict_v_eq]
    split_ifs
    · simp only [ParallelFor]
      rw [if_pos hb]
      exact face_value_bound _ _ _ _ _ (cye _ _ _ _ _ _).1 (cye _ _ _ _ _ _).2 (hye _ _ _ _ _ _)
    · simp only [ParallelFor]
      rw [if_pos hb]
      exact face_value_bound _ _ _ _ _ cyp.1 cyp.2
        (hyp.elim Or.inl (fun h => Or.inr (h.elim Or.inl (fun h => Or.inr (Or.inl h)))))
  · exact face_value_bound _ _ _ _ _ (cze _ _ _ _ _ _).1 (cze _ _ _ _ _ _).2 (hze _ _ _ _ _ _)
  · exact face_value_bound _ _ _ _ _ czp.1 czp.2
      (hzp.elim Or.inl (fun h => Or.inr (h.elim Or.inl (fun h => Or.inr (Or.inl h)))))
  · rw [predict_w_eq]
    split_ifs
    · simp only [ParallelFor]
      rw [if_pos hb]
      exact face_value_bound _ _ _ _ _ (cze _ _ _ _ _ _).1 (cze _ _ _ _ _ _).2 (hze _ _ _ _ _ _)
    · simp only [ParallelFor]
      rw [if_pos hb]
      exact face_value_bound _ _ _ _ _ czp.1 czp.2
        (hzp.elim Or.inl (fun h => Or.inr (h.elim Or.inl (fun h => Or.inr (Or.inl h)))))

/-- C23, at a concrete input: the domain starts at `i = 0` with `ext_dir` on its low x
side, every face is connected, both slope routines return `7`, the ghost cell holds `5` and
every other cell `3`.  The face `(0,0,0)` lies in all three face boxes; the bounds hold for
the three written values, and the written x-face value is the raw ghost value `5`, so that
the upper end of the interval `[min(0,5,3), max(0,5,3)]` is attained. -/
theorem C23_face_value_bound_witness :
    ex_ubx.contains 0 0 0 = true ∧ ex_vbx.contains 0 0 0 = true ∧
    ex_wbx.contains 0 0 0 = true ∧
    ex_vcc (0 - 1) 0 0 0 = 5 ∧ ex_vcc 0 0 0 0 = 3 ∧
    (predict_vels_on_faces_eb ex_slopes_eb ex_slopes_extdir 0 ex_ccbx ex_ubx ex_vbx ex_wbx
        ex_face0 ex_face0 ex_face0 ex_vcc ex_flag_conn ex_cent ex_cent ex_cent ex_cent
        ex_bcrec ex_bcrec ex_geom).u 0 0 0 = 5 ∧
    (min 0 (min (ex_vcc (0 - 1) 0 0 0) (ex_vcc 0 0 0 0)) ≤
        (predict_vels_on_faces_eb ex_slopes_eb ex_slopes_extdir 0 ex_ccbx ex_ubx ex_vbx ex_wbx
          ex_face0 ex_face0 ex_face0 ex_vcc ex_flag_conn ex_cent ex_cent ex_cent ex_cent
          ex_bcrec ex_bcrec ex_geom).u 0 0 0 ∧
      (predict_vels_on_faces_eb ex_slopes_eb ex_slopes_extdir 0 ex_ccbx ex_ubx ex_vbx ex_wbx
          ex_face0 ex_face0 ex_face0 ex_vcc ex_flag_conn ex_cent ex_cent ex_cent ex_cent
          ex_bcrec ex_bcrec ex_geom).u 0 0 0 ≤
        max 0 (max (ex_vcc (0 - 1) 0 0 0) (ex_vcc 0 0 0 0)) ∧
      |(predict_vels_on_faces_eb ex_slopes_eb ex_slopes_extdir 0 ex_ccbx ex_ubx ex_vbx ex_wbx
          ex_face0 ex_face0 ex_face0 ex_vcc ex_flag_conn ex_cent ex_cent ex_cent ex_cent
          ex_bcrec ex_bcrec ex_geom).u 0 0 0| ≤
        max |ex_vcc (0 - 1) 0 0 0| |ex_vcc 0 0 0 0|) ∧
    (min 0 (min (ex_vcc 0 (0 - 1) 0 1) (ex_vcc 0 0 0 1)) ≤
        (predict_vels_on_faces_eb ex_slopes_eb ex_slopes_extdir 0 ex_ccbx ex_ubx ex_vbx ex_wbx
          ex_face0 ex_face0 ex_face0 ex_vcc ex_flag_conn ex_cent ex_cent ex_cent ex_cent
          ex_bcrec ex_bcrec ex_geom).v 0 0 0 ∧
      (predict_vels_on_faces_eb ex_slopes_eb ex_slopes_extdir 0 ex_ccbx ex_ubx ex_vbx ex_wbx
          ex_face0 ex_face0 ex_face0 ex_vcc ex_flag_conn ex_cent ex_cent ex_cent ex_cent
          ex_bcrec ex_bcrec ex_geom).v 0 0 0 ≤
        max 0 (max (ex_vcc 0 (0 - 1) 0 1) (ex_vcc 0 0 0 1)) ∧
      |(predict_vels_on_faces_eb ex_slopes_eb ex_slopes_extdir 0 ex_ccbx ex_ubx ex_vbx ex_wbx
          ex_face0 ex_face0 ex_face0 ex_vcc ex_flag_conn ex_cent ex_cent ex_cent ex_cent
          ex_bcrec ex_bcrec ex_geom).v 0 0 0| ≤
        max |ex_vcc 0 (0 - 1) 0 1| |ex_vcc 0 0 0 1|) ∧
    (min 0 (min (ex_vcc 0 0 (0 - 1) 2) (ex_vcc 0 0 0 2)) ≤
        (predict_vels_on_faces_eb ex_slopes_eb ex_slopes_extdir 0 ex_ccbx ex_ubx ex_vbx ex_wbx
          ex_face0 ex_face0 ex_face0 ex_vcc ex_flag_conn ex_cent ex_cent ex_cent ex_cent
          ex_bcrec ex_bcrec ex_geom).w 0 0 0 ∧
      (predict_vels_on_faces_eb ex_slopes_eb ex_slopes_extdir 0 ex_ccbx ex_ubx ex_vbx ex_wbx
          ex_face0 ex_face0 ex_face0 ex_vcc ex_flag_conn ex_cent ex_cent ex_cent ex_cent
          ex_bcrec ex_bcrec ex_geom).w 0 0 0 ≤
        max 0 (max (ex_vcc 0 0 (0 - 1) 2) (ex_vcc 0 0 0 2)) ∧
      |(predict_vels_on_faces_eb ex_slopes_eb ex_slopes_extdir 0 ex_ccbx ex_ubx ex_vbx ex_wbx
          ex_face0 ex_face0 ex_face0 ex_vcc ex_flag_conn ex_cent ex_cent ex_cent ex_cent
          ex_bcrec ex_bcrec ex_geom).w 0 0 0| ≤
        max |ex_vcc 0 0 (0 - 1) 2| |ex_vcc 0 0 0 2|) :=
  ⟨by decide, by decide, by decide, by decide, by decide,
    (predict_u_low_extdir ex_slopes_eb ex_slopes_extdir 0 ex_ccbx ex_ubx ex_vbx ex_wbx
      ex_face0 ex_face0 ex_face0 ex_vcc ex_flag_conn ex_cent ex_cent ex_cent ex_cent
      ex_bcrec ex_bcrec ex_geom 0 0 0 (fun _ _ => rfl) (by decide) rfl rfl rfl).trans
      (by decide),
    (C23_face_value_bound ex_slopes_eb ex_slopes_extdir 0 ex_ccbx ex_ubx ex_vbx ex_wbx
      ex_face0 ex_face0 ex_face0 ex_vcc ex_flag_conn ex_cent ex_cent ex_cent ex_cent
      ex_bcrec ex_bcrec ex_geom 0 3 0 3 0 3 0 0 0).2.2.1 (by decide),
    (C23_face_value_bound ex_slopes_eb ex_slopes_extdir 0 ex_ccbx ex_ubx ex_vbx ex_wbx
      ex_face0 ex_face0 ex_face0 ex_vcc ex_flag_conn ex_cent ex_cent ex_cent ex_cent
      ex_bcrec ex_bcrec ex_geom 0 3 0 3 0 3 0 0 0).2.2.2.2.2.1 (by decide),
    (C23_face_value_bound ex_slopes_eb ex_slopes_extdir 0 ex_ccbx ex_ubx ex_vbx ex_wbx
      ex_face0 ex_face0 ex_face0 ex_vcc ex_flag_conn ex_cent ex_cent ex_cent ex_cent
      ex_bcrec ex_bcrec ex_geom 0 3 0 3 0 3 0 0 0).2.2.2.2.2.2.2.2 (by decide)⟩

end Incflo
